import Mathlib

/-!
# Kernel-module-management: sign-job orchestration and config resolution

A shallow embedding of

* `internal/build/helper.go` (`ApplyBuildArgOverrides`, `GetRelevantBuild`, `GetRelevantSign`),
* `internal/sign/job/manager.go` (the in-cluster `signJobManager`: `getJob`, `Sync`, `isJobChanged`),
* `internal/build/signer/manager.go` (the standalone `signingManager`: `getJob`, `Sync`, `ShouldRun`),
* `internal/sign/job/signer.go` and `internal/build/signer/signer.go` (the job builders
  `MakeJobTemplate` and `MakeJob`),

followed by theorems about them.

Conventions of the embedding:

* a Go pointer that may be nil is an `Option`; a Go slice is a `List` (nil and empty slices are
  both `[]`, the code only ever takes their `len`); a Go `map[string]string` is an association
  list, and a map that may be nil is an `Option` of one;
* a Go `(value, error)` result is an `Except Error value`, or a pair with an `Option Error` where
  the code returns a meaningful value next to the error;
* the cluster client is a record of the responses it gives; every function that talks to it also
  returns the list of calls it issued, in order;
* a builder that dereferences a nil pointer returns nothing: its result is an `Option`, `none`
  being that fault.
-/

namespace KMM

/-! ## Errors -/

/-- Go `error` values as this code makes them: `errors.New text` and `fmt.Errorf` without `%w`.
Neither wraps another error, so `errors.Is` on them is plain comparison. -/
inductive Error where
  | new (text : String)
  | errorf (text : String)
  deriving DecidableEq, Repr

/-- The method `err.Error()`. -/
def Error.text : Error → String
  | .new t => t
  | .errorf t => t

/-- The call `fmt.Errorf(pre + verb, arg)` for the formats of this code, which all end in their
single verb: the message is the text before the verb followed by the rendered argument. -/
def Errorf (pre : String) (arg : String) : Error :=
  .errorf (pre ++ arg)

/-- The call `errors.Is(err, target)` on errors that have no `Unwrap` chain. -/
def errorsIs (err target : Error) : Bool :=
  decide (err = target)

/-- Rendering of an `error` interface value under `%v`, nil included. -/
def renderErr : Option Error → String
  | none => "<nil>"
  | some e => e.text

/-! ## API types (`api/v1beta1`, `core/v1`, `batch/v1`, `meta/v1`) -/

/-- A Go `map[string]string` as an association list; lookup takes the first binding. -/
abbrev StringMap := List (String × String)

/-- The Go expression `m[key]` on a map that may be nil: the zero value when the key is absent. -/
def mapIndex (m : Option StringMap) (key : String) : String :=
  ((m.getD []).lookup key).getD ""

/-- Modelled from the spec: `core/v1.LocalObjectReference`, declared outside the sources; a
reference to a secret by name. -/
structure LocalObjectReference where
  Name : String
  deriving DecidableEq, Repr

/-- Modelled from the spec: `api/v1beta1.PullOptions`, declared outside the sources; the "pull
toggle" of the spec. The code here never reads its contents. -/
structure PullOptions where
  Insecure : Bool := false
  InsecureSkipTLSVerify : Bool := false
  deriving DecidableEq, Repr

/-- Modelled from the spec: `api/v1beta1.PushOptions`, declared outside the sources; the "push
toggle" of the spec. The code here never reads its contents. -/
structure PushOptions where
  Insecure : Bool := false
  InsecureSkipTLSVerify : Bool := false
  deriving DecidableEq, Repr

/-- Modelled from the spec: `api/v1beta1.BuildArg`, declared outside the sources; a named build
argument. -/
structure BuildArg where
  Name : String := ""
  Value : String := ""
  deriving DecidableEq, Repr, Inhabited

/-- Modelled from the spec: `api/v1beta1.Build`, declared outside the sources: "dockerfile text,
ordered list of named build arguments, list of secret references", and the `Pull` options the
tests set. -/
structure Build where
  BuildArgs : List BuildArg := []
  Dockerfile : String := ""
  Pull : PullOptions := {}
  Secrets : List LocalObjectReference := []
  deriving DecidableEq, Repr

/-- Modelled from the spec: `api/v1beta1.Sign`, declared outside the sources: "unsigned-image
reference, signed-image reference, key-secret reference, cert-secret reference, ordered list of
files-to-sign, pull/push toggles". -/
structure Sign where
  UnsignedImage : String := ""
  SignedImage : String := ""
  KeySecret : Option LocalObjectReference := none
  CertSecret : Option LocalObjectReference := none
  FilesToSign : List String := []
  Pull : Option PullOptions := none
  Push : Option PushOptions := none
  deriving DecidableEq, Repr

/-- Modelled from the spec: `api/v1beta1.KernelMapping`, declared outside the sources; the fields
the code reads. -/
structure KernelMapping where
  Build : Option Build := none
  Sign : Option Sign := none
  ContainerImage : String := ""
  deriving DecidableEq, Repr

/-- Modelled from the spec: `api/v1beta1.ModuleLoaderContainerSpec`, declared outside the
sources. -/
structure ModuleLoaderContainerSpec where
  ContainerImage : String := ""
  Build : Option Build := none
  Sign : Option Sign := none
  deriving DecidableEq, Repr

/-- Modelled from the spec: `api/v1beta1.ModuleLoaderSpec`, declared outside the sources. -/
structure ModuleLoaderSpec where
  Container : ModuleLoaderContainerSpec := {}
  deriving DecidableEq, Repr

/-- Modelled from the spec: `api/v1beta1.ModuleSpec`, declared outside the sources. -/
structure ModuleSpec where
  ModuleLoader : ModuleLoaderSpec := {}
  ImageRepoSecret : Option LocalObjectReference := none
  Selector : Option StringMap := none
  deriving DecidableEq, Repr

/-- Modelled from the spec: `api/v1beta1.Module`, declared outside the sources; `Name` and
`Namespace` are the fields of its embedded object metadata. -/
structure Module where
  Name : String := ""
  Namespace : String := ""
  Spec : ModuleSpec := {}
  deriving DecidableEq, Repr

/-- Modelled from the spec: `core/v1.KeyToPath`, declared outside the sources. -/
structure KeyToPath where
  Key : String := ""
  Path : String := ""
  deriving DecidableEq, Repr

/-- Modelled from the spec: `core/v1.SecretVolumeSource`, declared outside the sources. -/
structure SecretVolumeSource where
  SecretName : String := ""
  Items : List KeyToPath := []
  deriving DecidableEq, Repr

/-- Modelled from the spec: `core/v1.VolumeSource`, declared outside the sources. -/
structure VolumeSource where
  Secret : Option SecretVolumeSource := none
  deriving DecidableEq, Repr

/-- Modelled from the spec: `core/v1.Volume`, declared outside the sources. -/
structure Volume where
  Name : String := ""
  VolumeSource : VolumeSource := {}
  deriving DecidableEq, Repr

/-- Modelled from the spec: `core/v1.VolumeMount`, declared outside the sources. -/
structure VolumeMount where
  Name : String := ""
  ReadOnly : Bool := false
  MountPath : String := ""
  deriving DecidableEq, Repr

/-- Modelled from the spec: `core/v1.Container`, declared outside the sources. -/
structure Container where
  Name : String := ""
  Image : String := ""
  Args : List String := []
  VolumeMounts : List VolumeMount := []
  deriving DecidableEq, Repr

/-- Modelled from the spec: `core/v1.PodSpec`, declared outside the sources. -/
structure PodSpec where
  Containers : List Container := []
  RestartPolicy : String := ""
  Volumes : List Volume := []
  NodeSelector : Option StringMap := none
  deriving DecidableEq, Repr

/-- Modelled from the spec: `core/v1.PodTemplateSpec`, declared outside the sources. -/
structure PodTemplateSpec where
  Spec : PodSpec := {}
  deriving DecidableEq, Repr

/-- Modelled from the spec: `batch/v1.JobSpec`, declared outside the sources. -/
structure JobSpec where
  Completions : Option Int := none
  Template : PodTemplateSpec := {}
  deriving DecidableEq, Repr

/-- Modelled from the spec: `batch/v1.JobStatus`, declared outside the sources; the `active`,
`succeeded` and `failed` counts (Go `int32`). -/
structure JobStatus where
  Active : Int := 0
  Succeeded : Int := 0
  Failed : Int := 0
  deriving DecidableEq, Repr

/-- Modelled from the spec: `meta/v1.OwnerReference`, declared outside the sources. -/
structure OwnerReference where
  APIVersion : String := ""
  Kind : String := ""
  Name : String := ""
  Controller : Option Bool := none
  BlockOwnerDeletion : Option Bool := none
  deriving DecidableEq, Repr

/-- Modelled from the spec: `batch/v1.Job`, declared outside the sources; the fields of its
embedded object metadata are fields of the Job itself. -/
structure Job where
  Name : String := ""
  GenerateName : String := ""
  Namespace : String := ""
  Labels : Option StringMap := none
  Annotations : Option StringMap := none
  OwnerReferences : List OwnerReference := []
  Spec : JobSpec := {}
  Status : JobStatus := {}
  deriving DecidableEq, Repr

/-- The method `GetAnnotations()` of the object metadata. -/
def Job.GetAnnotations (j : Job) : Option StringMap :=
  j.Annotations

/-- Rendering of a Job status under `%v`, cut down to the three counts of the model. -/
def JobStatus.render (s : JobStatus) : String :=
  "\x7b" ++ toString s.Active ++ " " ++ toString s.Succeeded ++ " " ++ toString s.Failed ++ "\x7d"

/-- Modelled from the spec: the label keys of `internal/constants`, a package outside the
sources; the keys of the discovery label set `{moduleName, targetKernel, stage}`. -/
structure Constants where
  ModuleNameLabel : String
  TargetKernelTarget : String
  JobType : String
  BuildStage : String
  deriving DecidableEq, Repr

/-- The keys of each label map of the code are pairwise distinct. The maps are Go map literals
whose keys are constants of `internal/constants`, and Go does not compile a map literal that
repeats a constant key. The in-cluster map has the keys `ModuleNameLabel`,
`TargetKernelTarget`, `JobType`, the standalone one `ModuleNameLabel`, `TargetKernelTarget`,
`BuildStage`. -/
def Constants.distinctKeys (c : Constants) : Prop :=
  c.ModuleNameLabel ≠ c.TargetKernelTarget
    ∧ c.ModuleNameLabel ≠ c.JobType ∧ c.TargetKernelTarget ≠ c.JobType
    ∧ c.ModuleNameLabel ≠ c.BuildStage ∧ c.TargetKernelTarget ≠ c.BuildStage

/-! ## The cluster client (`controller-runtime/pkg/client`) -/

/-- The list options the code passes: `client.MatchingLabels` and `client.InNamespace`. -/
structure ListOptions where
  MatchingLabels : StringMap
  InNamespace : String
  deriving DecidableEq, Repr

/-- The delete options the code passes: `client.PropagationPolicy`. -/
inductive DeleteOption where
  | PropagationPolicy (policy : String)
  deriving DecidableEq, Repr

/-- The constant `metav1.DeletePropagationBackground`. -/
def DeletePropagationBackground : String := "Background"

/-- The cluster client as the code consumes it: what each of `List`, `Create` and `Delete` answers.
`List` either fails or fills the Job list it was handed. -/
structure Client where
  Create : Job → Option Error
  Delete : Job → List DeleteOption → Option Error
  List : ListOptions → Except Error (List Job)

/-- A call issued on the client. -/
inductive Call where
  | List (opts : ListOptions)
  | Create (job : Job)
  | Delete (job : Job) (opts : List DeleteOption)
  deriving DecidableEq, Repr

/-- Whether a call is a `List`. -/
def Call.isList : Call → Bool
  | .List _ => true
  | _ => false

/-- Whether a call is a `Create`. -/
def Call.isCreate : Call → Bool
  | .Create _ => true
  | _ => false

/-- Whether a call is a `Delete`. -/
def Call.isDelete : Call → Bool
  | .Delete _ _ => true
  | _ => false

/-! ## `internal/build`: results -/

namespace build

/-- The type `Status` of `internal/build/manager.go`, a Go string. -/
abbrev Status := String

/-- The constant `StatusCompleted`. -/
def StatusCompleted : Status := "completed"

/-- The constant `StatusCreated`. -/
def StatusCreated : Status := "created"

/-- The constant `StatusInProgress`. -/
def StatusInProgress : Status := "in progress"

/-- The struct `Result` of `internal/build/manager.go`; its zero value is `{}`. -/
structure Result where
  Requeue : Bool := false
  Status : Status := ""
  deriving DecidableEq, Repr

/-! ## `internal/build/helper.go`: the config resolver -/

/-- The interface `Helper` of `internal/build/helper.go`. -/
structure Helper where
  ApplyBuildArgOverrides : List BuildArg → List BuildArg → List BuildArg
  GetRelevantBuild : Module → KernelMapping → Option Build
  GetRelevantSign : Module → KernelMapping → Option Sign

/-- A Go `map[string]BuildArg` as an association list with one binding per key. -/
abbrev BuildArgMap := List (String × BuildArg)

/-- The Go statement `m[k] = v`: the binding of `k` is replaced, or added when there is none. -/
def mapSet (m : BuildArgMap) (k : String) (v : BuildArg) : BuildArgMap :=
  (k, v) :: m.filter (fun p => p.1 ≠ k)

/-- The Go expression `m[k]` of the final loop: the zero value when the key is absent. -/
def mapGet (m : BuildArgMap) (k : String) : BuildArg :=
  (m.lookup k).getD {}

/-- The library call `sets.StringKeySet(m)`: the set of the keys of `m`. -/
def StringKeySet (m : BuildArgMap) : List String :=
  m.map Prod.fst

/-- The library call `s.Delete(k)` on a string set. -/
def setDelete (s : List String) (k : String) : List String :=
  s.filter (fun x => x ≠ k)

/-- The library call `s.List()` on a string set: its elements in ascending order. Go compares
strings bytewise, which on UTF-8 text is the lexicographic order of the code points. -/
def setList (s : List String) : List String :=
  s.insertionSort (fun a b => a.toList ≤ b.toList)

/-- The loop `for _, o := range overrides` of `ApplyBuildArgOverrides`, which fills the map,
empty at first, with `overridesMap[o.Name] = o`. -/
def fillOverridesMap (overrides : List BuildArg) : BuildArgMap :=
  overrides.foldl (fun overridesMap o => mapSet overridesMap o.Name o) []

/-- The loop `for i := 0; i < len(args); i++` of `ApplyBuildArgOverrides`: slot `i` is replaced
by the override of its name when there is one, and that name leaves the set of unused overrides.
Returns the updated slots and the set left. -/
def replaceLoop (overridesMap : BuildArgMap) :
    List BuildArg → List String → List BuildArg × List String
  | [], unusedOverrides => ([], unusedOverrides)
  | arg :: rest, unusedOverrides =>
    let argName := arg.Name
    match overridesMap.lookup argName with
    | some o =>
      let r := replaceLoop overridesMap rest (setDelete unusedOverrides argName)
      (o :: r.1, r.2)
    | none =>
      let r := replaceLoop overridesMap rest unusedOverrides
      (arg :: r.1, r.2)

/-- The method `helper.ApplyBuildArgOverrides`, as the sequence it returns. -/
def ApplyBuildArgOverrides (args : List BuildArg) (overrides : List BuildArg) : List BuildArg :=
  let overridesMap : BuildArgMap := fillOverridesMap overrides
  let unusedOverrides := StringKeySet overridesMap
  let r := replaceLoop overridesMap args unusedOverrides
  r.1 ++ (setList r.2).map (fun overrideName => mapGet overridesMap overrideName)

/-- The method `helper.GetRelevantBuild`; `DeepCopy` of a nil spec is nil. -/
def GetRelevantBuild (mod : Module) (km : KernelMapping) : Option Build :=
  match mod.Spec.ModuleLoader.Container.Build with
  | none => km.Build
  | some modBuild =>
    match km.Build with
    | none => some modBuild
    | some kmBuild =>
      let buildConfig := modBuild
      let buildConfig :=
        if kmBuild.Dockerfile ≠ "" then { buildConfig with Dockerfile := kmBuild.Dockerfile }
        else buildConfig
      let buildConfig :=
        { buildConfig with
          BuildArgs := ApplyBuildArgOverrides buildConfig.BuildArgs kmBuild.BuildArgs }
      let buildConfig := { buildConfig with Secrets := buildConfig.Secrets ++ kmBuild.Secrets }
      some buildConfig

/-- The method `helper.GetRelevantSign`; `DeepCopy` of a nil spec is nil. -/
def GetRelevantSign (mod : Module) (km : KernelMapping) : Option Sign :=
  match mod.Spec.ModuleLoader.Container.Sign with
  | none => km.Sign
  | some modSign =>
    match km.Sign with
    | none => some modSign
    | some kmSign =>
      let signConfig := modSign
      let signConfig :=
        if kmSign.UnsignedImage ≠ "" then { signConfig with UnsignedImage := kmSign.UnsignedImage }
        else signConfig
      let signConfig :=
        if kmSign.SignedImage ≠ "" then { signConfig with SignedImage := kmSign.SignedImage }
        else if signConfig.SignedImage = "" then
          { signConfig with SignedImage := mod.Spec.ModuleLoader.Container.ContainerImage }
        else signConfig
      let signConfig :=
        if kmSign.KeySecret ≠ none then { signConfig with KeySecret := kmSign.KeySecret }
        else signConfig
      let signConfig :=
        if kmSign.CertSecret ≠ none then { signConfig with CertSecret := kmSign.CertSecret }
        else signConfig
      let signConfig :=
        if kmSign.FilesToSign.length > 0 then { signConfig with FilesToSign := kmSign.FilesToSign }
        else signConfig
      let signConfig :=
        if kmSign.Pull ≠ none then { signConfig with Pull := kmSign.Pull } else signConfig
      let signConfig :=
        if kmSign.Push ≠ none then { signConfig with Push := kmSign.Push } else signConfig
      some signConfig

/-- The constructor `NewHelper`: the helper whose methods are the three functions above. -/
def NewHelper : Helper :=
  { ApplyBuildArgOverrides := ApplyBuildArgOverrides
    GetRelevantBuild := GetRelevantBuild
    GetRelevantSign := GetRelevantSign }

end build

/-! ### The config resolver with its faults

The three methods once more, with every pointer dereference and every slice index spelt out. A
Go pointer is an `Option`; reading a field through it, or indexing a slice, is a `match` whose
`none` branch is the run-time fault (nil dereference, index out of range). The result of a
method is `none` when it faults, and `some` of what it returns otherwise. -/

/-- Modelled from the spec: the generated method `(*Build).DeepCopy` of `api/v1beta1`, declared
outside the sources; "a copy of" the spec, and nil for a nil receiver (the resolver "fails:
never", also on an absent spec). -/
def Build.DeepCopy (receiver : Option Build) : Option Build :=
  match receiver with
  | none => none
  | some b => some b

/-- Modelled from the spec: the generated method `(*Sign).DeepCopy` of `api/v1beta1`, declared
outside the sources; "a copy of" the spec, and nil for a nil receiver (the resolver "fails:
never", also on an absent spec). -/
def Sign.DeepCopy (receiver : Option Sign) : Option Sign :=
  match receiver with
  | none => none
  | some s => some s

namespace build.withFaults

/-- The method `helper.ApplyBuildArgOverrides` with its index expressions: the loop
`for i := 0; i < len(args); i++` runs over the indices below `len(args)` (the assignments keep
the length), and `args[i]` out of range is a fault. The assignment `args[i] = o` uses the index
just read. Reading the map, also by an absent key, and `append` cannot fault. -/
def ApplyBuildArgOverrides (args : List BuildArg) (overrides : List BuildArg) :
    Option (List BuildArg) :=
  let overridesMap : BuildArgMap := fillOverridesMap overrides
  let unusedOverrides := StringKeySet overridesMap
  let loop :=
    (List.range args.length).foldlM
      (fun (state : List BuildArg × List String) i =>
        match state.1[i]? with
        | none => none
        | some arg =>
          let argName := arg.Name
          match overridesMap.lookup argName with
          | some o => some (state.1.set i o, setDelete state.2 argName)
          | none => some state)
      (args, unusedOverrides)
  match loop with
  | none => none
  | some state =>
    some (state.1 ++ (setList state.2).map (fun overrideName => mapGet overridesMap overrideName))

/-- The method `helper.GetRelevantBuild` with its dereferences: `buildConfig` is the pointer
that `DeepCopy` returns and `km.Build` is a pointer; the statements after the two guards read
and write through both. -/
def GetRelevantBuild (mod : Module) (km : KernelMapping) : Option (Option Build) :=
  if mod.Spec.ModuleLoader.Container.Build = none then
    some (Build.DeepCopy km.Build)
  else if km.Build = none then
    some (Build.DeepCopy mod.Spec.ModuleLoader.Container.Build)
  else
    match Build.DeepCopy mod.Spec.ModuleLoader.Container.Build, km.Build with
    | some buildConfig, some kmBuild =>
      let buildConfig :=
        if kmBuild.Dockerfile ≠ "" then { buildConfig with Dockerfile := kmBuild.Dockerfile }
        else buildConfig
      match ApplyBuildArgOverrides buildConfig.BuildArgs kmBuild.BuildArgs with
      | none => none
      | some buildArgs =>
        let buildConfig := { buildConfig with BuildArgs := buildArgs }
        let buildConfig := { buildConfig with Secrets := buildConfig.Secrets ++ kmBuild.Secrets }
        some (some buildConfig)
    | _, _ => none

/-- The method `helper.GetRelevantSign` with its dereferences: `signConfig` is the pointer that
`DeepCopy` returns and `km.Sign` is a pointer; the statements after the two guards read and
write through both. -/
def GetRelevantSign (mod : Module) (km : KernelMapping) : Option (Option Sign) :=
  if mod.Spec.ModuleLoader.Container.Sign = none then
    some (Sign.DeepCopy km.Sign)
  else if km.Sign = none then
    some (Sign.DeepCopy mod.Spec.ModuleLoader.Container.Sign)
  else
    match Sign.DeepCopy mod.Spec.ModuleLoader.Container.Sign, km.Sign with
    | some signConfig, some kmSign =>
      let signConfig :=
        if kmSign.UnsignedImage ≠ "" then { signConfig with UnsignedImage := kmSign.UnsignedImage }
        else signConfig
      let signConfig :=
        if kmSign.SignedImage ≠ "" then { signConfig with SignedImage := kmSign.SignedImage }
        else if signConfig.SignedImage = "" then
          { signConfig with SignedImage := mod.Spec.ModuleLoader.Container.ContainerImage }
        else signConfig
      let signConfig :=
        if kmSign.KeySecret ≠ none then { signConfig with KeySecret := kmSign.KeySecret }
        else signConfig
      let signConfig :=
        if kmSign.CertSecret ≠ none then { signConfig with CertSecret := kmSign.CertSecret }
        else signConfig
      let signConfig :=
        if kmSign.FilesToSign.length > 0 then { signConfig with FilesToSign := kmSign.FilesToSign }
        else signConfig
      let signConfig :=
        if kmSign.Pull ≠ none then { signConfig with Pull := kmSign.Pull } else signConfig
      let signConfig :=
        if kmSign.Push ≠ none then { signConfig with Push := kmSign.Push } else signConfig
      some (some signConfig)
    | _, _ => none

end build.withFaults

namespace sign

/-- Modelled from the spec: `sign.Result` and its status constants, declared outside the sources;
"`{status ∈ {Created, InProgress, Completed}, requeue: bool}`", the same shape as `build.Result`. -/
abbrev Result := build.Result

/-- Modelled from the spec: the constant `sign.StatusCompleted`, declared outside the sources. -/
def StatusCompleted : build.Status := build.StatusCompleted

/-- Modelled from the spec: the constant `sign.StatusCreated`, declared outside the sources. -/
def StatusCreated : build.Status := build.StatusCreated

/-- Modelled from the spec: the constant `sign.StatusInProgress`, declared outside the sources. -/
def StatusInProgress : build.Status := build.StatusInProgress

/-- Modelled from the spec: the interface `sign.Helper`, declared outside the sources; the
resolver of the effective Sign spec the in-cluster manager calls. -/
structure Helper where
  GetRelevantSign : Module → KernelMapping → Option Sign

end sign

/-! ## `internal/sign/job`: the in-cluster sign-job manager -/

namespace signjob

/-- The constant `jobHashAnnotation`. -/
def jobHashAnnotation : String := "kmm.node.kubernetes.io/last-hash"

/-- The package variable `errNoMatchingBuild`. -/
def errNoMatchingBuild : Error := .new "no matching signing job"

/-- The interface `Signer` of `internal/sign/job/signer.go`. A successful call returns a Job. -/
structure Signer where
  MakeJobTemplate : Module → Option Sign → String → String → String → Bool → Except Error Job

/-- The struct `signJobManager`. -/
structure signJobManager where
  client : Client
  signer : Signer
  helper : sign.Helper

/-- The function `labels` of `internal/sign/job/manager.go`. -/
def labels (c : Constants) (mod : Module) (targetKernel : String) : StringMap :=
  [(c.ModuleNameLabel, mod.Name), (c.TargetKernelTarget, targetKernel), (c.JobType, "sign")]

/-- The method `signJobManager.getJob`: the outcome and the client calls issued. The branches
`n == 0`, `n > 1` and the remaining `n = 1` on `n := len(jobList.Items)` are the three shapes of
the list. -/
def getJob (c : Constants) (jbm : signJobManager) (mod : Module) (targetKernel : String) :
    Except Error Job × List Call :=
  let opts : ListOptions :=
    { MatchingLabels := labels c mod targetKernel, InNamespace := mod.Namespace }
  match jbm.client.List opts with
  | .error err => (.error (Errorf "could not list jobs: " err.text), [Call.List opts])
  | .ok items =>
    match items with
    | [] => (.error errNoMatchingBuild, [Call.List opts])
    | [job] => (.ok job, [Call.List opts])
    | _ :: _ :: _ =>
      (.error (Errorf "expected 0 or 1 job, got " (toString items.length)), [Call.List opts])

/-- The method `signJobManager.isJobChanged`. -/
def isJobChanged (existingJob newJob : Job) : Except Error Bool :=
  let existingAnnotations := existingJob.GetAnnotations
  let newAnnotations := newJob.GetAnnotations
  match existingAnnotations with
  | none =>
    .error (Errorf "annotations are not present in the existing job " existingJob.Name)
  | some _ =>
    if mapIndex existingAnnotations jobHashAnnotation = mapIndex newAnnotations jobHashAnnotation
    then .ok false
    else .ok true

/-- The method `signJobManager.Sync`: the returned `(Result, error)` pair and the client calls
issued, in order. An error of `Delete` is only logged, so both its answers lead to the same
return. -/
def Sync (c : Constants) (jbm : signJobManager) (mod : Module) (m : KernelMapping)
    (targetKernel imageToSign targetImage : String) (pushImage : Bool) :
    (sign.Result × Option Error) × List Call :=
  let signConfig := jbm.helper.GetRelevantSign mod m
  match jbm.signer.MakeJobTemplate mod signConfig targetKernel imageToSign targetImage pushImage with
  | .error err => (({}, some (Errorf "could not make Job template: " err.text)), [])
  | .ok jobTemplate =>
    match getJob c jbm mod targetKernel with
    | (.error err, calls) =>
      if !errorsIs err errNoMatchingBuild then
        (({}, some (Errorf "error getting the signing job: " err.text)), calls)
      else
        match jbm.client.Create jobTemplate with
        | some err =>
          (({}, some (Errorf "could not create Job: " err.text)), calls ++ [Call.Create jobTemplate])
        | none =>
          (({ Status := sign.StatusCreated, Requeue := true }, none),
            calls ++ [Call.Create jobTemplate])
    | (.ok job, calls) =>
      match isJobChanged job jobTemplate with
      | .error err =>
        (({}, some (Errorf "could not determine if job has changed: " err.text)), calls)
      | .ok changed =>
        if changed then
          let opts := [DeleteOption.PropagationPolicy DeletePropagationBackground]
          match jbm.client.Delete job opts with
          | some _ =>
            (({ Status := sign.StatusInProgress, Requeue := true }, none),
              calls ++ [Call.Delete job opts])
          | none =>
            (({ Status := sign.StatusInProgress, Requeue := true }, none),
              calls ++ [Call.Delete job opts])
        else if job.Status.Succeeded = 1 then
          (({ Status := sign.StatusCompleted }, none), calls)
        else if job.Status.Active = 1 then
          (({ Status := sign.StatusInProgress, Requeue := true }, none), calls)
        else if job.Status.Failed = 1 then
          (({}, some (Errorf "job failed: " (renderErr none))), calls)
        else
          (({}, some (Errorf "unknown status: " job.Status.render)), calls)

end signjob

/-! ## `internal/build/signer`: the standalone signing manager -/

namespace signer

/-- The package variable `errNoMatchingJob`. -/
def errNoMatchingJob : Error := .new "no matching job"

/-- The interface `Signer` of `internal/build/signer/signer.go`. A successful call returns a
Job. -/
structure Signer where
  MakeJob : Module → Option Sign → String → Bool → Except Error Job
  GetName : String

/-- The struct `signingManager`; its `registry` field is never used by the methods here. -/
structure signingManager where
  client : Client
  signer : Signer
  helper : build.Helper

/-- The function `labels` of `internal/build/signer/manager.go`. -/
def labels (c : Constants) (mod : Module) (targetKernel : String) (jobname : String) : StringMap :=
  [(c.ModuleNameLabel, mod.Name), (c.TargetKernelTarget, targetKernel), (c.BuildStage, jobname)]

/-- The method `signingManager.GetName`. -/
def GetName (sm : signingManager) : String :=
  sm.signer.GetName

/-- The method `signingManager.ShouldRun`. -/
def ShouldRun (mod : Module) (km : KernelMapping) : Bool :=
  if mod.Spec.ModuleLoader.Container.Sign = none ∧ km.Sign = none then false else true

/-- The method `signingManager.getJob`: the outcome and the client calls issued. The branches
`n == 0`, `n > 1` and the remaining `n = 1` on `n := len(jobList.Items)` are the three shapes of
the list. -/
def getJob (c : Constants) (sm : signingManager) (mod : Module) (targetKernel : String) :
    Except Error Job × List Call :=
  let opts : ListOptions :=
    { MatchingLabels := labels c mod targetKernel (GetName sm), InNamespace := mod.Namespace }
  match sm.client.List opts with
  | .error err => (.error (Errorf "could not list jobs: " err.text), [Call.List opts])
  | .ok items =>
    match items with
    | [] => (.error errNoMatchingJob, [Call.List opts])
    | [job] => (.ok job, [Call.List opts])
    | _ :: _ :: _ =>
      (.error (Errorf "expected 0 or 1 job, got " (toString items.length)), [Call.List opts])

/-- The method `signingManager.Sync`: the returned `(Result, error)` pair and the client calls
issued, in order. -/
def Sync (c : Constants) (sm : signingManager) (mod : Module) (km : KernelMapping)
    (targetKernel : String) (pushImage : Bool) : (build.Result × Option Error) × List Call :=
  let signConfig := sm.helper.GetRelevantSign mod km
  match getJob c sm mod targetKernel with
  | (.error err, calls) =>
    if !errorsIs err errNoMatchingJob then
      (({}, some (Errorf "error getting the job: " err.text)), calls)
    else
      match sm.signer.MakeJob mod signConfig targetKernel pushImage with
      | .error err => (({}, some (Errorf "could not make Job: " err.text)), calls)
      | .ok job =>
        match sm.client.Create job with
        | some err =>
          (({}, some (Errorf "could not create Job: " err.text)), calls ++ [Call.Create job])
        | none =>
          (({ Status := build.StatusCreated, Requeue := true }, none), calls ++ [Call.Create job])
  | (.ok job, calls) =>
    if job.Status.Succeeded = 1 then
      (({ Status := build.StatusCompleted }, none), calls)
    else if job.Status.Active = 1 then
      (({ Status := build.StatusInProgress, Requeue := true }, none), calls)
    else if job.Status.Failed = 1 then
      (({}, some (Errorf "job failed: " (renderErr none))), calls)
    else
      (({}, some (Errorf "unknown status: " job.Status.render)), calls)

end signer

/-! ## The job builders (`internal/sign/job/signer.go`, `internal/build/signer/signer.go`)

A builder returns `some (.ok job)` or `some (.error err)`; it is `none` where the source
dereferences a nil pointer and so returns nothing. -/

/-- The library call `controllerutil.SetControllerReference(&mod, job, scheme)` as a scheme
answers it: an error, or the owner references the Job carries afterwards. The call changes no
other part of the Job. -/
structure Scheme where
  SetControllerReference : Module → Job → Except Error (List OwnerReference)

/-- The constant `v1.RestartPolicyOnFailure`. -/
def RestartPolicyOnFailure : String := "OnFailure"

/-- The constant `v1.DockerConfigJsonKey`. -/
def DockerConfigJsonKey : String := ".dockerconfigjson"

namespace signjob

/-- The struct `signer` of `internal/sign/job/signer.go`; its `helper` field is never used by
the methods here. -/
structure signer where
  scheme : Scheme

/-- The method `signer.volumeNameFromSecretRef`. -/
def volumeNameFromSecretRef (ref : LocalObjectReference) : String :=
  "secret-" ++ ref.Name

/-- The method `signer.makeImageSigningSecretVolume`. -/
def makeImageSigningSecretVolume (secretRef : Option LocalObjectReference) (key : String)
    (path : String) : Volume :=
  match secretRef with
  | none => {}
  | some ref =>
    { Name := volumeNameFromSecretRef ref
      VolumeSource :=
        { Secret := some { SecretName := ref.Name, Items := [{ Key := key, Path := path }] } } }

/-- The method `signer.makeImageSecretVolumeMount`. -/
def makeImageSecretVolumeMount (secretRef : Option LocalObjectReference) (mountPath : String) :
    VolumeMount :=
  match secretRef with
  | none => {}
  | some ref => { Name := volumeNameFromSecretRef ref, ReadOnly := true, MountPath := mountPath }

/-- The method `signer.MakeJobTemplate`. Every path of the source reads a field of `signConfig`
before it returns (`signConfig.UnsignedImage`, or `len(signConfig.FilesToSign)` when
`previousImage` is given), so a nil `signConfig` is a nil dereference. The `match` on the image to
sign stands for the `if / else if / else` of the source, whose last branch returns the error. -/
def MakeJobTemplate (c : Constants) (m : signer) (mod : Module) (signConfig : Option Sign)
    (targetKernel : String) (previousImage : String) (targetImage : String) (pushImage : Bool) :
    Option (Except Error Job) :=
  match signConfig with
  | none => none
  | some signConfig =>
    let args : List String :=
      if pushImage then ["-signedimage", targetImage] else [] ++ ["-no-push"]
    match (if previousImage ≠ "" then some previousImage
        else if signConfig.UnsignedImage ≠ "" then some signConfig.UnsignedImage
        else none) with
    | none => some (.error (Errorf "no image to sign given" ""))
    | some unsignedImage =>
      let args := args ++ ["-unsignedimage", unsignedImage]
      let args := args ++ ["-key", "/signingkey/key.priv"]
      let args := args ++ ["-cert", "/signingcert/public.der"]
      let args :=
        if signConfig.FilesToSign.length > 0 then
          args ++ ["-filestosign", ":".intercalate signConfig.FilesToSign]
        else args
      let volumes : List Volume := []
      let volumeMounts : List VolumeMount := []
      let volumes := volumes ++ [makeImageSigningSecretVolume signConfig.KeySecret "key" "key.priv"]
      let volumes :=
        volumes ++ [makeImageSigningSecretVolume signConfig.CertSecret "cert" "public.der"]
      let volumeMounts :=
        volumeMounts ++ [makeImageSecretVolumeMount signConfig.CertSecret "/signingcert"]
      let volumeMounts :=
        volumeMounts ++ [makeImageSecretVolumeMount signConfig.KeySecret "/signingkey"]
      let args :=
        if mod.Spec.ImageRepoSecret ≠ none then
          args ++ ["-pullsecret", "/docker_config/config.json"]
        else args
      let volumes :=
        if mod.Spec.ImageRepoSecret ≠ none then
          volumes ++ [makeImageSigningSecretVolume mod.Spec.ImageRepoSecret DockerConfigJsonKey
            "config.json"]
        else volumes
      let volumeMounts :=
        if mod.Spec.ImageRepoSecret ≠ none then
          volumeMounts ++ [makeImageSecretVolumeMount mod.Spec.ImageRepoSecret "/docker_config"]
        else volumeMounts
      let job : Job :=
        { GenerateName := mod.Name ++ "-sign-"
          Namespace := mod.Namespace
          Labels := some (labels c mod targetKernel)
          Spec :=
            { Completions := some 1
              Template :=
                { Spec :=
                    { Containers :=
                        [{ Name := "signimage"
                           Image := "quay.io/chrisp262/kmod-signer:latest"
                           Args := args
                           VolumeMounts := volumeMounts }]
                      RestartPolicy := RestartPolicyOnFailure
                      Volumes := volumes
                      NodeSelector := mod.Spec.Selector } } } }
      match m.scheme.SetControllerReference mod job with
      | .error err => some (.error (Errorf "could not set the owner reference: " err.text))
      | .ok ownerReferences => some (.ok { job with OwnerReferences := ownerReferences })

end signjob

namespace signer

set_option linter.dupNamespace false

/-- The struct `signer` of `internal/build/signer/signer.go`; its `helper` field is never used by
the methods here. -/
structure signer where
  name : String
  scheme : Scheme

/-- The constructor `NewSigner`. -/
def NewSigner (scheme : Scheme) : signer :=
  { name := "sign", scheme := scheme }

/-- The method `signer.GetName`. -/
def signer.GetName (m : signer) : String :=
  m.name

/-- The method `signer.volumeNameFromSecretRef`. -/
def volumeNameFromSecretRef (ref : LocalObjectReference) : String :=
  "secret-" ++ ref.Name

/-- The method `signer.makeImageSigningSecretVolume`, which dereferences `secretRef` without a
nil check. -/
def makeImageSigningSecretVolume (secretRef : Option LocalObjectReference) (key : String)
    (path : String) : Option Volume :=
  match secretRef with
  | none => none
  | some ref =>
    some
      { Name := volumeNameFromSecretRef ref
        VolumeSource :=
          { Secret := some { SecretName := ref.Name, Items := [{ Key := key, Path := path }] } } }

/-- The method `signer.makeImageSigningSecretVolumeMount`, which dereferences `secretRef` without
a nil check. -/
def makeImageSigningSecretVolumeMount (secretRef : Option LocalObjectReference)
    (mountpoint : String) : Option VolumeMount :=
  match secretRef with
  | none => none
  | some ref =>
    some { Name := volumeNameFromSecretRef ref, ReadOnly := true, MountPath := mountpoint }

/-- The method `signer.makeImagePullSecretVolume`. -/
def makeImagePullSecretVolume (secretRef : Option LocalObjectReference) : Volume :=
  match secretRef with
  | none => {}
  | some ref =>
    { Name := volumeNameFromSecretRef ref
      VolumeSource :=
        { Secret := some
            { SecretName := ref.Name
              Items := [{ Key := DockerConfigJsonKey, Path := "config.json" }] } } }

/-- The method `signer.makeImagePullSecretVolumeMount`. -/
def makeImagePullSecretVolumeMount (secretRef : Option LocalObjectReference) : VolumeMount :=
  match secretRef with
  | none => {}
  | some ref =>
    { Name := volumeNameFromSecretRef ref, ReadOnly := true, MountPath := "/docker_config" }

/-- The method `signer.MakeJob`. It reads fields of `signConfig` at once, so a nil `signConfig`
is a nil dereference, as is a nil `KeySecret` or `CertSecret` in the volume helpers. -/
def MakeJob (c : Constants) (m : signer) (mod : Module) (signConfig : Option Sign)
    (targetKernel : String) (pushImage : Bool) : Option (Except Error Job) :=
  match signConfig with
  | none => none
  | some signConfig =>
    let args : List String :=
      if pushImage then ["-signedimage", signConfig.SignedImage] else [] ++ ["-no-push"]
    let args := args ++ ["-unsignedimage", signConfig.UnsignedImage]
    let args := args ++ ["-pullsecret", "/docker_config/config.json"]
    let args := args ++ ["-key", "/signingkey/key.priv"]
    let args := args ++ ["-cert", "/signingcert/public.der"]
    let args :=
      if signConfig.FilesToSign.length > 0 then
        args ++ ["-filestosign", ":".intercalate signConfig.FilesToSign]
      else args
    let volumes : List Volume := []
    let volumeMounts : List VolumeMount := []
    match makeImageSigningSecretVolume signConfig.KeySecret "key" "key.priv" with
    | none => none
    | some keyVolume =>
      let volumes := volumes ++ [keyVolume]
      match makeImageSigningSecretVolume signConfig.CertSecret "cert" "public.der" with
      | none => none
      | some certVolume =>
        let volumes := volumes ++ [certVolume]
        match makeImageSigningSecretVolumeMount signConfig.CertSecret "/signingcert" with
        | none => none
        | some certMount =>
          let volumeMounts := volumeMounts ++ [certMount]
          match makeImageSigningSecretVolumeMount signConfig.KeySecret "/signingkey" with
          | none => none
          | some keyMount =>
            let volumeMounts := volumeMounts ++ [keyMount]
            let volumes :=
              if mod.Spec.ImageRepoSecret ≠ none then
                volumes ++ [makeImagePullSecretVolume mod.Spec.ImageRepoSecret]
              else volumes
            let volumeMounts :=
              if mod.Spec.ImageRepoSecret ≠ none then
                volumeMounts ++ [makeImagePullSecretVolumeMount mod.Spec.ImageRepoSecret]
              else volumeMounts
            let job : Job :=
              { GenerateName := mod.Name ++ "-" ++ m.GetName ++ "-"
                Namespace := mod.Namespace
                Labels := some (labels c mod targetKernel m.GetName)
                Spec :=
                  { Completions := some 1
                    Template :=
                      { Spec :=
                          { Containers :=
                              [{ Name := "signimage"
                                 Image := "quay.io/chrisp262/kmod-signer:latest"
                                 Args := args
                                 VolumeMounts := volumeMounts }]
                            RestartPolicy := RestartPolicyOnFailure
                            Volumes := volumes
                            NodeSelector := mod.Spec.Selector } } } }
            match m.scheme.SetControllerReference mod job with
            | .error err => some (.error (Errorf "could not set the owner reference: " err.text))
            | .ok ownerReferences => some (.ok { job with OwnerReferences := ownerReferences })

end signer

/-! ## The job store

The cluster's task store is an external collaborator; Sync meets it only through the client.
To speak of Sync as a step on the store, the store state is the collection of the Jobs it holds,
and a client over it answers `List` from that collection. -/

/-- Modelled from the spec: a state of the JobStore, "the cluster's task API: list-by-label,
create, delete": the Jobs the store holds. -/
abbrev Store := List Job

/-- Whether an object's labels satisfy a label selector given as a map: every pair of the
selector is a label of the object. -/
def selectorMatches (selector : StringMap) (labels : Option StringMap) : Bool :=
  selector.all (fun kv => (labels.getD []).lookup kv.1 == some kv.2)

/-- Whether a Job answers a `List` query: it lies in the namespace asked for (an empty namespace
asks for all) and its labels satisfy the selector. -/
def matchesQuery (opts : ListOptions) (job : Job) : Bool :=
  (opts.InNamespace == "" || job.Namespace == opts.InNamespace)
    && selectorMatches opts.MatchingLabels job.Labels

/-- The Jobs of a store that answer a `List` query. -/
def Store.matching (s : Store) (opts : ListOptions) : List Job :=
  s.filter (matchesQuery opts)

/-- The errors a client over a store answers with: for each kind of call either none (the call
reaches the store) or the error returned. -/
structure Faults where
  listErr : Option Error := none
  createErr : Option Error := none
  deleteErr : Option Error := none
  deriving DecidableEq, Repr

/-- Modelled from the spec: the client over a store state: `List` answers with the matching
Jobs, unless the call fails; `Create` and `Delete` answer with their fault, if any. -/
def storeClient (s : Store) (f : Faults) : Client :=
  { List := fun opts =>
      match f.listErr with
      | some err => .error err
      | none => .ok (s.matching opts)
    Create := fun _ => f.createErr
    Delete := fun _ _ => f.deleteErr }

/-- Modelled from the spec: the effect of one client call on the store: a `Create` that succeeds
adds the Job as given (what the server fills in is not modelled), a `Delete` that succeeds
removes the Jobs of that namespace and name, a failed call and a `List` change nothing. -/
def applyCall (f : Faults) (s : Store) : Call → Store
  | .List _ => s
  | .Create job =>
    match f.createErr with
    | some _ => s
    | none => s ++ [job]
  | .Delete job _ =>
    match f.deleteErr with
    | some _ => s
    | none => s.filter (fun j => ¬ (j.Namespace = job.Namespace ∧ j.Name = job.Name))

/-- The effect of a sequence of client calls on the store. -/
def applyCalls (f : Faults) (s : Store) (calls : List Call) : Store :=
  calls.foldl (applyCall f) s

namespace signjob

/-- One in-cluster Sync as a step on the store: the manager's client is the client over the
store; the step returns what Sync returns and the store the calls leave. -/
def syncStep (c : Constants) (jbm : signJobManager) (f : Faults) (s : Store) (mod : Module)
    (m : KernelMapping) (targetKernel imageToSign targetImage : String) (pushImage : Bool) :
    ((sign.Result × Option Error) × List Call) × Store :=
  let r := Sync c { jbm with client := storeClient s f } mod m targetKernel imageToSign
    targetImage pushImage
  (r, applyCalls f s r.2)

end signjob

namespace signer

/-- One standalone Sync as a step on the store: the manager's client is the client over the
store; the step returns what Sync returns and the store the calls leave. -/
def syncStep (c : Constants) (sm : signingManager) (f : Faults) (s : Store) (mod : Module)
    (km : KernelMapping) (targetKernel : String) (pushImage : Bool) :
    ((build.Result × Option Error) × List Call) × Store :=
  let r := Sync c { sm with client := storeClient s f } mod km targetKernel pushImage
  (r, applyCalls f s r.2)

end signer

/-! ## Sample inputs

The inputs of the repository's tests (`manager_test.go`), used to evaluate the definitions. -/

/-- Label keys for the samples. -/
def sampleConstants : Constants :=
  { ModuleNameLabel := "kmm.node.kubernetes.io/module.name"
    TargetKernelTarget := "kmm.node.kubernetes.io/target-kernel"
    JobType := "kmm.node.kubernetes.io/job-type"
    BuildStage := "kmm.node.kubernetes.io/build.stage" }

/-- The module of the tests. -/
def sampleModule : Module :=
  { Name := "module-name", Namespace := "some-namespace" }

/-- The kernel mapping of the tests. -/
def sampleKernelMapping : KernelMapping :=
  { Build := some {}, ContainerImage := "image-name" }

/-- A Job of the tests: hash annotation `hash` and status `s`. -/
def sampleJob (hash : String) (s : JobStatus) : Job :=
  { Name := "some-job", Namespace := "some-namespace"
    Annotations := some [(signjob.jobHashAnnotation, hash)], Status := s }

/-- A Job of the tests that carries no annotations at all, with status `s`. -/
def sampleJobNoAnnotations (s : JobStatus) : Job :=
  { Name := "some-job", Namespace := "some-namespace", Status := s }

/-- A Job in the store: the Job of the tests with the discovery labels of the in-cluster
variant for the module of the tests and the kernel `1.2.3`. -/
def sampleStoredJob (hash : String) (s : JobStatus) : Job :=
  { Name := "some-job", Namespace := "some-namespace"
    Labels := some (signjob.labels sampleConstants sampleModule "1.2.3")
    Annotations := some [(signjob.jobHashAnnotation, hash)], Status := s }

/-- A mock client: `List` answers `items`, `Create` and `Delete` answer the given errors. -/
def mockClient (items : Except Error (List Job)) (createErr deleteErr : Option Error) : Client :=
  { List := fun _ => items, Create := fun _ => createErr, Delete := fun _ _ => deleteErr }

/-- An in-cluster manager over mocks: the client above, a signer that answers `template`, and
the real config resolver. -/
def mockSignJobManager (items : Except Error (List Job)) (createErr deleteErr : Option Error)
    (template : Except Error Job) : signjob.signJobManager :=
  { client := mockClient items createErr deleteErr
    signer := { MakeJobTemplate := fun _ _ _ _ _ _ => template }
    helper := { GetRelevantSign := build.GetRelevantSign } }

/-- A standalone manager over mocks: the client above, a signer named `sign` that answers
`job`, and the real config resolver. -/
def mockSigningManager (items : Except Error (List Job)) (createErr deleteErr : Option Error)
    (job : Except Error Job) : signer.signingManager :=
  { client := mockClient items createErr deleteErr
    signer := { MakeJob := fun _ _ _ _ => job, GetName := "sign" }
    helper := build.NewHelper }

/-- A module that defines no Sign spec and has the container image `image-name`. -/
def sampleModuleNoSign : Module :=
  { Name := "module-name", Namespace := "some-namespace"
    Spec := { ModuleLoader := { Container := { ContainerImage := "image-name" } } } }

/-- A module whose Sign spec sets every field. -/
def sampleModuleSign : Module :=
  { Name := "module-name", Namespace := "some-namespace"
    Spec := { ModuleLoader := { Container :=
      { ContainerImage := "image-name"
        Sign := some
          { UnsignedImage := "mod-unsigned", SignedImage := "mod-signed"
            KeySecret := some { Name := "mod-key" }, CertSecret := some { Name := "mod-cert" }
            FilesToSign := ["/modules/mod.ko"], Pull := some {}, Push := some {} } } } } }

/-- A kernel mapping whose Sign spec is present and empty. -/
def sampleKernelMappingEmptySign : KernelMapping :=
  { Sign := some {}, ContainerImage := "image-name" }

/-- A kernel mapping whose Sign spec sets the signed image, the key secret and the files. -/
def sampleKernelMappingSign : KernelMapping :=
  { Sign := some
      { SignedImage := "km-signed", KeySecret := some { Name := "km-key" }
        FilesToSign := ["/modules/km.ko"] }
    ContainerImage := "image-name" }

/-- The Build spec of the sample module: two arguments, two secrets. -/
def sampleModuleBuildSpec : Build :=
  { BuildArgs := [⟨"a", "1"⟩, ⟨"b", "2"⟩], Dockerfile := "FROM mod", Secrets := [⟨"s1"⟩, ⟨"s2"⟩] }

/-- The Build spec of the sample kernel mapping: it overrides `b`, adds `c`, and repeats the
secret `s1`. -/
def sampleKernelMappingBuildSpec : Build :=
  { BuildArgs := [⟨"c", "7"⟩, ⟨"b", "x"⟩], Dockerfile := "FROM km", Secrets := [⟨"s1"⟩] }

/-- A module that defines the Build spec above. -/
def sampleModuleBuild : Module :=
  { Name := "module-name", Namespace := "some-namespace"
    Spec := { ModuleLoader := { Container := { Build := some sampleModuleBuildSpec } } } }

/-- A kernel mapping that defines the Build spec above. -/
def sampleKernelMappingBuild : KernelMapping :=
  { Build := some sampleKernelMappingBuildSpec, ContainerImage := "image-name" }

/-- A scheme that registers the Module type: the controller reference of the builder tests. -/
def sampleScheme : Scheme :=
  { SetControllerReference := fun mod _ =>
      .ok [{ APIVersion := "kmm.sigs.k8s.io/v1beta1", Kind := "Module", Name := mod.Name
             Controller := some true, BlockOwnerDeletion := some true }] }

/-- A scheme that does not know the Module type: the owner reference cannot be set. -/
def sampleSchemeEmpty : Scheme :=
  { SetControllerReference := fun _ _ =>
      .error (.new "no kind is registered for the type v1beta1.Module in scheme") }

/-- The sign config of the builder tests. -/
def sampleSign : Sign :=
  { UnsignedImage := "my.registry/my/image", SignedImage := "my.registry/my/image-signed"
    KeySecret := some { Name := "securebootkey" }, CertSecret := some { Name := "securebootcert" }
    FilesToSign := ["/modules/simple-kmod.ko", "/modules/simple-procfs-kmod.ko"] }

/-- The module of the tests with the image-pull secret of the builder tests. -/
def sampleModulePullSecret : Module :=
  { Name := "module-name", Namespace := "some-namespace"
    Spec := { ImageRepoSecret := some { Name := "pull-push-secret" } } }

/-- The resolved Sign spec of the spec's first-Sync scenario. -/
def sampleScenarioSign : Sign :=
  { UnsignedImage := "my.registry/img", SignedImage := "my.registry/img-signed"
    KeySecret := some { Name := "securebootkey" }, CertSecret := some { Name := "securebootcert" } }

/-- A module that defines that Sign spec and no image-pull secret. -/
def sampleScenarioModule : Module :=
  { Name := "module-name", Namespace := "some-namespace"
    Spec := { ModuleLoader := { Container := { Sign := some sampleScenarioSign } } } }

/-- An in-cluster manager on an empty store whose signer is the in-cluster builder (a nil sign
config, which the builder cannot handle, is answered with an error here) and whose helper is the
real config resolver. -/
def sampleScenarioManager : signjob.signJobManager :=
  { client := mockClient (.ok []) none none
    signer :=
      { MakeJobTemplate := fun mod signConfig targetKernel previousImage targetImage pushImage =>
          (signjob.MakeJobTemplate sampleConstants { scheme := sampleScheme } mod signConfig
            targetKernel previousImage targetImage pushImage).getD
            (.error (.new "nil sign config")) }
    helper := { GetRelevantSign := build.GetRelevantSign } }

/-! ## Discovery and Sync: helper lemmas -/

/-- In-cluster discovery when `List` answers with the Jobs `items`. -/
theorem signjob_getJob_list_ok (c : Constants) (jbm : signjob.signJobManager) (mod : Module)
    (targetKernel : String) (items : List Job)
    (hlist : jbm.client.List
      { MatchingLabels := signjob.labels c mod targetKernel, InNamespace := mod.Namespace }
        = .ok items) :
    signjob.getJob c jbm mod targetKernel =
      ((match items with
        | [] => .error signjob.errNoMatchingBuild
        | [job] => .ok job
        | _ :: _ :: _ => .error (Errorf "expected 0 or 1 job, got " (toString items.length))),
       [Call.List
        { MatchingLabels := signjob.labels c mod targetKernel, InNamespace := mod.Namespace }]) := by
  unfold signjob.getJob
  simp only [hlist]
  rcases items with _ | ⟨j, _ | ⟨j2, rest⟩⟩ <;> rfl

/-- Standalone discovery when `List` answers with the Jobs `items`. -/
theorem signer_getJob_list_ok (c : Constants) (sm : signer.signingManager) (mod : Module)
    (targetKernel : String) (items : List Job)
    (hlist : sm.client.List
      { MatchingLabels := signer.labels c mod targetKernel (signer.GetName sm),
        InNamespace := mod.Namespace } = .ok items) :
    signer.getJob c sm mod targetKernel =
      ((match items with
        | [] => .error signer.errNoMatchingJob
        | [job] => .ok job
        | _ :: _ :: _ => .error (Errorf "expected 0 or 1 job, got " (toString items.length))),
       [Call.List
        { MatchingLabels := signer.labels c mod targetKernel (signer.GetName sm),
          InNamespace := mod.Namespace }]) := by
  unfold signer.getJob
  simp only [hlist]
  rcases items with _ | ⟨j, _ | ⟨j2, rest⟩⟩ <;> rfl

/-- The drift check on a live Job that carries annotations compares the two hash values. -/
theorem isJobChanged_of_annotations (existingJob newJob : Job) (anns : StringMap)
    (hann : existingJob.Annotations = some anns) :
    signjob.isJobChanged existingJob newJob =
      .ok (decide (mapIndex existingJob.Annotations signjob.jobHashAnnotation ≠
        mapIndex newJob.Annotations signjob.jobHashAnnotation)) := by
  unfold signjob.isJobChanged Job.GetAnnotations
  simp only [hann]
  by_cases h : mapIndex (some anns) signjob.jobHashAnnotation =
      mapIndex newJob.Annotations signjob.jobHashAnnotation
  · simp [h]
  · simp [h]

/-! ## Sync on a single live Job (C1) -/

/-- C1, as stated, fails for the in-cluster variant: discovery finds exactly one live Job, which
is the desired Job with `Succeeded = 1`; neither carries annotations, so that the hash annotation
reads as the empty string on both; yet Sync does not return `Completed`: the drift check refuses
a live Job without annotations and Sync returns that error. -/
theorem sync_single_job_without_annotations_is_error :
    (sampleJobNoAnnotations { Succeeded := 1 }).Status.Succeeded = 1
    ∧ mapIndex (sampleJobNoAnnotations { Succeeded := 1 }).Annotations signjob.jobHashAnnotation =
        mapIndex (sampleJobNoAnnotations {}).Annotations signjob.jobHashAnnotation
    ∧ signjob.Sync sampleConstants
        (mockSignJobManager (.ok [sampleJobNoAnnotations { Succeeded := 1 }]) none none
          (.ok (sampleJobNoAnnotations {})))
        sampleModule sampleKernelMapping "1.2.3" "previous-image" "image-name" true
      = (({}, some (.errorf ("could not determine if job has changed: "
            ++ "annotations are not present in the existing job some-job"))),
          [Call.List
            { MatchingLabels := signjob.labels sampleConstants sampleModule "1.2.3",
              InNamespace := "some-namespace" }]) := by
  decide

/-- C1, amended: in both Sync implementations, when discovery finds exactly one live Job (and,
in the in-cluster variant, that Job carries an annotations map and its hash annotation, read as
empty when absent, equals the desired Job's), the outcome is decided by the live status counts in
this order: `Succeeded = 1` gives `{Completed, requeue = false}` and no error; otherwise
`Active = 1` gives `{InProgress, requeue = true}` and no error; otherwise `Failed = 1` gives the
job-failure error; otherwise the unknown-status error. The only client call issued is the `List`
of discovery: no `Create` and no `Delete`. -/
theorem sync_single_job_outcome_by_status
    (c : Constants) (mod : Module) (targetKernel : String) (pushImage : Bool)
    (jbm : signjob.signJobManager) (m : KernelMapping) (imageToSign targetImage : String)
    (desired live : Job) (anns : StringMap)
    (sm : signer.signingManager) (km : KernelMapping) (liveS : Job)
    (hmake : jbm.signer.MakeJobTemplate mod (jbm.helper.GetRelevantSign mod m) targetKernel
      imageToSign targetImage pushImage = .ok desired)
    (hlist : jbm.client.List
      { MatchingLabels := signjob.labels c mod targetKernel, InNamespace := mod.Namespace }
        = .ok [live])
    (hann : live.Annotations = some anns)
    (hhash : mapIndex live.Annotations signjob.jobHashAnnotation =
      mapIndex desired.Annotations signjob.jobHashAnnotation)
    (hlistS : sm.client.List
      { MatchingLabels := signer.labels c mod targetKernel (signer.GetName sm),
        InNamespace := mod.Namespace } = .ok [liveS]) :
    (signjob.Sync c jbm mod m targetKernel imageToSign targetImage pushImage).1 =
        (if live.Status.Succeeded = 1 then
          ({ Status := sign.StatusCompleted, Requeue := false }, none)
        else if live.Status.Active = 1 then
          ({ Status := sign.StatusInProgress, Requeue := true }, none)
        else if live.Status.Failed = 1 then
          ({}, some (Errorf "job failed: " "<nil>"))
        else ({}, some (Errorf "unknown status: " live.Status.render)))
      ∧ (signjob.Sync c jbm mod m targetKernel imageToSign targetImage pushImage).2 =
        [Call.List
          { MatchingLabels := signjob.labels c mod targetKernel, InNamespace := mod.Namespace }]
      ∧ (∀ call ∈ (signjob.Sync c jbm mod m targetKernel imageToSign targetImage pushImage).2,
          call.isCreate = false ∧ call.isDelete = false)
      ∧ (signer.Sync c sm mod km targetKernel pushImage).1 =
        (if liveS.Status.Succeeded = 1 then
          ({ Status := build.StatusCompleted, Requeue := false }, none)
        else if liveS.Status.Active = 1 then
          ({ Status := build.StatusInProgress, Requeue := true }, none)
        else if liveS.Status.Failed = 1 then
          ({}, some (Errorf "job failed: " "<nil>"))
        else ({}, some (Errorf "unknown status: " liveS.Status.render)))
      ∧ (signer.Sync c sm mod km targetKernel pushImage).2 =
        [Call.List
          { MatchingLabels := signer.labels c mod targetKernel (signer.GetName sm),
            InNamespace := mod.Namespace }]
      ∧ (∀ call ∈ (signer.Sync c sm mod km targetKernel pushImage).2,
          call.isCreate = false ∧ call.isDelete = false) := by
  have hA : signjob.Sync c jbm mod m targetKernel imageToSign targetImage pushImage =
      ((if live.Status.Succeeded = 1 then
          ({ Status := sign.StatusCompleted, Requeue := false }, none)
        else if live.Status.Active = 1 then
          ({ Status := sign.StatusInProgress, Requeue := true }, none)
        else if live.Status.Failed = 1 then
          ({}, some (Errorf "job failed: " "<nil>"))
        else ({}, some (Errorf "unknown status: " live.Status.render))),
       [Call.List
          { MatchingLabels := signjob.labels c mod targetKernel, InNamespace := mod.Namespace }]) := by
    unfold signjob.Sync
    simp only [hmake, signjob_getJob_list_ok c jbm mod targetKernel [live] hlist,
      isJobChanged_of_annotations live desired anns hann]
    simp only [hhash, ne_eq, not_true_eq_false, decide_False, Bool.false_eq_true, if_false,
      renderErr]
    split_ifs <;> rfl
  have hB : signer.Sync c sm mod km targetKernel pushImage =
      ((if liveS.Status.Succeeded = 1 then
          ({ Status := build.StatusCompleted, Requeue := false }, none)
        else if liveS.Status.Active = 1 then
          ({ Status := build.StatusInProgress, Requeue := true }, none)
        else if liveS.Status.Failed = 1 then
          ({}, some (Errorf "job failed: " "<nil>"))
        else ({}, some (Errorf "unknown status: " liveS.Status.render))),
       [Call.List
          { MatchingLabels := signer.labels c mod targetKernel (signer.GetName sm),
            InNamespace := mod.Namespace }]) := by
    unfold signer.Sync
    simp only [signer_getJob_list_ok c sm mod targetKernel [liveS] hlistS, renderErr]
    split_ifs <;> rfl
  refine ⟨by rw [hA], by rw [hA], ?_, by rw [hB], by rw [hB], ?_⟩
  · intro call hcall
    rw [hA] at hcall
    simp only [List.mem_singleton] at hcall
    subst hcall
    exact ⟨rfl, rfl⟩
  · intro call hcall
    rw [hB] at hcall
    simp only [List.mem_singleton] at hcall
    subst hcall
    exact ⟨rfl, rfl⟩

/-- Witness for the amended C1: a live Job with `Succeeded = 1` whose hash matches (in-cluster), and a live
Job with `Active = 1` (standalone). -/
theorem sync_single_job_outcome_by_status_witness :
    signjob.Sync sampleConstants
        (mockSignJobManager (.ok [sampleJob "some hash" { Succeeded := 1 }]) none none
          (.ok (sampleJob "some hash" {})))
        sampleModule sampleKernelMapping "1.2.3" "previous-image" "image-name" true
      = (({ Status := "completed", Requeue := false }, none),
          [Call.List
            { MatchingLabels := signjob.labels sampleConstants sampleModule "1.2.3",
              InNamespace := "some-namespace" }])
    ∧ signer.Sync sampleConstants
        (mockSigningManager (.ok [sampleJob "" { Active := 1 }]) none none
          (.ok (sampleJob "" {})))
        sampleModule sampleKernelMapping "1.2.3" true
      = (({ Status := "in progress", Requeue := true }, none),
          [Call.List
            { MatchingLabels := signer.labels sampleConstants sampleModule "1.2.3" "sign",
              InNamespace := "some-namespace" }]) := by
  have h := sync_single_job_outcome_by_status sampleConstants sampleModule "1.2.3" true
    (mockSignJobManager (.ok [sampleJob "some hash" { Succeeded := 1 }]) none none
      (.ok (sampleJob "some hash" {})))
    sampleKernelMapping "previous-image" "image-name"
    (sampleJob "some hash" {}) (sampleJob "some hash" { Succeeded := 1 })
    [(signjob.jobHashAnnotation, "some hash")]
    (mockSigningManager (.ok [sampleJob "" { Active := 1 }]) none none (.ok (sampleJob "" {})))
    sampleKernelMapping (sampleJob "" { Active := 1 })
    rfl rfl rfl rfl rfl
  exact ⟨Prod.ext (h.1.trans (by decide)) h.2.1, Prod.ext (h.2.2.2.1.trans (by decide)) h.2.2.2.2.1⟩

/-! ## Sync when no Job exists (C2) -/

/-- C2: in both Sync implementations, when the job builder succeeds with the desired Job and
discovery finds no matching Job (`List` succeeds with no item), Sync issues, after the `List` of
discovery, exactly one `Create`, of the desired Job, and no `Delete`; and when that `Create`
succeeds it returns `{Created, requeue = true}` with no error. -/
theorem sync_no_job_creates_desired
    (c : Constants) (mod : Module) (targetKernel : String) (pushImage : Bool)
    (jbm : signjob.signJobManager) (m : KernelMapping) (imageToSign targetImage : String)
    (desired : Job)
    (sm : signer.signingManager) (km : KernelMapping) (desiredS : Job)
    (hmake : jbm.signer.MakeJobTemplate mod (jbm.helper.GetRelevantSign mod m) targetKernel
      imageToSign targetImage pushImage = .ok desired)
    (hlist : jbm.client.List
      { MatchingLabels := signjob.labels c mod targetKernel, InNamespace := mod.Namespace }
        = .ok [])
    (hmakeS : sm.signer.MakeJob mod (sm.helper.GetRelevantSign mod km) targetKernel pushImage
      = .ok desiredS)
    (hlistS : sm.client.List
      { MatchingLabels := signer.labels c mod targetKernel (signer.GetName sm),
        InNamespace := mod.Namespace } = .ok []) :
    ((signjob.Sync c jbm mod m targetKernel imageToSign targetImage pushImage).2 =
        [Call.List
          { MatchingLabels := signjob.labels c mod targetKernel, InNamespace := mod.Namespace },
         Call.Create desired]
      ∧ (signjob.Sync c jbm mod m targetKernel imageToSign targetImage pushImage).2.filter
          Call.isCreate = [Call.Create desired]
      ∧ (signjob.Sync c jbm mod m targetKernel imageToSign targetImage pushImage).2.filter
          Call.isDelete = []
      ∧ (jbm.client.Create desired = none →
          (signjob.Sync c jbm mod m targetKernel imageToSign targetImage pushImage).1 =
            ({ Status := sign.StatusCreated, Requeue := true }, none)))
    ∧ ((signer.Sync c sm mod km targetKernel pushImage).2 =
        [Call.List
          { MatchingLabels := signer.labels c mod targetKernel (signer.GetName sm),
            InNamespace := mod.Namespace },
         Call.Create desiredS]
      ∧ (signer.Sync c sm mod km targetKernel pushImage).2.filter Call.isCreate =
          [Call.Create desiredS]
      ∧ (signer.Sync c sm mod km targetKernel pushImage).2.filter Call.isDelete = []
      ∧ (sm.client.Create desiredS = none →
          (signer.Sync c sm mod km targetKernel pushImage).1 =
            ({ Status := build.StatusCreated, Requeue := true }, none))) := by
  have hisA : errorsIs signjob.errNoMatchingBuild signjob.errNoMatchingBuild = true := by
    simp [errorsIs]
  have hisB : errorsIs signer.errNoMatchingJob signer.errNoMatchingJob = true := by
    simp [errorsIs]
  constructor
  · unfold signjob.Sync
    simp only [hmake, signjob_getJob_list_ok c jbm mod targetKernel [] hlist, hisA]
    cases hcreate : jbm.client.Create desired <;>
      simp [Call.isCreate, Call.isDelete]
  · unfold signer.Sync
    simp only [hmakeS, signer_getJob_list_ok c sm mod targetKernel [] hlistS, hisB]
    cases hcreate : sm.client.Create desiredS <;>
      simp [Call.isCreate, Call.isDelete]

/-- Witness for C2: the "should create the job" tests of both managers, on an empty store. -/
theorem sync_no_job_creates_desired_witness :
    signjob.Sync sampleConstants
        (mockSignJobManager (.ok []) none none (.ok (sampleJob "some hash" {})))
        sampleModule sampleKernelMapping "1.2.3" "previous-image" "image-name" true
      = (({ Status := "created", Requeue := true }, none),
          [Call.List
            { MatchingLabels := signjob.labels sampleConstants sampleModule "1.2.3",
              InNamespace := "some-namespace" },
           Call.Create (sampleJob "some hash" {})])
    ∧ signer.Sync sampleConstants
        (mockSigningManager (.ok []) none none (.ok (sampleJob "" {})))
        sampleModule sampleKernelMapping "1.2.3" true
      = (({ Status := "created", Requeue := true }, none),
          [Call.List
            { MatchingLabels := signer.labels sampleConstants sampleModule "1.2.3" "sign",
              InNamespace := "some-namespace" },
           Call.Create (sampleJob "" {})]) := by
  have h := sync_no_job_creates_desired sampleConstants sampleModule "1.2.3" true
    (mockSignJobManager (.ok []) none none (.ok (sampleJob "some hash" {})))
    sampleKernelMapping "previous-image" "image-name" (sampleJob "some hash" {})
    (mockSigningManager (.ok []) none none (.ok (sampleJob "" {})))
    sampleKernelMapping (sampleJob "" {})
    rfl rfl rfl rfl
  exact ⟨Prod.ext (h.1.2.2.2 rfl) h.1.1, Prod.ext (h.2.2.2.2 rfl) h.2.1⟩

/-! ## Drift: delete and requeue (C3) -/

/-- C3, as stated, fails: the store holds exactly one matching live Job, which carries no
annotations, so that its hash annotation reads as the empty string and differs from the desired
Job's `new hash`; yet the in-cluster Sync issues no `Delete` and does not return `InProgress`: the
drift check refuses a live Job without annotations and Sync returns that error. -/
theorem sync_drift_without_annotations_is_error :
    mapIndex (sampleJobNoAnnotations {}).Annotations signjob.jobHashAnnotation ≠
        mapIndex (sampleJob "new hash" {}).Annotations signjob.jobHashAnnotation
    ∧ signjob.Sync sampleConstants
        (mockSignJobManager (.ok [sampleJobNoAnnotations {}]) none none
          (.ok (sampleJob "new hash" {})))
        sampleModule sampleKernelMapping "1.2.3" "previous-image" "image-name" true
      = (({}, some (.errorf ("could not determine if job has changed: "
            ++ "annotations are not present in the existing job some-job"))),
          [Call.List
            { MatchingLabels := signjob.labels sampleConstants sampleModule "1.2.3",
              InNamespace := "some-namespace" }]) := by
  decide

/-- C3, amended: when the store holds exactly one matching live Job, that Job carries an
annotations map, and its hash annotation (read as empty when absent) differs from the desired
Job's, the in-cluster Sync issues, after the `List` of discovery, one `Delete` of that live Job
with background propagation and no `Create`, and returns `{InProgress, requeue = true}` with a
nil error, whatever `Delete` answers: a deletion failure is not returned. -/
theorem sync_drift_deletes_live_job
    (c : Constants) (jbm : signjob.signJobManager) (mod : Module) (m : KernelMapping)
    (targetKernel imageToSign targetImage : String) (pushImage : Bool)
    (desired live : Job) (anns : StringMap)
    (hmake : jbm.signer.MakeJobTemplate mod (jbm.helper.GetRelevantSign mod m) targetKernel
      imageToSign targetImage pushImage = .ok desired)
    (hlist : jbm.client.List
      { MatchingLabels := signjob.labels c mod targetKernel, InNamespace := mod.Namespace }
        = .ok [live])
    (hann : live.Annotations = some anns)
    (hhash : mapIndex live.Annotations signjob.jobHashAnnotation ≠
      mapIndex desired.Annotations signjob.jobHashAnnotation) :
    (signjob.Sync c jbm mod m targetKernel imageToSign targetImage pushImage).1 =
        ({ Status := sign.StatusInProgress, Requeue := true }, none)
    ∧ (signjob.Sync c jbm mod m targetKernel imageToSign targetImage pushImage).2 =
        [Call.List
          { MatchingLabels := signjob.labels c mod targetKernel, InNamespace := mod.Namespace },
         Call.Delete live [DeleteOption.PropagationPolicy DeletePropagationBackground]]
    ∧ (signjob.Sync c jbm mod m targetKernel imageToSign targetImage pushImage).2.filter
        Call.isDelete =
        [Call.Delete live [DeleteOption.PropagationPolicy DeletePropagationBackground]]
    ∧ (signjob.Sync c jbm mod m targetKernel imageToSign targetImage pushImage).2.filter
        Call.isCreate = [] := by
  unfold signjob.Sync
  simp only [hmake, signjob_getJob_list_ok c jbm mod targetKernel [live] hlist,
    isJobChanged_of_annotations live desired anns hann]
  simp only [hhash, ne_eq, not_false_eq_true, decide_True, if_true]
  cases hdel : jbm.client.Delete live
      [DeleteOption.PropagationPolicy DeletePropagationBackground] <;>
    simp [Call.isCreate, Call.isDelete]

/-- Witness for the amended C3: the "should delete the job is it was edited" test, with a `Delete` that
fails. -/
theorem sync_drift_deletes_live_job_witness :
    signjob.Sync sampleConstants
        (mockSignJobManager (.ok [sampleJob "some hash" {}]) none (some (.new "delete failed"))
          (.ok (sampleJob "new hash" {})))
        sampleModule sampleKernelMapping "1.2.3" "previous-image" "image-name" true
      = (({ Status := "in progress", Requeue := true }, none),
          [Call.List
            { MatchingLabels := signjob.labels sampleConstants sampleModule "1.2.3",
              InNamespace := "some-namespace" },
           Call.Delete (sampleJob "some hash" {})
            [DeleteOption.PropagationPolicy "Background"]]) := by
  have h := sync_drift_deletes_live_job sampleConstants
    (mockSignJobManager (.ok [sampleJob "some hash" {}]) none (some (.new "delete failed"))
      (.ok (sampleJob "new hash" {})))
    sampleModule sampleKernelMapping "1.2.3" "previous-image" "image-name" true
    (sampleJob "new hash" {}) (sampleJob "some hash" {})
    [(signjob.jobHashAnnotation, "some hash")]
    rfl rfl rfl (by decide)
  exact Prod.ext h.1 h.2.1

/-! ## Discovery (C4) -/

/-- C4: discovery (`getJob`, in both managers) on a successful `List`: it returns the not-found
sentinel error when the list has no Job; it returns an error that is not the sentinel (and that
`errors.Is` does not take for it) whenever the list has two or more Jobs; and it returns a Job
with no error exactly when the list has one Job, which is then the Job returned. -/
theorem getJob_by_list_length
    (c : Constants) (mod : Module) (targetKernel : String)
    (jbm : signjob.signJobManager) (items : List Job)
    (sm : signer.signingManager) (itemsS : List Job)
    (hlist : jbm.client.List
      { MatchingLabels := signjob.labels c mod targetKernel, InNamespace := mod.Namespace }
        = .ok items)
    (hlistS : sm.client.List
      { MatchingLabels := signer.labels c mod targetKernel (signer.GetName sm),
        InNamespace := mod.Namespace } = .ok itemsS) :
    ((items.length = 0 →
        (signjob.getJob c jbm mod targetKernel).1 = .error signjob.errNoMatchingBuild)
      ∧ (2 ≤ items.length →
        ∃ err, (signjob.getJob c jbm mod targetKernel).1 = .error err
          ∧ err ≠ signjob.errNoMatchingBuild
          ∧ errorsIs err signjob.errNoMatchingBuild = false)
      ∧ (∀ job, (signjob.getJob c jbm mod targetKernel).1 = .ok job ↔ items = [job]))
    ∧ ((itemsS.length = 0 →
        (signer.getJob c sm mod targetKernel).1 = .error signer.errNoMatchingJob)
      ∧ (2 ≤ itemsS.length →
        ∃ err, (signer.getJob c sm mod targetKernel).1 = .error err
          ∧ err ≠ signer.errNoMatchingJob
          ∧ errorsIs err signer.errNoMatchingJob = false)
      ∧ (∀ job, (signer.getJob c sm mod targetKernel).1 = .ok job ↔ itemsS = [job])) := by
  rw [signjob_getJob_list_ok c jbm mod targetKernel items hlist,
    signer_getJob_list_ok c sm mod targetKernel itemsS hlistS]
  constructor
  · rcases items with _ | ⟨j, _ | ⟨j2, rest⟩⟩
    · simp
    · simp
    · simp [Errorf, signjob.errNoMatchingBuild, errorsIs]
  · rcases itemsS with _ | ⟨j, _ | ⟨j2, rest⟩⟩
    · simp
    · simp
    · simp [Errorf, signer.errNoMatchingJob, errorsIs]

/-- Witness for C4: two listed Jobs (in-cluster) give the consistency error, one listed Job
(standalone) is returned. -/
theorem getJob_by_list_length_witness :
    (signjob.getJob sampleConstants
        (mockSignJobManager (.ok [sampleJob "a" {}, sampleJob "b" {}]) none none
          (.ok (sampleJob "a" {})))
        sampleModule "1.2.3").1 = .error (.errorf "expected 0 or 1 job, got 2")
    ∧ (signer.getJob sampleConstants
        (mockSigningManager (.ok [sampleJob "a" {}]) none none (.ok (sampleJob "a" {})))
        sampleModule "1.2.3").1 = .ok (sampleJob "a" {}) := by
  have h := getJob_by_list_length sampleConstants sampleModule "1.2.3"
    (mockSignJobManager (.ok [sampleJob "a" {}, sampleJob "b" {}]) none none
      (.ok (sampleJob "a" {})))
    [sampleJob "a" {}, sampleJob "b" {}]
    (mockSigningManager (.ok [sampleJob "a" {}]) none none (.ok (sampleJob "a" {})))
    [sampleJob "a" {}]
    rfl rfl
  exact ⟨by rfl, (h.2.2.2 (sampleJob "a" {})).2 rfl⟩

/-! ## `ApplyBuildArgOverrides`: the override map, the unused set and the loop -/

/-- Dropping the bindings of `k` leaves the lookup of any other key as it was. -/
theorem lookup_filter_ne (m : build.BuildArgMap) (k n : String) (h : n ≠ k) :
    (m.filter (fun p => p.1 ≠ k)).lookup n = m.lookup n := by
  induction m with
  | nil => rfl
  | cons p rest ih =>
    obtain ⟨p1, p2⟩ := p
    by_cases hp : p1 = k
    · have hpn : (n == p1) = false := by rw [hp]; simpa using h
      rw [List.filter_cons_of_neg (by simpa using hp), ih, List.lookup_cons, hpn]
    · rw [List.filter_cons_of_pos (by simpa using hp), List.lookup_cons, List.lookup_cons, ih]

/-- Lookup after `m[k] = v`. -/
theorem lookup_mapSet (m : build.BuildArgMap) (k : String) (v : BuildArg) (n : String) :
    (build.mapSet m k v).lookup n = if n = k then some v else m.lookup n := by
  unfold build.mapSet
  by_cases h : n = k
  · subst h
    simp [List.lookup_cons]
  · have hbeq : (n == k) = false := by simpa using h
    rw [List.lookup_cons, hbeq, if_neg h]
    exact lookup_filter_ne m k n h

/-- Keys after `m[k] = v`. -/
theorem keys_mapSet (m : build.BuildArgMap) (k : String) (v : BuildArg) :
    build.StringKeySet (build.mapSet m k v) = k :: (build.StringKeySet m).filter (fun x => x ≠ k) := by
  unfold build.StringKeySet build.mapSet
  simp only [List.map_cons, List.filter_map]
  rfl

/-- The map built by the first loop: what a lookup finds is the last override of that name. -/
theorem lookup_overridesMap (overrides : List BuildArg) (n : String) :
    (∀ x, (build.fillOverridesMap overrides).lookup n = some x →
        x.Name = n ∧ ∃ pre post, overrides = pre ++ x :: post ∧ ∀ p ∈ post, p.Name ≠ n)
    ∧ ((build.fillOverridesMap overrides).lookup n = none →
        ∀ o ∈ overrides, o.Name ≠ n) := by
  induction overrides using List.reverseRecOn with
  | nil => simp [build.fillOverridesMap]
  | append_singleton init last ih =>
    rw [build.fillOverridesMap, List.foldl_append, List.foldl_cons, List.foldl_nil,
      ← build.fillOverridesMap, lookup_mapSet]
    by_cases h : n = last.Name
    · subst h
      simp only [if_true]
      refine ⟨?_, by simp⟩
      intro x hx
      cases hx
      exact ⟨rfl, init, [], rfl, by simp⟩
    · simp only [if_neg h]
      refine ⟨?_, ?_⟩
      · intro x hx
        obtain ⟨hname, pre, post, hdecomp, hpost⟩ := ih.1 x hx
        refine ⟨hname, pre, post ++ [last], by rw [hdecomp]; simp, ?_⟩
        intro p hp
        rcases List.mem_append.1 hp with hp | hp
        · exact hpost p hp
        · rw [List.mem_singleton] at hp
          subst hp
          exact fun e => h e.symm
      · intro hnone o ho
        rcases List.mem_append.1 ho with ho | ho
        · exact ih.2 hnone o ho
        · rw [List.mem_singleton] at ho
          subst ho
          exact fun e => h e.symm

/-- The keys of the map built by the first loop: the override names, each once. -/
theorem keys_overridesMap (overrides : List BuildArg) :
    (build.StringKeySet (build.fillOverridesMap overrides)).Nodup
    ∧ ∀ n, n ∈ build.StringKeySet (build.fillOverridesMap overrides) ↔
        ∃ o ∈ overrides, o.Name = n := by
  induction overrides using List.reverseRecOn with
  | nil => simp [build.StringKeySet, build.fillOverridesMap]
  | append_singleton init last ih =>
    rw [build.fillOverridesMap, List.foldl_append, List.foldl_cons, List.foldl_nil,
      ← build.fillOverridesMap, keys_mapSet]
    refine ⟨?_, ?_⟩
    · rw [List.nodup_cons]
      exact ⟨by simp, ih.1.filter _⟩
    · intro n
      simp only [List.mem_cons, List.mem_filter, ih.2, List.mem_append, decide_eq_true_eq,
        List.not_mem_nil, or_false]
      constructor
      · rintro (h | ⟨⟨o, ho, hn⟩, _⟩)
        · exact ⟨last, Or.inr rfl, h.symm⟩
        · exact ⟨o, Or.inl ho, hn⟩
      · rintro ⟨o, ho | ho, hn⟩
        · by_cases h : n = last.Name
          · exact Or.inl h
          · exact Or.inr ⟨⟨o, ho, hn⟩, h⟩
        · subst ho
          exact Or.inl hn.symm

/-- A key of a map has a binding. -/
theorem lookup_of_mem_keys (m : build.BuildArgMap) (n : String)
    (h : n ∈ build.StringKeySet m) : ∃ v, m.lookup n = some v := by
  induction m with
  | nil => simp [build.StringKeySet] at h
  | cons p rest ih =>
    obtain ⟨p1, p2⟩ := p
    by_cases hn : n = p1
    · subst hn
      exact ⟨p2, by simp [List.lookup_cons]⟩
    · have hbeq : (n == p1) = false := by simpa using hn
      have hrest : n ∈ build.StringKeySet rest := by
        simp only [build.StringKeySet, List.map_cons, List.mem_cons] at h
        rcases h with h | h
        · exact absurd h hn
        · exact h
      obtain ⟨v, hv⟩ := ih hrest
      exact ⟨v, by rw [List.lookup_cons, hbeq]; exact hv⟩

/-- One turn of the replacement loop on an argument whose name has an override. -/
theorem replaceLoop_cons_some (overridesMap : build.BuildArgMap) (a o : BuildArg)
    (rest : List BuildArg) (unused : List String) (h : overridesMap.lookup a.Name = some o) :
    build.replaceLoop overridesMap (a :: rest) unused =
      (o :: (build.replaceLoop overridesMap rest (build.setDelete unused a.Name)).1,
        (build.replaceLoop overridesMap rest (build.setDelete unused a.Name)).2) := by
  rw [build.replaceLoop]
  simp only [h]

/-- One turn of the replacement loop on an argument whose name has no override. -/
theorem replaceLoop_cons_none (overridesMap : build.BuildArgMap) (a : BuildArg)
    (rest : List BuildArg) (unused : List String) (h : overridesMap.lookup a.Name = none) :
    build.replaceLoop overridesMap (a :: rest) unused =
      (a :: (build.replaceLoop overridesMap rest unused).1,
        (build.replaceLoop overridesMap rest unused).2) := by
  rw [build.replaceLoop]
  simp only [h]

/-- The slots after the replacement loop: each argument, or the override bound to its name. -/
theorem replaceLoop_fst (overridesMap : build.BuildArgMap) (args : List BuildArg)
    (unused : List String) :
    (build.replaceLoop overridesMap args unused).1 =
      args.map (fun a => (overridesMap.lookup a.Name).getD a) := by
  induction args generalizing unused with
  | nil => rfl
  | cons a rest ih =>
    cases h : overridesMap.lookup a.Name with
    | none => rw [replaceLoop_cons_none _ _ _ _ h, List.map_cons, h, ih]; rfl
    | some o => rw [replaceLoop_cons_some _ _ _ _ _ h, List.map_cons, h, ih]; rfl

/-- The unused set after the replacement loop is a sublist of the set it started from. -/
theorem replaceLoop_snd_sublist (overridesMap : build.BuildArgMap) (args : List BuildArg)
    (unused : List String) :
    (build.replaceLoop overridesMap args unused).2.Sublist unused := by
  induction args generalizing unused with
  | nil => exact List.Sublist.refl _
  | cons a rest ih =>
    cases h : overridesMap.lookup a.Name with
    | none =>
      rw [replaceLoop_cons_none _ _ _ _ h]
      exact ih unused
    | some o =>
      rw [replaceLoop_cons_some _ _ _ _ _ h]
      exact (ih _).trans (List.filter_sublist _)

/-- The unused set after the replacement loop: the names that no argument with an override
bears. -/
theorem replaceLoop_snd_mem (overridesMap : build.BuildArgMap) (args : List BuildArg)
    (unused : List String) (n : String) :
    n ∈ (build.replaceLoop overridesMap args unused).2 ↔
      n ∈ unused ∧ ∀ a ∈ args, a.Name = n → overridesMap.lookup n = none := by
  induction args generalizing unused with
  | nil => simp [build.replaceLoop]
  | cons a rest ih =>
    cases h : overridesMap.lookup a.Name with
    | none =>
      rw [replaceLoop_cons_none _ _ _ _ h]
      simp only [ih, List.mem_cons, forall_eq_or_imp]
      constructor
      · rintro ⟨hu, hr⟩
        exact ⟨hu, fun e => e ▸ h, hr⟩
      · rintro ⟨hu, _, hr⟩
        exact ⟨hu, hr⟩
    | some o =>
      rw [replaceLoop_cons_some _ _ _ _ _ h]
      simp only [ih, build.setDelete, List.mem_filter, decide_eq_true_eq, List.mem_cons,
        forall_eq_or_imp]
      constructor
      · rintro ⟨⟨hu, hne⟩, hr⟩
        exact ⟨hu, fun e => absurd e.symm hne, hr⟩
      · rintro ⟨hu, ha, hr⟩
        refine ⟨⟨hu, ?_⟩, hr⟩
        intro e
        subst e
        rw [ha rfl] at h
        cases h

/-- The result of `s.List()` is a permutation of the set. -/
theorem setList_perm (s : List String) : (build.setList s).Perm s :=
  List.perm_insertionSort _ s

/-- The result of `s.List()` on a set (no repeated element) is strictly ascending. -/
theorem setList_strictly_ascending (s : List String) (h : s.Nodup) :
    List.Pairwise (fun a b : String => a < b) (build.setList s) := by
  have hsorted : List.Pairwise (fun a b : String => a.toList ≤ b.toList) (build.setList s) :=
    @List.sorted_insertionSort String (fun a b => a.toList ≤ b.toList) _
      ⟨fun a b => le_total a.toList b.toList⟩ ⟨fun _ _ _ hab hbc => le_trans hab hbc⟩ s
  have hnodup : (build.setList s).Nodup := (setList_perm s).nodup_iff.2 h
  have hboth := hsorted.and hnodup
  refine hboth.imp ?_
  intro a b hab
  rw [String.lt_iff_toList_lt]
  refine lt_of_le_of_ne hab.1 ?_
  intro e
  exact hab.2 (String.ext e)

/-- The names left unused after the replacement loop started from the keys of the override map:
the override names that no argument bears, each once. -/
theorem unusedOverrides_spec (args overrides : List BuildArg) :
    (build.replaceLoop (build.fillOverridesMap overrides) args
        (build.StringKeySet (build.fillOverridesMap overrides))).2.Nodup
    ∧ ∀ n, n ∈ (build.replaceLoop (build.fillOverridesMap overrides) args
        (build.StringKeySet (build.fillOverridesMap overrides))).2 ↔
          (∃ o ∈ overrides, o.Name = n) ∧ ∀ a ∈ args, a.Name ≠ n := by
  refine ⟨(keys_overridesMap overrides).1.sublist (replaceLoop_snd_sublist _ _ _), ?_⟩
  intro n
  rw [replaceLoop_snd_mem, (keys_overridesMap overrides).2]
  constructor
  · rintro ⟨hO, hA⟩
    refine ⟨hO, fun a ha hname => ?_⟩
    obtain ⟨v, hv⟩ := lookup_of_mem_keys _ n (((keys_overridesMap overrides).2 n).2 hO)
    rw [hA a ha hname] at hv
    cases hv
  · rintro ⟨hO, hA⟩
    exact ⟨hO, fun a ha hname => absurd hname (hA a ha)⟩

/-- The result of `ApplyBuildArgOverrides` splits into the updated slots and the appended
overrides. -/
theorem applyBuildArgOverrides_eq (args overrides : List BuildArg) :
    build.ApplyBuildArgOverrides args overrides =
      args.map (fun a => ((build.fillOverridesMap overrides).lookup a.Name).getD a)
      ++ (build.setList (build.replaceLoop (build.fillOverridesMap overrides) args
          (build.StringKeySet (build.fillOverridesMap overrides))).2).map
            (fun overrideName => build.mapGet (build.fillOverridesMap overrides) overrideName) := by
  unfold build.ApplyBuildArgOverrides
  simp only [replaceLoop_fst]

/-- The length of the result: one slot per argument and one per unused override name. -/
theorem applyBuildArgOverrides_length (args overrides : List BuildArg) :
    (build.ApplyBuildArgOverrides args overrides).length =
      args.length + (build.replaceLoop (build.fillOverridesMap overrides) args
          (build.StringKeySet (build.fillOverridesMap overrides))).2.length := by
  rw [applyBuildArgOverrides_eq, List.length_append, List.length_map, List.length_map,
    (setList_perm _).length_eq]

/-! ## `ApplyBuildArgOverrides` (C5, C6, C7) -/

/-- C5: for all argument sequences and override sequences, the first `|args|` elements of
`ApplyBuildArgOverrides args overrides` keep the names of `args` in their order: for every index
`i` below `|args|`, the result at `i` bears the name of `args[i]`; it is `args[i]` unchanged when
no override bears that name, and otherwise it is an override bearing that name after which no
later override bears it (the last such override). -/
theorem applyBuildArgOverrides_replaces_in_place (args overrides : List BuildArg) (i : Nat)
    (a : BuildArg) (hi : args[i]? = some a) :
    ∃ x, (build.ApplyBuildArgOverrides args overrides)[i]? = some x
      ∧ x.Name = a.Name
      ∧ ((∀ o ∈ overrides, o.Name ≠ a.Name) → x = a)
      ∧ ((∃ o ∈ overrides, o.Name = a.Name) →
          ∃ pre post, overrides = pre ++ x :: post ∧ ∀ p ∈ post, p.Name ≠ a.Name) := by
  have hlt : i < args.length := (List.getElem?_eq_some.1 hi).1
  refine ⟨((build.fillOverridesMap overrides).lookup a.Name).getD a, ?_, ?_⟩
  · rw [applyBuildArgOverrides_eq, List.getElem?_append_left (by simpa using hlt),
      List.getElem?_map, hi]
    rfl
  · cases h : (build.fillOverridesMap overrides).lookup a.Name with
    | none =>
      have hno := (lookup_overridesMap overrides a.Name).2 h
      refine ⟨rfl, fun _ => rfl, ?_⟩
      rintro ⟨o, ho, hname⟩
      exact absurd hname (hno o ho)
    | some x =>
      obtain ⟨hname, pre, post, hdecomp, hpost⟩ := (lookup_overridesMap overrides a.Name).1 x h
      refine ⟨hname, ?_, fun _ => ⟨pre, post, hdecomp, hpost⟩⟩
      intro hno
      exact absurd hname (hno x (by rw [hdecomp]; simp))

/-- Witness for C5: three arguments, two of one name; overrides that repeat a name. -/
theorem applyBuildArgOverrides_replaces_in_place_witness :
    (build.ApplyBuildArgOverrides
        [⟨"a", "1"⟩, ⟨"b", "2"⟩, ⟨"a", "3"⟩]
        [⟨"z", "9"⟩, ⟨"b", "x"⟩, ⟨"c", "7"⟩, ⟨"b", "y"⟩, ⟨"z", "10"⟩])[1]? = some ⟨"b", "y"⟩ := by
  obtain ⟨x, hx, hname, _, hlast⟩ := applyBuildArgOverrides_replaces_in_place
    [⟨"a", "1"⟩, ⟨"b", "2"⟩, ⟨"a", "3"⟩]
    [⟨"z", "9"⟩, ⟨"b", "x"⟩, ⟨"c", "7"⟩, ⟨"b", "y"⟩, ⟨"z", "10"⟩] 1 ⟨"b", "2"⟩ rfl
  rw [hx]
  have hval : (build.ApplyBuildArgOverrides
        [⟨"a", "1"⟩, ⟨"b", "2"⟩, ⟨"a", "3"⟩]
        [⟨"z", "9"⟩, ⟨"b", "x"⟩, ⟨"c", "7"⟩, ⟨"b", "y"⟩, ⟨"z", "10"⟩])[1]? = some ⟨"b", "y"⟩ := by
    decide
  rw [hx] at hval
  exact hval

/-- C6: for all argument sequences and override sequences, the elements of
`ApplyBuildArgOverrides args overrides` at indices from `|args|` on are exactly the overrides
whose name matches no argument, one element per distinct such name (the last override bearing
it), in strictly ascending lexicographic order of name. -/
theorem applyBuildArgOverrides_appends_unmatched_sorted (args overrides : List BuildArg) :
    List.Pairwise (fun n₁ n₂ : String => n₁ < n₂)
        (((build.ApplyBuildArgOverrides args overrides).drop args.length).map BuildArg.Name)
    ∧ (∀ n, n ∈ ((build.ApplyBuildArgOverrides args overrides).drop args.length).map
          BuildArg.Name ↔
        (∃ o ∈ overrides, o.Name = n) ∧ ∀ a ∈ args, a.Name ≠ n)
    ∧ (∀ x ∈ (build.ApplyBuildArgOverrides args overrides).drop args.length,
        ∃ pre post, overrides = pre ++ x :: post ∧ ∀ p ∈ post, p.Name ≠ x.Name) := by
  have hdrop : (build.ApplyBuildArgOverrides args overrides).drop args.length =
      (build.setList (build.replaceLoop (build.fillOverridesMap overrides) args
          (build.StringKeySet (build.fillOverridesMap overrides))).2).map
            (fun overrideName => build.mapGet (build.fillOverridesMap overrides) overrideName) := by
    rw [applyBuildArgOverrides_eq]
    exact List.drop_left' (List.length_map _ _)
  obtain ⟨hnodup, hmem⟩ := unusedOverrides_spec args overrides
  have hget : ∀ n ∈ build.setList (build.replaceLoop (build.fillOverridesMap overrides) args
      (build.StringKeySet (build.fillOverridesMap overrides))).2,
      (build.fillOverridesMap overrides).lookup n =
        some (build.mapGet (build.fillOverridesMap overrides) n) := by
    intro n hn
    have hn2 := ((hmem n).1 ((setList_perm _).mem_iff.1 hn)).1
    obtain ⟨v, hv⟩ := lookup_of_mem_keys _ n (((keys_overridesMap overrides).2 n).2 hn2)
    rw [build.mapGet, hv]
    rfl
  have hnames : ((build.ApplyBuildArgOverrides args overrides).drop args.length).map
      BuildArg.Name = build.setList (build.replaceLoop (build.fillOverridesMap overrides) args
          (build.StringKeySet (build.fillOverridesMap overrides))).2 := by
    rw [hdrop, List.map_map]
    conv_rhs => rw [← List.map_id (build.setList _)]
    apply List.map_congr_left
    intro n hn
    exact ((lookup_overridesMap overrides n).1 _ (hget n hn)).1
  refine ⟨?_, ?_, ?_⟩
  · rw [hnames]
    exact setList_strictly_ascending _ hnodup
  · intro n
    rw [hnames, (setList_perm _).mem_iff]
    exact hmem n
  · intro x hx
    rw [hdrop, List.mem_map] at hx
    obtain ⟨n, hn, rfl⟩ := hx
    obtain ⟨hname, pre, post, hdecomp, hpost⟩ := (lookup_overridesMap overrides n).1 _ (hget n hn)
    exact ⟨pre, post, hdecomp, by rw [hname]; exact hpost⟩

/-- C7, as stated, fails: with two arguments of the same name `x` and no override, the result
has length 2 while only one distinct name occurs in the arguments or the overrides. -/
theorem applyBuildArgOverrides_length_counts_repeated_args :
    (build.ApplyBuildArgOverrides [⟨"x", "1"⟩, ⟨"x", "2"⟩] []).length = 2
    ∧ ((([⟨"x", "1"⟩, ⟨"x", "2"⟩] : List BuildArg).map BuildArg.Name
        ++ ([] : List BuildArg).map BuildArg.Name).dedup).length = 1 := by
  decide

/-- C7, amended: for all argument sequences whose names are pairwise distinct and all override
sequences, the length of `ApplyBuildArgOverrides args overrides` is the number of distinct names
occurring in the arguments or in the overrides. -/
theorem applyBuildArgOverrides_length_distinct_names (args overrides : List BuildArg)
    (hdistinct : (args.map BuildArg.Name).Nodup) :
    (build.ApplyBuildArgOverrides args overrides).length =
      ((args.map BuildArg.Name ++ overrides.map BuildArg.Name).dedup).length := by
  obtain ⟨hnodup, hmem⟩ := unusedOverrides_spec args overrides
  rw [applyBuildArgOverrides_length, ← List.card_toFinset, List.toFinset_append,
    Finset.union_comm, ← Finset.card_sdiff_add_card, Nat.add_comm,
    List.toFinset_card_of_nodup hdistinct, List.length_map, ← List.toFinset_card_of_nodup hnodup]
  congr 2
  ext n
  simp only [List.mem_toFinset, Finset.mem_sdiff, hmem, List.mem_map]
  constructor
  · rintro ⟨⟨o, ho, hname⟩, hA⟩
    exact ⟨⟨o, ho, hname⟩, fun ⟨a, ha, hn⟩ => hA a ha hn⟩
  · rintro ⟨⟨o, ho, hname⟩, hA⟩
    exact ⟨⟨o, ho, hname⟩, fun a ha hn => hA ⟨a, ha, hn⟩⟩

/-- Witness for the amended C7: two arguments of distinct names, three overrides of two names,
one of them new. -/
theorem applyBuildArgOverrides_length_distinct_names_witness :
    (build.ApplyBuildArgOverrides [⟨"a", "1"⟩, ⟨"b", "2"⟩]
        [⟨"c", "7"⟩, ⟨"b", "x"⟩, ⟨"c", "8"⟩]).length = 3 := by
  rw [applyBuildArgOverrides_length_distinct_names [⟨"a", "1"⟩, ⟨"b", "2"⟩]
    [⟨"c", "7"⟩, ⟨"b", "x"⟩, ⟨"c", "8"⟩] (by decide)]
  decide

/-! ## `GetRelevantSign` (C8, C9, C10) -/

/-- When both levels define a Sign spec, `GetRelevantSign` returns the module's spec with each
field overridden as the chain of `if` statements of the source prescribes. -/
theorem getRelevantSign_both (mod : Module) (km : KernelMapping)
    (modSign kmSign : Sign)
    (hmod : mod.Spec.ModuleLoader.Container.Sign = some modSign)
    (hkm : km.Sign = some kmSign) :
    build.GetRelevantSign mod km = some
      { UnsignedImage :=
          if kmSign.UnsignedImage ≠ "" then kmSign.UnsignedImage else modSign.UnsignedImage
        SignedImage :=
          if kmSign.SignedImage ≠ "" then kmSign.SignedImage
          else if modSign.SignedImage = "" then mod.Spec.ModuleLoader.Container.ContainerImage
          else modSign.SignedImage
        KeySecret := if kmSign.KeySecret ≠ none then kmSign.KeySecret else modSign.KeySecret
        CertSecret := if kmSign.CertSecret ≠ none then kmSign.CertSecret else modSign.CertSecret
        FilesToSign :=
          if kmSign.FilesToSign.length > 0 then kmSign.FilesToSign else modSign.FilesToSign
        Pull := if kmSign.Pull ≠ none then kmSign.Pull else modSign.Pull
        Push := if kmSign.Push ≠ none then kmSign.Push else modSign.Push } := by
  unfold build.GetRelevantSign
  simp only [hmod, hkm]
  congr 1
  rw [Sign.mk.injEq]
  simp only [apply_ite Sign.UnsignedImage, apply_ite Sign.SignedImage, apply_ite Sign.KeySecret,
    apply_ite Sign.CertSecret, apply_ite Sign.FilesToSign, apply_ite Sign.Pull,
    apply_ite Sign.Push, ite_self, and_self]

/-- C8, as stated, fails: with a module that defines no Sign spec (container image
`image-name`) and a kernel mapping whose Sign spec leaves `SignedImage` empty, at least one level
defines a Sign spec and both leave `SignedImage` empty, yet the result is a copy of the kernel
mapping's spec, whose `SignedImage` is empty and not the module's container image. -/
theorem getRelevantSign_single_level_keeps_empty_signedImage :
    sampleModuleNoSign.Spec.ModuleLoader.Container.Sign = none
    ∧ sampleKernelMappingEmptySign.Sign = some {}
    ∧ sampleModuleNoSign.Spec.ModuleLoader.Container.ContainerImage = "image-name"
    ∧ (build.GetRelevantSign sampleModuleNoSign sampleKernelMappingEmptySign).map
        Sign.SignedImage = some ""
    ∧ (build.GetRelevantSign sampleModuleNoSign sampleKernelMappingEmptySign).map
        Sign.SignedImage ≠
          some sampleModuleNoSign.Spec.ModuleLoader.Container.ContainerImage := by
  decide

/-- C8, amended: for every module and kernel mapping that both define a Sign spec and both
leave `SignedImage` empty, the `SignedImage` of the result of `GetRelevantSign` is the module's
container image. -/
theorem getRelevantSign_signedImage_fallback (mod : Module) (km : KernelMapping)
    (modSign kmSign : Sign)
    (hmod : mod.Spec.ModuleLoader.Container.Sign = some modSign)
    (hkm : km.Sign = some kmSign)
    (hmodEmpty : modSign.SignedImage = "")
    (hkmEmpty : kmSign.SignedImage = "") :
    ∃ signConfig, build.GetRelevantSign mod km = some signConfig
      ∧ signConfig.SignedImage = mod.Spec.ModuleLoader.Container.ContainerImage := by
  refine ⟨_, getRelevantSign_both mod km modSign kmSign hmod hkm, ?_⟩
  simp [hmodEmpty, hkmEmpty]

/-- Witness for the amended C8: both levels define a Sign spec without a signed image. -/
theorem getRelevantSign_signedImage_fallback_witness :
    (build.GetRelevantSign
        { Spec := { ModuleLoader := { Container :=
          { ContainerImage := "image-name", Sign := some { UnsignedImage := "u" } } } } }
        sampleKernelMappingEmptySign).map Sign.SignedImage = some "image-name" := by
  obtain ⟨signConfig, hres, himg⟩ := getRelevantSign_signedImage_fallback
    { Spec := { ModuleLoader := { Container :=
      { ContainerImage := "image-name", Sign := some { UnsignedImage := "u" } } } } }
    sampleKernelMappingEmptySign { UnsignedImage := "u" } {} rfl rfl rfl rfl
  rw [hres, Option.map_some', himg]

/-- C9: for every module, with or without a Sign spec of its own, and every kernel mapping whose
Sign spec has a non-empty `SignedImage`, the `SignedImage` of the result of `GetRelevantSign` is
the kernel mapping's. -/
theorem getRelevantSign_signedImage_override (mod : Module) (km : KernelMapping) (kmSign : Sign)
    (hkm : km.Sign = some kmSign)
    (hset : kmSign.SignedImage ≠ "") :
    ∃ signConfig, build.GetRelevantSign mod km = some signConfig
      ∧ signConfig.SignedImage = kmSign.SignedImage := by
  cases hmod : mod.Spec.ModuleLoader.Container.Sign with
  | none => exact ⟨kmSign, by unfold build.GetRelevantSign; simp only [hmod, hkm], rfl⟩
  | some modSign =>
    refine ⟨_, getRelevantSign_both mod km modSign kmSign hmod hkm, ?_⟩
    simp [hset]

/-- Witness for C9: a module with a Sign spec of its own and a kernel mapping that sets the
signed image. -/
theorem getRelevantSign_signedImage_override_witness :
    (build.GetRelevantSign sampleModuleSign sampleKernelMappingSign).map Sign.SignedImage
      = some "km-signed" := by
  obtain ⟨signConfig, hres, himg⟩ := getRelevantSign_signedImage_override
    sampleModuleSign sampleKernelMappingSign
    { SignedImage := "km-signed", KeySecret := some { Name := "km-key" }
      FilesToSign := ["/modules/km.ko"] } rfl (by decide)
  rw [hres, Option.map_some', himg]

/-- C10: for every module and kernel mapping that both define a Sign spec, the result of
`GetRelevantSign` takes each of `UnsignedImage`, `KeySecret`, `CertSecret`, `FilesToSign`, `Pull`
and `Push` from the kernel mapping when the kernel-mapping value is set (non-empty string,
non-nil reference, non-empty list, non-nil toggle) and from the module otherwise; and when the
kernel mapping's `SignedImage` is empty but the module's is not, the result keeps the
module's. -/
theorem getRelevantSign_field_overrides (mod : Module) (km : KernelMapping)
    (modSign kmSign : Sign)
    (hmod : mod.Spec.ModuleLoader.Container.Sign = some modSign)
    (hkm : km.Sign = some kmSign) :
    ∃ signConfig, build.GetRelevantSign mod km = some signConfig
      ∧ signConfig.UnsignedImage =
          (if kmSign.UnsignedImage ≠ "" then kmSign.UnsignedImage else modSign.UnsignedImage)
      ∧ signConfig.KeySecret =
          (if kmSign.KeySecret ≠ none then kmSign.KeySecret else modSign.KeySecret)
      ∧ signConfig.CertSecret =
          (if kmSign.CertSecret ≠ none then kmSign.CertSecret else modSign.CertSecret)
      ∧ signConfig.FilesToSign =
          (if kmSign.FilesToSign ≠ [] then kmSign.FilesToSign else modSign.FilesToSign)
      ∧ signConfig.Pull = (if kmSign.Pull ≠ none then kmSign.Pull else modSign.Pull)
      ∧ signConfig.Push = (if kmSign.Push ≠ none then kmSign.Push else modSign.Push)
      ∧ (kmSign.SignedImage = "" → modSign.SignedImage ≠ "" →
          signConfig.SignedImage = modSign.SignedImage) := by
  refine ⟨_, getRelevantSign_both mod km modSign kmSign hmod hkm, rfl, rfl, rfl, ?_, rfl, rfl, ?_⟩
  · by_cases h : kmSign.FilesToSign = []
    · simp [h]
    · simp [h, List.length_pos]
  · intro h1 h2
    simp [h1, h2]

/-- Witness for C10: the module sets every field, the kernel mapping sets the signed image, the
key secret and the files. -/
theorem getRelevantSign_field_overrides_witness :
    ∃ signConfig, build.GetRelevantSign sampleModuleSign sampleKernelMappingSign = some signConfig
      ∧ signConfig.UnsignedImage = "mod-unsigned"
      ∧ signConfig.KeySecret = some { Name := "km-key" }
      ∧ signConfig.CertSecret = some { Name := "mod-cert" }
      ∧ signConfig.FilesToSign = ["/modules/km.ko"]
      ∧ signConfig.Pull = some {}
      ∧ signConfig.Push = some {} := by
  obtain ⟨signConfig, hres, hU, hK, hC, hF, hPull, hPush, _⟩ := getRelevantSign_field_overrides
    sampleModuleSign sampleKernelMappingSign
    { UnsignedImage := "mod-unsigned", SignedImage := "mod-signed"
      KeySecret := some { Name := "mod-key" }, CertSecret := some { Name := "mod-cert" }
      FilesToSign := ["/modules/mod.ko"], Pull := some {}, Push := some {} }
    { SignedImage := "km-signed", KeySecret := some { Name := "km-key" }
      FilesToSign := ["/modules/km.ko"] } rfl rfl
  exact ⟨signConfig, hres, hU.trans (by decide), hK.trans (by decide), hC.trans (by decide),
    hF.trans (by decide), hPull.trans (by decide), hPush.trans (by decide)⟩

/-! ## `GetRelevantBuild`, single-level fallback and `ShouldRun` (C11, C12, C13) -/

/-- C11: for every module and kernel mapping that both define a Build spec, the result of
`GetRelevantBuild` is the module's Build spec with `Dockerfile` replaced by the kernel mapping's
when that is non-empty, `BuildArgs` equal to `ApplyBuildArgOverrides` of the module's arguments
and the kernel mapping's, and `Secrets` equal to the module's list followed by the kernel
mapping's, duplicates retained (its length is the sum of both lengths); every other field is the
module's. -/
theorem getRelevantBuild_both (mod : Module) (km : KernelMapping) (modBuild kmBuild : Build)
    (hmod : mod.Spec.ModuleLoader.Container.Build = some modBuild)
    (hkm : km.Build = some kmBuild) :
    build.GetRelevantBuild mod km = some
      { modBuild with
        Dockerfile := if kmBuild.Dockerfile ≠ "" then kmBuild.Dockerfile else modBuild.Dockerfile
        BuildArgs := build.ApplyBuildArgOverrides modBuild.BuildArgs kmBuild.BuildArgs
        Secrets := modBuild.Secrets ++ kmBuild.Secrets }
    ∧ ∀ buildConfig, build.GetRelevantBuild mod km = some buildConfig →
        buildConfig.Secrets.length = modBuild.Secrets.length + kmBuild.Secrets.length
        ∧ buildConfig.Pull = modBuild.Pull := by
  have hres : build.GetRelevantBuild mod km = some
      { modBuild with
        Dockerfile := if kmBuild.Dockerfile ≠ "" then kmBuild.Dockerfile else modBuild.Dockerfile
        BuildArgs := build.ApplyBuildArgOverrides modBuild.BuildArgs kmBuild.BuildArgs
        Secrets := modBuild.Secrets ++ kmBuild.Secrets } := by
    unfold build.GetRelevantBuild
    simp only [hmod, hkm]
    by_cases h : kmBuild.Dockerfile = ""
    · simp [h]
    · simp [h]
  refine ⟨hres, ?_⟩
  intro buildConfig hb
  rw [hres] at hb
  cases hb
  exact ⟨List.length_append _ _, rfl⟩

/-- Witness for C11: both levels define a Build spec and share a secret name. -/
theorem getRelevantBuild_both_witness :
    build.GetRelevantBuild sampleModuleBuild sampleKernelMappingBuild = some
      { BuildArgs := [⟨"a", "1"⟩, ⟨"b", "x"⟩, ⟨"c", "7"⟩], Dockerfile := "FROM km"
        Secrets := [⟨"s1"⟩, ⟨"s2"⟩, ⟨"s1"⟩] } :=
  (getRelevantBuild_both sampleModuleBuild sampleKernelMappingBuild
    sampleModuleBuildSpec sampleKernelMappingBuildSpec rfl rfl).1.trans (by decide)

/-- C12: single-level fallback. If the module defines no Build (resp. Sign) spec,
`GetRelevantBuild` (resp. `GetRelevantSign`) returns the kernel mapping's spec, field for field;
if the kernel mapping defines none and the module does, it returns the module's spec, field for
field. -/
theorem getRelevant_single_level (mod : Module) (km : KernelMapping) :
    (mod.Spec.ModuleLoader.Container.Build = none →
        build.GetRelevantBuild mod km = km.Build)
    ∧ (km.Build = none → ∀ modBuild, mod.Spec.ModuleLoader.Container.Build = some modBuild →
        build.GetRelevantBuild mod km = some modBuild)
    ∧ (mod.Spec.ModuleLoader.Container.Sign = none →
        build.GetRelevantSign mod km = km.Sign)
    ∧ (km.Sign = none → ∀ modSign, mod.Spec.ModuleLoader.Container.Sign = some modSign →
        build.GetRelevantSign mod km = some modSign) := by
  refine ⟨?_, ?_, ?_, ?_⟩
  · intro h
    unfold build.GetRelevantBuild
    simp only [h]
  · intro hk modBuild hm
    unfold build.GetRelevantBuild
    simp only [hm, hk]
  · intro h
    unfold build.GetRelevantSign
    simp only [h]
  · intro hk modSign hm
    unfold build.GetRelevantSign
    simp only [hm, hk]

/-- Witness for C12: a module without Sign spec under a kernel mapping with one, and a module
with a Sign spec under a kernel mapping without. -/
theorem getRelevant_single_level_witness :
    build.GetRelevantSign sampleModuleNoSign sampleKernelMappingSign = sampleKernelMappingSign.Sign
    ∧ build.GetRelevantSign sampleModuleSign sampleKernelMapping =
        sampleModuleSign.Spec.ModuleLoader.Container.Sign :=
  ⟨(getRelevant_single_level sampleModuleNoSign sampleKernelMappingSign).2.2.1 rfl,
   (getRelevant_single_level sampleModuleSign sampleKernelMapping).2.2.2 rfl _ rfl⟩

/-- C13: for every module and kernel mapping, `ShouldRun` returns false if and only if neither
the module's container spec nor the kernel mapping defines a Sign spec; a Sign spec that is
present, even empty, at either level makes it true. -/
theorem shouldRun_false_iff (mod : Module) (km : KernelMapping) :
    (signer.ShouldRun mod km = false ↔
        mod.Spec.ModuleLoader.Container.Sign = none ∧ km.Sign = none)
    ∧ (∀ s, mod.Spec.ModuleLoader.Container.Sign = some s → signer.ShouldRun mod km = true)
    ∧ (∀ s, km.Sign = some s → signer.ShouldRun mod km = true) := by
  unfold signer.ShouldRun
  refine ⟨?_, ?_, ?_⟩
  · by_cases h : mod.Spec.ModuleLoader.Container.Sign = none ∧ km.Sign = none
    · simp [h]
    · simp [h]
  · intro s hs
    simp [hs]
  · intro s hs
    simp [hs]

/-- Witness for C13: the three entries of the `ShouldRun` test table. -/
theorem shouldRun_false_iff_witness :
    signer.ShouldRun sampleModuleNoSign sampleKernelMappingEmptySign = true
    ∧ signer.ShouldRun sampleModuleSign sampleKernelMapping = true
    ∧ signer.ShouldRun sampleModuleNoSign sampleKernelMapping = false :=
  ⟨(shouldRun_false_iff sampleModuleNoSign sampleKernelMappingEmptySign).2.2 _ rfl,
   (shouldRun_false_iff sampleModuleSign sampleKernelMapping).2.1 _ rfl,
   (shouldRun_false_iff sampleModuleNoSign sampleKernelMapping).1.2 ⟨rfl, rfl⟩⟩

/-! ## The job builders: what a returned Job looks like -/

/-- The image reference the in-cluster builder signs: the previous-stage image when given, else
the resolved spec's unsigned image, else none. -/
theorem makeJobTemplate_returns (c : Constants) (m : signjob.signer) (mod : Module)
    (signConfig : Option Sign) (targetKernel previousImage targetImage : String)
    (pushImage : Bool) (job : Job)
    (h : signjob.MakeJobTemplate c m mod signConfig targetKernel previousImage targetImage
      pushImage = some (.ok job)) :
    ∃ sc unsignedImage,
      signConfig = some sc
      ∧ (if previousImage ≠ "" then some previousImage
          else if sc.UnsignedImage ≠ "" then some sc.UnsignedImage else none) = some unsignedImage
      ∧ job.GenerateName = mod.Name ++ "-sign-"
      ∧ job.Namespace = mod.Namespace
      ∧ job.Labels = some (signjob.labels c mod targetKernel)
      ∧ job.Annotations = none
      ∧ job.Spec.Completions = some 1
      ∧ job.Spec.Template.Spec.RestartPolicy = RestartPolicyOnFailure
      ∧ job.Spec.Template.Spec.NodeSelector = mod.Spec.Selector
      ∧ job.Spec.Template.Spec.Containers =
          [{ Name := "signimage"
             Image := "quay.io/chrisp262/kmod-signer:latest"
             Args :=
               (if pushImage then ["-signedimage", targetImage] else ["-no-push"])
                 ++ ["-unsignedimage", unsignedImage]
                 ++ ["-key", "/signingkey/key.priv"]
                 ++ ["-cert", "/signingcert/public.der"]
                 ++ (if sc.FilesToSign ≠ [] then
                      ["-filestosign", ":".intercalate sc.FilesToSign] else [])
                 ++ (if mod.Spec.ImageRepoSecret ≠ none then
                      ["-pullsecret", "/docker_config/config.json"] else [])
             VolumeMounts :=
               [signjob.makeImageSecretVolumeMount sc.CertSecret "/signingcert",
                signjob.makeImageSecretVolumeMount sc.KeySecret "/signingkey"]
                 ++ (if mod.Spec.ImageRepoSecret ≠ none then
                      [signjob.makeImageSecretVolumeMount mod.Spec.ImageRepoSecret
                        "/docker_config"] else []) }]
      ∧ job.Spec.Template.Spec.Volumes =
          [signjob.makeImageSigningSecretVolume sc.KeySecret "key" "key.priv",
           signjob.makeImageSigningSecretVolume sc.CertSecret "cert" "public.der"]
            ++ (if mod.Spec.ImageRepoSecret ≠ none then
                 [signjob.makeImageSigningSecretVolume mod.Spec.ImageRepoSecret
                   DockerConfigJsonKey "config.json"] else []) := by
  unfold signjob.MakeJobTemplate at h
  cases signConfig with
  | none => simp at h
  | some sc =>
    simp only at h
    cases href : (if previousImage ≠ "" then some previousImage
        else if sc.UnsignedImage ≠ "" then some sc.UnsignedImage else none) with
    | none =>
      rw [href] at h
      simp at h
    | some unsignedImage =>
      rw [href] at h
      simp only at h
      refine ⟨sc, unsignedImage, rfl, href, ?_⟩
      split at h
      · simp at h
      · simp only [Option.some.injEq, Except.ok.injEq] at h
        subst h
        refine ⟨rfl, rfl, rfl, rfl, rfl, rfl, rfl, ?_, ?_⟩
        · by_cases hp : pushImage = true <;> by_cases hf : sc.FilesToSign = [] <;>
            by_cases hs : mod.Spec.ImageRepoSecret = none <;>
            simp [hp, hf, hs, List.length_pos]
        · by_cases hs : mod.Spec.ImageRepoSecret = none <;> simp [hs]

/-- The in-cluster builder returns a Job whenever it has a sign config, an image to sign, and
the scheme can attach the owner reference. -/
theorem makeJobTemplate_succeeds (c : Constants) (m : signjob.signer) (mod : Module)
    (sc : Sign) (targetKernel previousImage targetImage : String) (pushImage : Bool)
    (himage : previousImage ≠ "" ∨ sc.UnsignedImage ≠ "")
    (hown : ∀ job, ∃ refs, m.scheme.SetControllerReference mod job = .ok refs) :
    ∃ job, signjob.MakeJobTemplate c m mod (some sc) targetKernel previousImage targetImage
      pushImage = some (.ok job) := by
  have href : ∃ unsignedImage, (if previousImage ≠ "" then some previousImage
      else if sc.UnsignedImage ≠ "" then some sc.UnsignedImage else none) = some unsignedImage := by
    by_cases hp : previousImage = ""
    · rcases himage with h | h
      · exact absurd hp h
      · exact ⟨sc.UnsignedImage, by simp [hp, h]⟩
    · exact ⟨previousImage, by simp [hp]⟩
  obtain ⟨unsignedImage, href⟩ := href
  unfold signjob.MakeJobTemplate
  simp only [href]
  split
  · rename_i err heq
    obtain ⟨refs, hrefs⟩ := hown _
    rw [hrefs] at heq
    cases heq
  · exact ⟨_, rfl⟩

/-- The in-cluster builder returns the configuration error exactly when it has a sign config but
no image to sign. -/
theorem makeJobTemplate_no_image (c : Constants) (m : signjob.signer) (mod : Module)
    (sc : Sign) (targetKernel targetImage : String) (pushImage : Bool)
    (hempty : sc.UnsignedImage = "") :
    signjob.MakeJobTemplate c m mod (some sc) targetKernel "" targetImage pushImage =
      some (.error (.errorf "no image to sign given")) := by
  unfold signjob.MakeJobTemplate
  simp [hempty, Errorf]

/-- What a Job returned by the standalone builder looks like. -/
theorem makeJob_returns (c : Constants) (m : signer.signer) (mod : Module)
    (signConfig : Option Sign) (targetKernel : String) (pushImage : Bool) (job : Job)
    (h : signer.MakeJob c m mod signConfig targetKernel pushImage = some (.ok job)) :
    ∃ sc key cert,
      signConfig = some sc ∧ sc.KeySecret = some key ∧ sc.CertSecret = some cert
      ∧ job.GenerateName = mod.Name ++ "-" ++ m.name ++ "-"
      ∧ job.Namespace = mod.Namespace
      ∧ job.Labels = some (signer.labels c mod targetKernel m.name)
      ∧ job.Annotations = none
      ∧ job.Spec.Completions = some 1
      ∧ job.Spec.Template.Spec.RestartPolicy = RestartPolicyOnFailure
      ∧ job.Spec.Template.Spec.NodeSelector = mod.Spec.Selector
      ∧ job.Spec.Template.Spec.Containers =
          [{ Name := "signimage"
             Image := "quay.io/chrisp262/kmod-signer:latest"
             Args :=
               (if pushImage then ["-signedimage", sc.SignedImage] else ["-no-push"])
                 ++ ["-unsignedimage", sc.UnsignedImage]
                 ++ ["-pullsecret", "/docker_config/config.json"]
                 ++ ["-key", "/signingkey/key.priv"]
                 ++ ["-cert", "/signingcert/public.der"]
                 ++ (if sc.FilesToSign ≠ [] then
                      ["-filestosign", ":".intercalate sc.FilesToSign] else [])
             VolumeMounts :=
               [{ Name := "secret-" ++ cert.Name, ReadOnly := true, MountPath := "/signingcert" },
                { Name := "secret-" ++ key.Name, ReadOnly := true, MountPath := "/signingkey" }]
                 ++ (if mod.Spec.ImageRepoSecret ≠ none then
                      [signer.makeImagePullSecretVolumeMount mod.Spec.ImageRepoSecret] else []) }]
      ∧ job.Spec.Template.Spec.Volumes =
          [{ Name := "secret-" ++ key.Name
             VolumeSource :=
               { Secret :=
                   some { SecretName := key.Name, Items := [{ Key := "key", Path := "key.priv" }] } } },
           { Name := "secret-" ++ cert.Name
             VolumeSource :=
               { Secret :=
                   some { SecretName := cert.Name
                          Items := [{ Key := "cert", Path := "public.der" }] } } }]
            ++ (if mod.Spec.ImageRepoSecret ≠ none then
                 [signer.makeImagePullSecretVolume mod.Spec.ImageRepoSecret] else []) := by
  unfold signer.MakeJob at h
  cases signConfig with
  | none => simp at h
  | some sc =>
    cases hkey : sc.KeySecret with
    | none => simp [hkey, signer.makeImageSigningSecretVolume] at h
    | some key =>
      cases hcert : sc.CertSecret with
      | none => simp [hkey, hcert, signer.makeImageSigningSecretVolume] at h
      | some cert =>
        simp only [hkey, hcert, signer.makeImageSigningSecretVolume,
          signer.makeImageSigningSecretVolumeMount] at h
        refine ⟨sc, key, cert, rfl, hkey, hcert, ?_⟩
        split at h
        · simp at h
        · simp only [Option.some.injEq, Except.ok.injEq] at h
          subst h
          refine ⟨rfl, rfl, rfl, rfl, rfl, rfl, rfl, ?_, ?_⟩
          · by_cases hp : pushImage = true <;> by_cases hf : sc.FilesToSign = [] <;>
              by_cases hs : mod.Spec.ImageRepoSecret = none <;>
              simp [hp, hf, hs, List.length_pos, signer.volumeNameFromSecretRef]
          · by_cases hs : mod.Spec.ImageRepoSecret = none <;>
              simp [hs, signer.volumeNameFromSecretRef]

/-- The standalone builder returns a Job whenever the sign config carries both secrets and the
scheme can attach the owner reference. -/
theorem makeJob_succeeds (c : Constants) (m : signer.signer) (mod : Module)
    (sc : Sign) (key cert : LocalObjectReference) (targetKernel : String) (pushImage : Bool)
    (hkey : sc.KeySecret = some key) (hcert : sc.CertSecret = some cert)
    (hown : ∀ job, ∃ refs, m.scheme.SetControllerReference mod job = .ok refs) :
    ∃ job, signer.MakeJob c m mod (some sc) targetKernel pushImage = some (.ok job) := by
  unfold signer.MakeJob
  simp only [hkey, hcert, signer.makeImageSigningSecretVolume,
    signer.makeImageSigningSecretVolumeMount]
  split
  · rename_i err heq
    obtain ⟨refs, hrefs⟩ := hown _
    rw [hrefs] at heq
    cases heq
  · exact ⟨_, rfl⟩

/-- The arguments of a Job returned by the standalone builder. -/
theorem makeJob_args (c : Constants) (m : signer.signer) (mod : Module)
    (signConfig : Option Sign) (targetKernel : String) (pushImage : Bool) (job : Job)
    (h : signer.MakeJob c m mod signConfig targetKernel pushImage = some (.ok job)) :
    ∃ sc container, signConfig = some sc
      ∧ job.Spec.Template.Spec.Containers = [container]
      ∧ container.Args =
          (if pushImage then ["-signedimage", sc.SignedImage] else ["-no-push"])
            ++ ["-unsignedimage", sc.UnsignedImage]
            ++ ["-pullsecret", "/docker_config/config.json"]
            ++ ["-key", "/signingkey/key.priv"]
            ++ ["-cert", "/signingcert/public.der"]
            ++ (if sc.FilesToSign ≠ [] then
                 ["-filestosign", ":".intercalate sc.FilesToSign] else []) := by
  obtain ⟨sc, key, cert, hsc, _, _, _, _, _, _, _, _, _, hcont, _⟩ :=
    makeJob_returns c m mod signConfig targetKernel pushImage job h
  exact ⟨sc, _, hsc, hcont, rfl⟩

/-- The image to sign, once the builder has found one. -/
theorem unsignedImage_of_some (previousImage : String) (sc : Sign) (unsignedImage : String)
    (h : (if previousImage ≠ "" then some previousImage
        else if sc.UnsignedImage ≠ "" then some sc.UnsignedImage else none) = some unsignedImage) :
    unsignedImage = (if previousImage ≠ "" then previousImage else sc.UnsignedImage)
    ∧ (previousImage ≠ "" ∨ sc.UnsignedImage ≠ "") := by
  by_cases hp : previousImage = ""
  · by_cases hu : sc.UnsignedImage = ""
    · simp [hp, hu] at h
    · simp only [hp, hu, ne_eq, not_true_eq_false, not_false_eq_true, if_true, if_false,
        Option.some.injEq] at h
      subst h
      exact ⟨by simp [hp], Or.inr hu⟩
  · simp only [hp, ne_eq, not_false_eq_true, if_true, Option.some.injEq] at h
    subst h
    exact ⟨by simp [hp], Or.inl hp⟩

/-! ## The arguments of the in-cluster builder (C14, C15, C17) -/

/-- C14, as stated, fails: for a module that defines an image-pull secret, `MakeJobTemplate`
succeeds and puts `-pullsecret /docker_config/config.json` last, after `-key`, `-cert` and
`-filestosign`, not between `-unsignedimage` and `-key`. -/
theorem makeJobTemplate_pullsecret_comes_last :
    sampleModulePullSecret.Spec.ImageRepoSecret = some { Name := "pull-push-secret" }
    ∧ ∃ job container,
      signjob.MakeJobTemplate sampleConstants { scheme := sampleScheme }
        sampleModulePullSecret (some sampleSign) "1.2.3" "" "target-image" true = some (.ok job)
      ∧ job.Spec.Template.Spec.Containers = [container]
      ∧ container.Args =
          ["-signedimage", "target-image", "-unsignedimage", "my.registry/my/image",
           "-key", "/signingkey/key.priv", "-cert", "/signingcert/public.der",
           "-filestosign", "/modules/simple-kmod.ko:/modules/simple-procfs-kmod.ko",
           "-pullsecret", "/docker_config/config.json"]
      ∧ container.Args ≠
          ["-signedimage", "target-image", "-unsignedimage", "my.registry/my/image",
           "-pullsecret", "/docker_config/config.json",
           "-key", "/signingkey/key.priv", "-cert", "/signingcert/public.der",
           "-filestosign", "/modules/simple-kmod.ko:/modules/simple-procfs-kmod.ko"] :=
  ⟨rfl, _, _, rfl, rfl, by decide, by decide⟩

/-- C14, amended: for every input on which `MakeJobTemplate` succeeds, the Job has one
container, whose argument list is exactly the concatenation, in this order, of:
`-signedimage targetImage` if `pushImage`, else `-no-push`; `-unsignedimage ref`, where `ref` is
the previous image when given and else the resolved spec's unsigned image;
`-key /signingkey/key.priv`; `-cert /signingcert/public.der`; `-filestosign` and the files joined
by `:`, only if the resolved spec lists files; and last `-pullsecret /docker_config/config.json`,
only if the module defines an image-pull secret. -/
theorem makeJobTemplate_args (c : Constants) (m : signjob.signer) (mod : Module)
    (signConfig : Option Sign) (targetKernel previousImage targetImage : String)
    (pushImage : Bool) (job : Job)
    (h : signjob.MakeJobTemplate c m mod signConfig targetKernel previousImage targetImage
      pushImage = some (.ok job)) :
    ∃ sc container, signConfig = some sc
      ∧ job.Spec.Template.Spec.Containers = [container]
      ∧ container.Args =
          (if pushImage then ["-signedimage", targetImage] else ["-no-push"])
            ++ ["-unsignedimage", if previousImage ≠ "" then previousImage else sc.UnsignedImage]
            ++ ["-key", "/signingkey/key.priv"]
            ++ ["-cert", "/signingcert/public.der"]
            ++ (if sc.FilesToSign ≠ [] then
                 ["-filestosign", ":".intercalate sc.FilesToSign] else [])
            ++ (if mod.Spec.ImageRepoSecret ≠ none then
                 ["-pullsecret", "/docker_config/config.json"] else []) := by
  obtain ⟨sc, unsignedImage, hsc, href, _, _, _, _, _, _, _, hcont, _⟩ :=
    makeJobTemplate_returns c m mod signConfig targetKernel previousImage targetImage pushImage
      job h
  refine ⟨sc, _, hsc, hcont, ?_⟩
  rw [(unsignedImage_of_some previousImage sc unsignedImage href).1]

/-- Witness for the amended C14: the module with an image-pull secret and the sign config of the
builder tests, without push. -/
theorem makeJobTemplate_args_witness :
    ∃ job, signjob.MakeJobTemplate sampleConstants { scheme := sampleScheme }
        sampleModulePullSecret (some sampleSign) "1.2.3" "previous-image" "target-image" false
          = some (.ok job)
      ∧ job.Spec.Template.Spec.Containers.map Container.Args =
          [["-no-push", "-unsignedimage", "previous-image",
            "-key", "/signingkey/key.priv", "-cert", "/signingcert/public.der",
            "-filestosign", "/modules/simple-kmod.ko:/modules/simple-procfs-kmod.ko",
            "-pullsecret", "/docker_config/config.json"]] := by
  refine ⟨_, rfl, ?_⟩
  obtain ⟨sc, container, hsc, hcont, hargs⟩ := makeJobTemplate_args sampleConstants
    { scheme := sampleScheme } sampleModulePullSecret (some sampleSign) "1.2.3" "previous-image"
    "target-image" false _ rfl
  cases hsc
  rw [hcont, List.map_cons, List.map_nil, hargs]
  decide

/-- C15: in `MakeJobTemplate`, on a resolved sign config, the value that follows the
`-unsignedimage` the builder emits (right after the push flag) is `previousImage` when that is
non-empty, and otherwise the resolved spec's `UnsignedImage` when that is non-empty; and, when
the scheme can attach the owner reference, `MakeJobTemplate` fails (returns an error, and so no
Job) if and only if both `previousImage` and the resolved spec's `UnsignedImage` are empty. -/
theorem makeJobTemplate_unsigned_image (c : Constants) (m : signjob.signer) (mod : Module)
    (sc : Sign) (targetKernel previousImage targetImage : String) (pushImage : Bool)
    (hown : ∀ job, ∃ refs, m.scheme.SetControllerReference mod job = .ok refs) :
    ((∃ err, signjob.MakeJobTemplate c m mod (some sc) targetKernel previousImage targetImage
          pushImage = some (.error err)) ↔ (previousImage = "" ∧ sc.UnsignedImage = ""))
    ∧ (previousImage ≠ "" →
        ∃ job container rest,
          signjob.MakeJobTemplate c m mod (some sc) targetKernel previousImage targetImage
            pushImage = some (.ok job)
          ∧ job.Spec.Template.Spec.Containers = [container]
          ∧ container.Args =
              (if pushImage then ["-signedimage", targetImage] else ["-no-push"])
                ++ ["-unsignedimage", previousImage] ++ rest)
    ∧ (previousImage = "" → sc.UnsignedImage ≠ "" →
        ∃ job container rest,
          signjob.MakeJobTemplate c m mod (some sc) targetKernel previousImage targetImage
            pushImage = some (.ok job)
          ∧ job.Spec.Template.Spec.Containers = [container]
          ∧ container.Args =
              (if pushImage then ["-signedimage", targetImage] else ["-no-push"])
                ++ ["-unsignedimage", sc.UnsignedImage] ++ rest) := by
  have hok : ∀ (_ : previousImage ≠ "" ∨ sc.UnsignedImage ≠ ""),
      ∃ job container rest,
        signjob.MakeJobTemplate c m mod (some sc) targetKernel previousImage targetImage
          pushImage = some (.ok job)
        ∧ job.Spec.Template.Spec.Containers = [container]
        ∧ container.Args =
            (if pushImage then ["-signedimage", targetImage] else ["-no-push"])
              ++ ["-unsignedimage", if previousImage ≠ "" then previousImage
                  else sc.UnsignedImage] ++ rest := by
    intro himage
    obtain ⟨job, hjob⟩ := makeJobTemplate_succeeds c m mod sc targetKernel previousImage
      targetImage pushImage himage hown
    obtain ⟨sc2, container, hsc, hcont, hargs⟩ :=
      makeJobTemplate_args c m mod (some sc) targetKernel previousImage targetImage pushImage
        job hjob
    cases hsc
    refine ⟨job, container,
      ["-key", "/signingkey/key.priv"] ++ ["-cert", "/signingcert/public.der"]
        ++ (if sc.FilesToSign ≠ [] then ["-filestosign", ":".intercalate sc.FilesToSign] else [])
        ++ (if mod.Spec.ImageRepoSecret ≠ none then
             ["-pullsecret", "/docker_config/config.json"] else []),
      hjob, hcont, ?_⟩
    rw [hargs]
    simp only [List.append_assoc]
  refine ⟨?_, ?_, ?_⟩
  · constructor
    · rintro ⟨err, herr⟩
      by_contra hne
      have himage : previousImage ≠ "" ∨ sc.UnsignedImage ≠ "" := by
        by_cases hp : previousImage = ""
        · exact Or.inr (fun hu => hne ⟨hp, hu⟩)
        · exact Or.inl hp
      obtain ⟨job, _, _, hjob, _⟩ := hok himage
      rw [hjob] at herr
      cases herr
    · rintro ⟨hp, hu⟩
      subst hp
      exact ⟨_, makeJobTemplate_no_image c m mod sc targetKernel targetImage pushImage hu⟩
  · intro hp
    obtain ⟨job, container, rest, hjob, hcont, hargs⟩ := hok (Or.inl hp)
    exact ⟨job, container, rest, hjob, hcont, by rw [hargs]; simp [hp]⟩
  · intro hp hu
    obtain ⟨job, container, rest, hjob, hcont, hargs⟩ := hok (Or.inr hu)
    exact ⟨job, container, rest, hjob, hcont, by rw [hargs]; simp [hp]⟩

/-- Witness for C15: with a scheme that registers the Module type, an empty previous image and
an empty unsigned image give the configuration error, and a previous image is the one signed. -/
theorem makeJobTemplate_unsigned_image_witness :
    signjob.MakeJobTemplate sampleConstants { scheme := sampleScheme } sampleModule (some {})
        "1.2.3" "" "target-image" true = some (.error (.errorf "no image to sign given"))
    ∧ ∃ job container rest,
        signjob.MakeJobTemplate sampleConstants { scheme := sampleScheme } sampleModule
          (some sampleSign) "1.2.3" "previous-image" "target-image" true = some (.ok job)
        ∧ job.Spec.Template.Spec.Containers = [container]
        ∧ container.Args = ["-signedimage", "target-image", "-unsignedimage", "previous-image"]
            ++ rest := by
  refine ⟨rfl, ?_⟩
  obtain ⟨job, container, rest, hjob, hcont, hargs⟩ :=
    (makeJobTemplate_unsigned_image sampleConstants { scheme := sampleScheme } sampleModule
      sampleSign "1.2.3" "previous-image" "target-image" true
      (fun _ => ⟨_, rfl⟩)).2.1 (by decide)
  exact ⟨job, container, rest, hjob, hcont, hargs⟩

/-- C17: for every module without an image-pull secret, every resolved Sign spec with a
non-empty `UnsignedImage` and no files to sign, an empty previous image, a target image and
`pushImage = true`, `MakeJobTemplate` (the scheme attaching the owner reference) builds a Job
with one container whose arguments are exactly `-signedimage T -unsignedimage U -key
/signingkey/key.priv -cert /signingcert/public.der`; and the first in-cluster Sync, with a helper
that resolves that spec and that builder as its signer, creates this Job when no Job exists. -/
theorem makeJobTemplate_scenario_args (c : Constants) (m : signjob.signer) (mod : Module)
    (sc : Sign) (targetKernel targetImage : String)
    (jbm : signjob.signJobManager) (km : KernelMapping)
    (hpull : mod.Spec.ImageRepoSecret = none)
    (hunsigned : sc.UnsignedImage ≠ "")
    (hfiles : sc.FilesToSign = [])
    (hown : ∀ job, ∃ refs, m.scheme.SetControllerReference mod job = .ok refs)
    (hresolve : jbm.helper.GetRelevantSign mod km = some sc)
    (hsigner : some (jbm.signer.MakeJobTemplate mod (some sc) targetKernel "" targetImage true)
      = signjob.MakeJobTemplate c m mod (some sc) targetKernel "" targetImage true)
    (hlist : jbm.client.List
      { MatchingLabels := signjob.labels c mod targetKernel, InNamespace := mod.Namespace }
        = .ok []) :
    ∃ job container,
      signjob.MakeJobTemplate c m mod (some sc) targetKernel "" targetImage true = some (.ok job)
      ∧ job.Spec.Template.Spec.Containers = [container]
      ∧ container.Args =
          ["-signedimage", targetImage, "-unsignedimage", sc.UnsignedImage,
           "-key", "/signingkey/key.priv", "-cert", "/signingcert/public.der"]
      ∧ (signjob.Sync c jbm mod km targetKernel "" targetImage true).2 =
          [Call.List
            { MatchingLabels := signjob.labels c mod targetKernel, InNamespace := mod.Namespace },
           Call.Create job] := by
  obtain ⟨job, hjob⟩ := makeJobTemplate_succeeds c m mod sc targetKernel "" targetImage true
    (Or.inr hunsigned) hown
  obtain ⟨sc2, container, hsc, hcont, hargs⟩ :=
    makeJobTemplate_args c m mod (some sc) targetKernel "" targetImage true job hjob
  cases hsc
  refine ⟨job, container, hjob, hcont, ?_, ?_⟩
  · rw [hargs]
    simp [hpull, hfiles]
  · have his : errorsIs signjob.errNoMatchingBuild signjob.errNoMatchingBuild = true := by
      simp [errorsIs]
    rw [hjob, Option.some.injEq] at hsigner
    unfold signjob.Sync
    simp only [hresolve, hsigner, signjob_getJob_list_ok c jbm mod targetKernel [] hlist, his]
    cases hcreate : jbm.client.Create job <;> simp

/-- Witness for C17: the scenario of the spec, `UnsignedImage = my.registry/img`, on an empty
store. -/
theorem makeJobTemplate_scenario_args_witness :
    ∃ job,
      signjob.MakeJobTemplate sampleConstants { scheme := sampleScheme } sampleScenarioModule
        (some sampleScenarioSign) "1.2.3" "" "my.registry/img-signed" true = some (.ok job)
      ∧ job.Spec.Template.Spec.Containers.map Container.Args =
          [["-signedimage", "my.registry/img-signed", "-unsignedimage", "my.registry/img",
            "-key", "/signingkey/key.priv", "-cert", "/signingcert/public.der"]]
      ∧ (signjob.Sync sampleConstants sampleScenarioManager sampleScenarioModule
          sampleKernelMapping "1.2.3" "" "my.registry/img-signed" true).2 =
          [Call.List
            { MatchingLabels := signjob.labels sampleConstants sampleScenarioModule "1.2.3",
              InNamespace := "some-namespace" },
           Call.Create job] := by
  obtain ⟨job, container, hjob, hcont, hargs, hsync⟩ :=
    makeJobTemplate_scenario_args sampleConstants { scheme := sampleScheme }
      sampleScenarioModule sampleScenarioSign "1.2.3" "my.registry/img-signed"
      sampleScenarioManager sampleKernelMapping rfl (by decide) rfl (fun _ => ⟨_, rfl⟩) rfl rfl rfl
  exact ⟨job, hjob, by rw [hcont, List.map_cons, List.map_nil, hargs]; rfl, hsync⟩

/-! ## The `-pullsecret` argument (C16) -/

/-- C16, as stated, fails for the standalone builder: for a module that defines no image-pull
secret, `MakeJob` succeeds and its argument list still contains `-pullsecret`, followed by
`/docker_config/config.json`. -/
theorem makeJob_pullsecret_without_pull_secret :
    sampleModule.Spec.ImageRepoSecret = none
    ∧ ∃ job container,
      signer.MakeJob sampleConstants (signer.NewSigner sampleScheme) sampleModule
        (some sampleSign) "1.2.3" true = some (.ok job)
      ∧ job.Spec.Template.Spec.Containers = [container]
      ∧ container.Args =
          ["-signedimage", "my.registry/my/image-signed",
           "-unsignedimage", "my.registry/my/image",
           "-pullsecret", "/docker_config/config.json",
           "-key", "/signingkey/key.priv", "-cert", "/signingcert/public.der",
           "-filestosign", "/modules/simple-kmod.ko:/modules/simple-procfs-kmod.ko"]
      ∧ "-pullsecret" ∈ container.Args :=
  ⟨rfl, _, _, rfl, rfl, by decide, by decide⟩

/-- C16, amended: the in-cluster `MakeJobTemplate` ends its argument list with `-pullsecret
/docker_config/config.json` when the module defines an image-pull secret, and, provided none of
the values it passes with the other flags (the target image when pushing, the image to sign, the
joined file list when files are listed) is itself the string `-pullsecret`, its argument list
contains `-pullsecret` if and only if the module defines an image-pull secret; the standalone `MakeJob` always puts `-pullsecret
/docker_config/config.json` in its argument list, whether or not the module defines one. -/
theorem pullsecret_argument (c : Constants) (mod : Module) (targetKernel : String)
    (pushImage : Bool)
    (m : signjob.signer) (signConfig : Option Sign) (previousImage targetImage : String)
    (job : Job)
    (mS : signer.signer) (signConfigS : Option Sign) (jobS : Job)
    (h : signjob.MakeJobTemplate c m mod signConfig targetKernel previousImage targetImage
      pushImage = some (.ok job))
    (hS : signer.MakeJob c mS mod signConfigS targetKernel pushImage = some (.ok jobS)) :
    (∃ sc container, signConfig = some sc
      ∧ job.Spec.Template.Spec.Containers = [container]
      ∧ (mod.Spec.ImageRepoSecret ≠ none →
          ∃ pre, container.Args = pre ++ ["-pullsecret", "/docker_config/config.json"])
      ∧ ((pushImage = true → targetImage ≠ "-pullsecret") →
          (if previousImage ≠ "" then previousImage else sc.UnsignedImage) ≠ "-pullsecret" →
          (sc.FilesToSign ≠ [] → ":".intercalate sc.FilesToSign ≠ "-pullsecret") →
          ("-pullsecret" ∈ container.Args ↔ mod.Spec.ImageRepoSecret ≠ none)))
    ∧ (∃ containerS pre post, jobS.Spec.Template.Spec.Containers = [containerS]
      ∧ containerS.Args = pre ++ ["-pullsecret", "/docker_config/config.json"] ++ post) := by
  constructor
  · obtain ⟨sc, container, hsc, hcont, hargs⟩ :=
      makeJobTemplate_args c m mod signConfig targetKernel previousImage targetImage pushImage
        job h
    refine ⟨sc, container, hsc, hcont, ?_, ?_⟩
    · intro hpull
      exact ⟨_, by rw [hargs, if_pos hpull]⟩
    · intro h1 href h4
      generalize (if previousImage ≠ "" then previousImage else sc.UnsignedImage) = ref
        at hargs href
      rw [hargs]
      by_cases hp : pushImage = true
      · by_cases hf : sc.FilesToSign = [] <;> by_cases hs : mod.Spec.ImageRepoSecret = none <;>
          simp [hp, hf, hs, Ne.symm (h1 hp), Ne.symm href, Ne.symm (h4 _)]
      · by_cases hf : sc.FilesToSign = [] <;> by_cases hs : mod.Spec.ImageRepoSecret = none <;>
          simp [hp, hf, hs, Ne.symm href, Ne.symm (h4 _)]
  · obtain ⟨sc, containerS, _, hcont, hargs⟩ :=
      makeJob_args c mS mod signConfigS targetKernel pushImage jobS hS
    refine ⟨containerS,
      (if pushImage then ["-signedimage", sc.SignedImage] else ["-no-push"])
        ++ ["-unsignedimage", sc.UnsignedImage],
      ["-key", "/signingkey/key.priv"] ++ ["-cert", "/signingcert/public.der"]
        ++ (if sc.FilesToSign ≠ [] then ["-filestosign", ":".intercalate sc.FilesToSign] else []),
      hcont, ?_⟩
    rw [hargs]
    simp only [List.append_assoc]

/-- Witness for the amended C16: the in-cluster builder on a module without image-pull secret,
the standalone builder on the same module. -/
theorem pullsecret_argument_witness :
    (∃ job container,
      signjob.MakeJobTemplate sampleConstants { scheme := sampleScheme } sampleModule
        (some sampleSign) "1.2.3" "" "target-image" true = some (.ok job)
      ∧ job.Spec.Template.Spec.Containers = [container]
      ∧ "-pullsecret" ∉ container.Args)
    ∧ (∃ jobS containerS pre post,
      signer.MakeJob sampleConstants (signer.NewSigner sampleScheme) sampleModule
        (some sampleSign) "1.2.3" true = some (.ok jobS)
      ∧ jobS.Spec.Template.Spec.Containers = [containerS]
      ∧ containerS.Args = pre ++ ["-pullsecret", "/docker_config/config.json"] ++ post) := by
  obtain ⟨⟨sc, container, hsc, hcont, _, hiff⟩, containerS, pre, post, hcontS, hargsS⟩ :=
    pullsecret_argument sampleConstants sampleModule "1.2.3" true { scheme := sampleScheme }
      (some sampleSign) "" "target-image" _ (signer.NewSigner sampleScheme) (some sampleSign) _
      rfl rfl
  cases hsc
  refine ⟨⟨_, container, rfl, hcont, ?_⟩, _, containerS, pre, post, rfl, hcontS, hargsS⟩
  intro hmem
  exact (hiff (fun _ => by decide) (by decide) (fun _ => by decide)).1 hmem rfl

/-! ## The arguments of the standalone builder (C18) -/

/-- C18, as stated, fails in its last sentence: with a signed image that is itself the string
`-no-push` and `pushImage = true`, `MakeJob` succeeds and both `-signedimage` and `-no-push`
occur in the argument list. -/
theorem makeJob_both_push_flags_occur :
    ∃ job container,
      signer.MakeJob sampleConstants (signer.NewSigner sampleScheme) sampleModule
        (some { sampleSign with SignedImage := "-no-push" }) "1.2.3" true = some (.ok job)
      ∧ job.Spec.Template.Spec.Containers = [container]
      ∧ container.Args =
          ["-signedimage", "-no-push", "-unsignedimage", "my.registry/my/image",
           "-pullsecret", "/docker_config/config.json",
           "-key", "/signingkey/key.priv", "-cert", "/signingcert/public.der",
           "-filestosign", "/modules/simple-kmod.ko:/modules/simple-procfs-kmod.ko"]
      ∧ "-signedimage" ∈ container.Args
      ∧ "-no-push" ∈ container.Args :=
  ⟨_, _, rfl, rfl, by decide, by decide, by decide⟩

/-- C18, amended: for every module, with or without an image-pull secret, and every sign config
with non-nil key and cert secrets, the standalone `MakeJob` succeeds when the scheme can attach
the owner reference, and the arguments of its one container are exactly: `-signedimage` and the
spec's `SignedImage` if `pushImage`, else `-no-push`; then `-unsignedimage`, the spec's
`UnsignedImage`, `-pullsecret /docker_config/config.json`, `-key /signingkey/key.priv`,
`-cert /signingcert/public.der`; then `-filestosign` and the files joined by `:` when
`FilesToSign` is non-empty. In particular, provided none of the values passed with the flags
(`SignedImage` when pushing, `UnsignedImage`, the joined file list when files are listed) is
itself `-signedimage` or `-no-push`, exactly one of `-signedimage` and `-no-push` occurs. -/
theorem makeJob_succeeds_with_args (c : Constants) (m : signer.signer) (mod : Module)
    (sc : Sign) (key cert : LocalObjectReference) (targetKernel : String) (pushImage : Bool)
    (hkey : sc.KeySecret = some key) (hcert : sc.CertSecret = some cert)
    (hown : ∀ job, ∃ refs, m.scheme.SetControllerReference mod job = .ok refs) :
    ∃ job container,
      signer.MakeJob c m mod (some sc) targetKernel pushImage = some (.ok job)
      ∧ job.Spec.Template.Spec.Containers = [container]
      ∧ container.Args =
          (if pushImage then ["-signedimage", sc.SignedImage] else ["-no-push"])
            ++ ["-unsignedimage", sc.UnsignedImage, "-pullsecret", "/docker_config/config.json",
                "-key", "/signingkey/key.priv", "-cert", "/signingcert/public.der"]
            ++ (if sc.FilesToSign ≠ [] then
                 ["-filestosign", ":".intercalate sc.FilesToSign] else [])
      ∧ ((pushImage = true → sc.SignedImage ≠ "-signedimage" ∧ sc.SignedImage ≠ "-no-push") →
          (sc.UnsignedImage ≠ "-signedimage" ∧ sc.UnsignedImage ≠ "-no-push") →
          (sc.FilesToSign ≠ [] → ":".intercalate sc.FilesToSign ≠ "-signedimage"
            ∧ ":".intercalate sc.FilesToSign ≠ "-no-push") →
          (("-signedimage" ∈ container.Args ∧ "-no-push" ∉ container.Args)
            ∨ ("-signedimage" ∉ container.Args ∧ "-no-push" ∈ container.Args))) := by
  obtain ⟨job, hjob⟩ := makeJob_succeeds c m mod sc key cert targetKernel pushImage hkey hcert hown
  obtain ⟨sc2, container, hsc, hcont, hargs⟩ :=
    makeJob_args c m mod (some sc) targetKernel pushImage job hjob
  cases hsc
  refine ⟨job, container, hjob, hcont, ?_, ?_⟩
  · rw [hargs]
    simp only [List.append_assoc, List.cons_append, List.nil_append]
  · intro h1 h2 h3
    rw [hargs]
    by_cases hp : pushImage = true
    · left
      by_cases hf : sc.FilesToSign = []
      · simp [hp, hf, Ne.symm (h1 hp).2, Ne.symm h2.2]
      · simp [hp, hf, Ne.symm (h1 hp).2, Ne.symm h2.2, Ne.symm (h3 hf).2]
    · right
      by_cases hf : sc.FilesToSign = []
      · simp [hp, hf, Ne.symm h2.1]
      · simp [hp, hf, Ne.symm h2.1, Ne.symm (h3 hf).1]

/-- Witness for the amended C18: the sign config of the builder tests, without push. -/
theorem makeJob_succeeds_with_args_witness :
    ∃ job, signer.MakeJob sampleConstants (signer.NewSigner sampleScheme) sampleModulePullSecret
        (some sampleSign) "1.2.3" false = some (.ok job)
      ∧ job.Spec.Template.Spec.Containers.map Container.Args =
          [["-no-push", "-unsignedimage", "my.registry/my/image",
            "-pullsecret", "/docker_config/config.json",
            "-key", "/signingkey/key.priv", "-cert", "/signingcert/public.der",
            "-filestosign", "/modules/simple-kmod.ko:/modules/simple-procfs-kmod.ko"]] := by
  obtain ⟨job, container, hjob, hcont, hargs, _⟩ :=
    makeJob_succeeds_with_args sampleConstants (signer.NewSigner sampleScheme)
      sampleModulePullSecret sampleSign { Name := "securebootkey" } { Name := "securebootcert" }
      "1.2.3" false rfl rfl (fun _ => ⟨_, rfl⟩)
  exact ⟨job, hjob, by rw [hcont, List.map_cons, List.map_nil, hargs]; decide⟩

/-! ## The `-filestosign` argument (C19) -/

/-- C19, as stated, fails: with an unsigned image that is itself the string `-filestosign` and
no files to sign, `MakeJobTemplate` succeeds and its argument list contains `-filestosign`
although `FilesToSign` is empty. -/
theorem makeJobTemplate_filestosign_without_files :
    ∃ job container,
      signjob.MakeJobTemplate sampleConstants { scheme := sampleScheme } sampleModule
        (some { UnsignedImage := "-filestosign", FilesToSign := [] }) "1.2.3" "" "target-image"
          false = some (.ok job)
      ∧ job.Spec.Template.Spec.Containers = [container]
      ∧ container.Args =
          ["-no-push", "-unsignedimage", "-filestosign",
           "-key", "/signingkey/key.priv", "-cert", "/signingcert/public.der"]
      ∧ "-filestosign" ∈ container.Args :=
  ⟨_, _, rfl, rfl, by decide, by decide⟩

/-- C19, amended: for each job builder and every input on which it succeeds, when the resolved
spec's `FilesToSign` is non-empty the argument list holds `-filestosign` immediately followed by
the `FilesToSign` entries, in their given order, joined with `:`; and, provided none of the
values passed with the flags (the target or signed image when pushing, the image to sign, the
joined file list when files are listed) is itself the string `-filestosign`, the argument list
contains `-filestosign` if and only if `FilesToSign` is non-empty, and then exactly once. -/
theorem filestosign_argument (c : Constants) (mod : Module) (targetKernel : String)
    (pushImage : Bool)
    (m : signjob.signer) (signConfig : Option Sign) (previousImage targetImage : String)
    (job : Job)
    (mS : signer.signer) (signConfigS : Option Sign) (jobS : Job)
    (h : signjob.MakeJobTemplate c m mod signConfig targetKernel previousImage targetImage
      pushImage = some (.ok job))
    (hS : signer.MakeJob c mS mod signConfigS targetKernel pushImage = some (.ok jobS)) :
    (∃ sc container, signConfig = some sc
      ∧ job.Spec.Template.Spec.Containers = [container]
      ∧ (sc.FilesToSign ≠ [] → ∃ pre post,
          container.Args = pre ++ ["-filestosign", ":".intercalate sc.FilesToSign] ++ post)
      ∧ ((pushImage = true → targetImage ≠ "-filestosign") →
          (if previousImage ≠ "" then previousImage else sc.UnsignedImage) ≠ "-filestosign" →
          (sc.FilesToSign ≠ [] → ":".intercalate sc.FilesToSign ≠ "-filestosign") →
          (("-filestosign" ∈ container.Args ↔ sc.FilesToSign ≠ [])
            ∧ (sc.FilesToSign ≠ [] → container.Args.count "-filestosign" = 1))))
    ∧ (∃ sc container, signConfigS = some sc
      ∧ jobS.Spec.Template.Spec.Containers = [container]
      ∧ (sc.FilesToSign ≠ [] → ∃ pre post,
          container.Args = pre ++ ["-filestosign", ":".intercalate sc.FilesToSign] ++ post)
      ∧ ((pushImage = true → sc.SignedImage ≠ "-filestosign") →
          sc.UnsignedImage ≠ "-filestosign" →
          (sc.FilesToSign ≠ [] → ":".intercalate sc.FilesToSign ≠ "-filestosign") →
          (("-filestosign" ∈ container.Args ↔ sc.FilesToSign ≠ [])
            ∧ (sc.FilesToSign ≠ [] → container.Args.count "-filestosign" = 1)))) := by
  constructor
  · obtain ⟨sc, container, hsc, hcont, hargs⟩ :=
      makeJobTemplate_args c m mod signConfig targetKernel previousImage targetImage pushImage
        job h
    refine ⟨sc, container, hsc, hcont, ?_, ?_⟩
    · intro hf
      refine ⟨(if pushImage then ["-signedimage", targetImage] else ["-no-push"])
          ++ ["-unsignedimage", if previousImage ≠ "" then previousImage else sc.UnsignedImage]
          ++ ["-key", "/signingkey/key.priv"] ++ ["-cert", "/signingcert/public.der"],
        (if mod.Spec.ImageRepoSecret ≠ none then
          ["-pullsecret", "/docker_config/config.json"] else []), ?_⟩
      rw [hargs, if_pos hf]
    · intro h1 href h4
      generalize (if previousImage ≠ "" then previousImage else sc.UnsignedImage) = ref
        at hargs href
      rw [hargs]
      by_cases hp : pushImage = true
      · by_cases hf : sc.FilesToSign = [] <;> by_cases hs : mod.Spec.ImageRepoSecret = none <;>
          simp [hp, hf, hs, Ne.symm (h1 hp), Ne.symm href, Ne.symm (h4 _), h1 hp, href, h4 _,
            List.count_cons]
      · by_cases hf : sc.FilesToSign = [] <;> by_cases hs : mod.Spec.ImageRepoSecret = none <;>
          simp [hp, hf, hs, Ne.symm href, Ne.symm (h4 _), href, h4 _, List.count_cons]
  · obtain ⟨sc, container, hsc, hcont, hargs⟩ :=
      makeJob_args c mS mod signConfigS targetKernel pushImage jobS hS
    refine ⟨sc, container, hsc, hcont, ?_, ?_⟩
    · intro hf
      refine ⟨(if pushImage then ["-signedimage", sc.SignedImage] else ["-no-push"])
          ++ ["-unsignedimage", sc.UnsignedImage]
          ++ ["-pullsecret", "/docker_config/config.json"]
          ++ ["-key", "/signingkey/key.priv"] ++ ["-cert", "/signingcert/public.der"], [], ?_⟩
      rw [hargs, if_pos hf, List.append_nil]
    · intro h1 href h4
      rw [hargs]
      by_cases hp : pushImage = true
      · by_cases hf : sc.FilesToSign = [] <;>
          simp [hp, hf, Ne.symm (h1 hp), Ne.symm href, Ne.symm (h4 _), h1 hp, href, h4 _,
            List.count_cons]
      · by_cases hf : sc.FilesToSign = [] <;>
          simp [hp, hf, Ne.symm href, Ne.symm (h4 _), href, h4 _, List.count_cons]

/-- Witness for the amended C19: the in-cluster builder with two files to sign, the standalone
builder with none. -/
theorem filestosign_argument_witness :
    (∃ job container,
      signjob.MakeJobTemplate sampleConstants { scheme := sampleScheme } sampleModule
        (some sampleSign) "1.2.3" "" "target-image" true = some (.ok job)
      ∧ job.Spec.Template.Spec.Containers = [container]
      ∧ container.Args.count "-filestosign" = 1
      ∧ ∃ pre post, container.Args = pre
          ++ ["-filestosign", "/modules/simple-kmod.ko:/modules/simple-procfs-kmod.ko"] ++ post)
    ∧ (∃ jobS containerS,
      signer.MakeJob sampleConstants (signer.NewSigner sampleScheme) sampleModule
        (some sampleScenarioSign) "1.2.3" true = some (.ok jobS)
      ∧ jobS.Spec.Template.Spec.Containers = [containerS]
      ∧ "-filestosign" ∉ containerS.Args) := by
  obtain ⟨⟨sc, container, hsc, hcont, hpair, hiff⟩, scS, containerS, hscS, hcontS, _, hiffS⟩ :=
    filestosign_argument sampleConstants sampleModule "1.2.3" true { scheme := sampleScheme }
      (some sampleSign) "" "target-image" _ (signer.NewSigner sampleScheme)
      (some sampleScenarioSign) _ rfl rfl
  cases hsc
  cases hscS
  refine ⟨⟨_, container, rfl, hcont, ?_, ?_⟩, _, containerS, rfl, hcontS, ?_⟩
  · exact (hiff (fun _ => by decide) (by decide) (fun _ => by decide)).2 (by decide)
  · exact hpair (by decide)
  · intro hmem
    exact (hiffS (fun _ => by decide) (by decide) (fun _ => by decide)).1.1 hmem rfl

/-! ## Volumes and mounts (C20) -/

/-- C20: for every successful builder call with non-nil key and cert secret references, the
Job's volumes are, in order, the key volume `secret-<keySecretName>` (secret item `key` to
`key.priv`), the cert volume `secret-<certSecretName>` (secret item `cert` to `public.der`) and,
only if the module defines an image-pull secret, the volume `secret-<pullSecretName>` (the
docker-config item to `config.json`); the mounts of its one container are, in order, the cert
volume read-only at `/signingcert`, the key volume read-only at `/signingkey` and, only if the
pull secret is defined, its volume read-only at `/docker_config`. -/
theorem builder_volumes_and_mounts (c : Constants) (mod : Module) (targetKernel : String)
    (pushImage : Bool) (sc : Sign) (key cert : LocalObjectReference)
    (m : signjob.signer) (previousImage targetImage : String) (job : Job)
    (mS : signer.signer) (jobS : Job)
    (hkey : sc.KeySecret = some key) (hcert : sc.CertSecret = some cert)
    (h : signjob.MakeJobTemplate c m mod (some sc) targetKernel previousImage targetImage
      pushImage = some (.ok job))
    (hS : signer.MakeJob c mS mod (some sc) targetKernel pushImage = some (.ok jobS)) :
    ∀ j ∈ [job, jobS],
      j.Spec.Template.Spec.Volumes =
        [{ Name := "secret-" ++ key.Name
           VolumeSource :=
             { Secret :=
                 some { SecretName := key.Name, Items := [{ Key := "key", Path := "key.priv" }] } } },
         { Name := "secret-" ++ cert.Name
           VolumeSource :=
             { Secret :=
                 some { SecretName := cert.Name
                        Items := [{ Key := "cert", Path := "public.der" }] } } }]
          ++ (match mod.Spec.ImageRepoSecret with
              | some pull =>
                [{ Name := "secret-" ++ pull.Name
                   VolumeSource :=
                     { Secret :=
                         some { SecretName := pull.Name
                                Items := [{ Key := ".dockerconfigjson", Path := "config.json" }] } } }]
              | none => [])
      ∧ ∃ container, j.Spec.Template.Spec.Containers = [container]
        ∧ container.VolumeMounts =
            [{ Name := "secret-" ++ cert.Name, ReadOnly := true, MountPath := "/signingcert" },
             { Name := "secret-" ++ key.Name, ReadOnly := true, MountPath := "/signingkey" }]
              ++ (match mod.Spec.ImageRepoSecret with
                  | some pull =>
                    [{ Name := "secret-" ++ pull.Name, ReadOnly := true
                       MountPath := "/docker_config" }]
                  | none => []) := by
  intro j hj
  simp only [List.mem_cons, List.mem_singleton, List.not_mem_nil, or_false] at hj
  rcases hj with rfl | rfl
  · obtain ⟨sc2, _, hsc, _, _, _, _, _, _, _, _, hcont, hvol⟩ :=
      makeJobTemplate_returns c m mod (some sc) targetKernel previousImage targetImage pushImage
        j h
    cases hsc
    refine ⟨?_, _, hcont, ?_⟩
    · rw [hvol, hkey, hcert]
      cases hpull : mod.Spec.ImageRepoSecret <;>
        simp [signjob.makeImageSigningSecretVolume, signjob.volumeNameFromSecretRef,
          DockerConfigJsonKey]
    · simp only [hkey, hcert]
      cases hpull : mod.Spec.ImageRepoSecret <;>
        simp [signjob.makeImageSecretVolumeMount, signjob.volumeNameFromSecretRef]
  · obtain ⟨sc2, key2, cert2, hsc, hkey2, hcert2, _, _, _, _, _, _, _, hcont, hvol⟩ :=
      makeJob_returns c mS mod (some sc) targetKernel pushImage j hS
    cases hsc
    rw [hkey] at hkey2
    rw [hcert] at hcert2
    cases hkey2
    cases hcert2
    refine ⟨?_, _, hcont, ?_⟩
    · rw [hvol]
      cases hpull : mod.Spec.ImageRepoSecret <;>
        simp [signer.makeImagePullSecretVolume, signer.volumeNameFromSecretRef,
          DockerConfigJsonKey]
    · cases hpull : mod.Spec.ImageRepoSecret <;>
        simp [signer.makeImagePullSecretVolumeMount, signer.volumeNameFromSecretRef]

/-- Witness for C20: both builders on the module with the image-pull secret of the builder
tests. -/
theorem builder_volumes_and_mounts_witness :
    ∃ job jobS,
      signjob.MakeJobTemplate sampleConstants { scheme := sampleScheme } sampleModulePullSecret
        (some sampleSign) "1.2.3" "" "target-image" true = some (.ok job)
      ∧ signer.MakeJob sampleConstants (signer.NewSigner sampleScheme) sampleModulePullSecret
        (some sampleSign) "1.2.3" true = some (.ok jobS)
      ∧ job.Spec.Template.Spec.Volumes.map Volume.Name =
          ["secret-securebootkey", "secret-securebootcert", "secret-pull-push-secret"]
      ∧ jobS.Spec.Template.Spec.Volumes.map Volume.Name =
          ["secret-securebootkey", "secret-securebootcert", "secret-pull-push-secret"] := by
  have hall := builder_volumes_and_mounts sampleConstants sampleModulePullSecret "1.2.3" true
    sampleSign { Name := "securebootkey" } { Name := "securebootcert" }
    { scheme := sampleScheme } "" "target-image" _ (signer.NewSigner sampleScheme) _
    rfl rfl rfl rfl
  refine ⟨_, _, rfl, rfl, ?_, ?_⟩
  · rw [(hall _ (List.mem_cons_self _ _)).1]
    decide
  · rw [(hall _ (List.mem_cons_of_mem _ (List.mem_cons_self _ _))).1]
    decide

/-! ## The paths of Sync -/

/-- In-cluster discovery when `List` fails. -/
theorem signjob_getJob_list_error (c : Constants) (jbm : signjob.signJobManager) (mod : Module)
    (targetKernel : String) (err : Error)
    (hlist : jbm.client.List
      { MatchingLabels := signjob.labels c mod targetKernel, InNamespace := mod.Namespace }
        = .error err) :
    signjob.getJob c jbm mod targetKernel =
      (.error (Errorf "could not list jobs: " err.text),
       [Call.List
        { MatchingLabels := signjob.labels c mod targetKernel, InNamespace := mod.Namespace }]) := by
  unfold signjob.getJob
  simp only [hlist]

/-- Standalone discovery when `List` fails. -/
theorem signer_getJob_list_error (c : Constants) (sm : signer.signingManager) (mod : Module)
    (targetKernel : String) (err : Error)
    (hlist : sm.client.List
      { MatchingLabels := signer.labels c mod targetKernel (signer.GetName sm),
        InNamespace := mod.Namespace } = .error err) :
    signer.getJob c sm mod targetKernel =
      (.error (Errorf "could not list jobs: " err.text),
       [Call.List
        { MatchingLabels := signer.labels c mod targetKernel (signer.GetName sm),
          InNamespace := mod.Namespace }]) := by
  unfold signer.getJob
  simp only [hlist]

/-- The paths of the in-cluster Sync: the builder fails; `List` fails; discovery finds two or
more Jobs; it finds none and `Create` fails or succeeds; it finds one Job, which carries no
annotations, or whose hash differs, or whose hash matches. -/
theorem signjob_sync_paths (c : Constants) (jbm : signjob.signJobManager) (mod : Module)
    (m : KernelMapping) (targetKernel imageToSign targetImage : String) (pushImage : Bool) :
    (∃ err, jbm.signer.MakeJobTemplate mod (jbm.helper.GetRelevantSign mod m) targetKernel
          imageToSign targetImage pushImage = .error err
        ∧ signjob.Sync c jbm mod m targetKernel imageToSign targetImage pushImage =
            (({}, some (Errorf "could not make Job template: " err.text)), []))
    ∨ (∃ desired, jbm.signer.MakeJobTemplate mod (jbm.helper.GetRelevantSign mod m) targetKernel
          imageToSign targetImage pushImage = .ok desired
        ∧ ((∃ err, jbm.client.List
              { MatchingLabels := signjob.labels c mod targetKernel, InNamespace := mod.Namespace }
                = .error err
            ∧ signjob.Sync c jbm mod m targetKernel imageToSign targetImage pushImage =
                (({}, some (Errorf "error getting the signing job: "
                    (Errorf "could not list jobs: " err.text).text)),
                 [Call.List { MatchingLabels := signjob.labels c mod targetKernel,
                              InNamespace := mod.Namespace }]))
          ∨ (∃ items, jbm.client.List
              { MatchingLabels := signjob.labels c mod targetKernel, InNamespace := mod.Namespace }
                = .ok items
            ∧ 2 ≤ items.length
            ∧ signjob.Sync c jbm mod m targetKernel imageToSign targetImage pushImage =
                (({}, some (Errorf "error getting the signing job: "
                    (Errorf "expected 0 or 1 job, got " (toString items.length)).text)),
                 [Call.List { MatchingLabels := signjob.labels c mod targetKernel,
                              InNamespace := mod.Namespace }]))
          ∨ (jbm.client.List
              { MatchingLabels := signjob.labels c mod targetKernel, InNamespace := mod.Namespace }
                = .ok []
            ∧ ((∃ err, jbm.client.Create desired = some err
                ∧ signjob.Sync c jbm mod m targetKernel imageToSign targetImage pushImage =
                    (({}, some (Errorf "could not create Job: " err.text)),
                     [Call.List { MatchingLabels := signjob.labels c mod targetKernel,
                                  InNamespace := mod.Namespace },
                      Call.Create desired]))
              ∨ (jbm.client.Create desired = none
                ∧ signjob.Sync c jbm mod m targetKernel imageToSign targetImage pushImage =
                    (({ Status := sign.StatusCreated, Requeue := true }, none),
                     [Call.List { MatchingLabels := signjob.labels c mod targetKernel,
                                  InNamespace := mod.Namespace },
                      Call.Create desired]))))
          ∨ (∃ live, jbm.client.List
              { MatchingLabels := signjob.labels c mod targetKernel, InNamespace := mod.Namespace }
                = .ok [live]
            ∧ ((live.Annotations = none
                ∧ signjob.Sync c jbm mod m targetKernel imageToSign targetImage pushImage =
                    (({}, some (Errorf "could not determine if job has changed: "
                        (Errorf "annotations are not present in the existing job "
                          live.Name).text)),
                     [Call.List { MatchingLabels := signjob.labels c mod targetKernel,
                                  InNamespace := mod.Namespace }]))
              ∨ (live.Annotations ≠ none
                ∧ mapIndex live.Annotations signjob.jobHashAnnotation ≠
                    mapIndex desired.Annotations signjob.jobHashAnnotation
                ∧ signjob.Sync c jbm mod m targetKernel imageToSign targetImage pushImage =
                    (({ Status := sign.StatusInProgress, Requeue := true }, none),
                     [Call.List { MatchingLabels := signjob.labels c mod targetKernel,
                                  InNamespace := mod.Namespace },
                      Call.Delete live
                        [DeleteOption.PropagationPolicy DeletePropagationBackground]]))
              ∨ (live.Annotations ≠ none
                ∧ mapIndex live.Annotations signjob.jobHashAnnotation =
                    mapIndex desired.Annotations signjob.jobHashAnnotation
                ∧ signjob.Sync c jbm mod m targetKernel imageToSign targetImage pushImage =
                    ((if live.Status.Succeeded = 1 then
                        ({ Status := sign.StatusCompleted, Requeue := false }, none)
                      else if live.Status.Active = 1 then
                        ({ Status := sign.StatusInProgress, Requeue := true }, none)
                      else if live.Status.Failed = 1 then
                        ({}, some (Errorf "job failed: " "<nil>"))
                      else ({}, some (Errorf "unknown status: " live.Status.render))),
                     [Call.List { MatchingLabels := signjob.labels c mod targetKernel,
                                  InNamespace := mod.Namespace }])))))) := by
  have hisA : errorsIs signjob.errNoMatchingBuild signjob.errNoMatchingBuild = true := by
    simp [errorsIs]
  cases hmake : jbm.signer.MakeJobTemplate mod (jbm.helper.GetRelevantSign mod m) targetKernel
      imageToSign targetImage pushImage with
  | error err =>
    left
    refine ⟨err, rfl, ?_⟩
    unfold signjob.Sync
    simp only [hmake]
  | ok desired =>
    right
    refine ⟨desired, rfl, ?_⟩
    cases hlist : jbm.client.List
        { MatchingLabels := signjob.labels c mod targetKernel, InNamespace := mod.Namespace } with
    | error err =>
      left
      refine ⟨err, rfl, ?_⟩
      unfold signjob.Sync
      simp only [hmake, signjob_getJob_list_error c jbm mod targetKernel err hlist]
      simp [errorsIs, Errorf, signjob.errNoMatchingBuild]
    | ok items =>
      right
      rcases items with _ | ⟨live, _ | ⟨j2, rest⟩⟩
      · right; left
        refine ⟨rfl, ?_⟩
        unfold signjob.Sync
        simp only [hmake, signjob_getJob_list_ok c jbm mod targetKernel [] hlist, hisA]
        cases hcreate : jbm.client.Create desired with
        | none => right; simp
        | some err => left; exact ⟨err, rfl, by simp⟩
      · right; right
        refine ⟨live, rfl, ?_⟩
        cases hann : live.Annotations with
        | none =>
          left
          refine ⟨rfl, ?_⟩
          unfold signjob.Sync
          simp only [hmake, signjob_getJob_list_ok c jbm mod targetKernel [live] hlist]
          simp only [signjob.isJobChanged, Job.GetAnnotations, hann]
        | some anns =>
          right
          by_cases hhash : mapIndex (some anns) signjob.jobHashAnnotation =
              mapIndex desired.Annotations signjob.jobHashAnnotation
          · right
            refine ⟨by simp, hhash, ?_⟩
            unfold signjob.Sync
            simp only [hmake, signjob_getJob_list_ok c jbm mod targetKernel [live] hlist,
              isJobChanged_of_annotations live desired anns hann]
            simp only [hann, hhash, ne_eq, not_true_eq_false, decide_False, Bool.false_eq_true,
              if_false, renderErr]
            split_ifs <;> rfl
          · left
            refine ⟨by simp, hhash, ?_⟩
            unfold signjob.Sync
            simp only [hmake, signjob_getJob_list_ok c jbm mod targetKernel [live] hlist,
              isJobChanged_of_annotations live desired anns hann]
            simp only [hann, hhash, ne_eq, not_false_eq_true, decide_True, if_true]
            cases hdel : jbm.client.Delete live
                [DeleteOption.PropagationPolicy DeletePropagationBackground] <;> rfl
      · left
        refine ⟨_, rfl, by simp, ?_⟩
        unfold signjob.Sync
        simp only [hmake, signjob_getJob_list_ok c jbm mod targetKernel _ hlist]
        simp [errorsIs, Errorf, signjob.errNoMatchingBuild]

/-- The paths of the standalone Sync: `List` fails; discovery finds two or more Jobs; it finds
none and the builder fails, or `Create` fails or succeeds; it finds one Job. -/
theorem signer_sync_paths (c : Constants) (sm : signer.signingManager) (mod : Module)
    (km : KernelMapping) (targetKernel : String) (pushImage : Bool) :
    (∃ err, sm.client.List
          { MatchingLabels := signer.labels c mod targetKernel (signer.GetName sm),
            InNamespace := mod.Namespace } = .error err
        ∧ signer.Sync c sm mod km targetKernel pushImage =
            (({}, some (Errorf "error getting the job: "
                (Errorf "could not list jobs: " err.text).text)),
             [Call.List { MatchingLabels := signer.labels c mod targetKernel (signer.GetName sm),
                          InNamespace := mod.Namespace }]))
    ∨ (∃ items, sm.client.List
          { MatchingLabels := signer.labels c mod targetKernel (signer.GetName sm),
            InNamespace := mod.Namespace } = .ok items
        ∧ 2 ≤ items.length
        ∧ signer.Sync c sm mod km targetKernel pushImage =
            (({}, some (Errorf "error getting the job: "
                (Errorf "expected 0 or 1 job, got " (toString items.length)).text)),
             [Call.List { MatchingLabels := signer.labels c mod targetKernel (signer.GetName sm),
                          InNamespace := mod.Namespace }]))
    ∨ (sm.client.List
          { MatchingLabels := signer.labels c mod targetKernel (signer.GetName sm),
            InNamespace := mod.Namespace } = .ok []
        ∧ ((∃ err, sm.signer.MakeJob mod (sm.helper.GetRelevantSign mod km) targetKernel pushImage
              = .error err
            ∧ signer.Sync c sm mod km targetKernel pushImage =
                (({}, some (Errorf "could not make Job: " err.text)),
                 [Call.List
                  { MatchingLabels := signer.labels c mod targetKernel (signer.GetName sm),
                    InNamespace := mod.Namespace }]))
          ∨ (∃ job, sm.signer.MakeJob mod (sm.helper.GetRelevantSign mod km) targetKernel pushImage
              = .ok job
            ∧ ((∃ err, sm.client.Create job = some err
                ∧ signer.Sync c sm mod km targetKernel pushImage =
                    (({}, some (Errorf "could not create Job: " err.text)),
                     [Call.List
                      { MatchingLabels := signer.labels c mod targetKernel (signer.GetName sm),
                        InNamespace := mod.Namespace },
                      Call.Create job]))
              ∨ (sm.client.Create job = none
                ∧ signer.Sync c sm mod km targetKernel pushImage =
                    (({ Status := build.StatusCreated, Requeue := true }, none),
                     [Call.List
                      { MatchingLabels := signer.labels c mod targetKernel (signer.GetName sm),
                        InNamespace := mod.Namespace },
                      Call.Create job]))))))
    ∨ (∃ live, sm.client.List
          { MatchingLabels := signer.labels c mod targetKernel (signer.GetName sm),
            InNamespace := mod.Namespace } = .ok [live]
        ∧ signer.Sync c sm mod km targetKernel pushImage =
            ((if live.Status.Succeeded = 1 then
                ({ Status := build.StatusCompleted, Requeue := false }, none)
              else if live.Status.Active = 1 then
                ({ Status := build.StatusInProgress, Requeue := true }, none)
              else if live.Status.Failed = 1 then
                ({}, some (Errorf "job failed: " "<nil>"))
              else ({}, some (Errorf "unknown status: " live.Status.render))),
             [Call.List { MatchingLabels := signer.labels c mod targetKernel (signer.GetName sm),
                          InNamespace := mod.Namespace }])) := by
  have hisB : errorsIs signer.errNoMatchingJob signer.errNoMatchingJob = true := by
    simp [errorsIs]
  cases hlist : sm.client.List
      { MatchingLabels := signer.labels c mod targetKernel (signer.GetName sm),
        InNamespace := mod.Namespace } with
  | error err =>
    left
    refine ⟨err, rfl, ?_⟩
    unfold signer.Sync
    simp only [signer_getJob_list_error c sm mod targetKernel err hlist]
    simp [errorsIs, Errorf, signer.errNoMatchingJob]
  | ok items =>
    right
    rcases items with _ | ⟨live, _ | ⟨j2, rest⟩⟩
    · right; left
      refine ⟨rfl, ?_⟩
      unfold signer.Sync
      simp only [signer_getJob_list_ok c sm mod targetKernel [] hlist, hisB]
      cases hmake : sm.signer.MakeJob mod (sm.helper.GetRelevantSign mod km) targetKernel
          pushImage with
      | error err => left; exact ⟨err, rfl, by simp⟩
      | ok job =>
        right
        refine ⟨job, rfl, ?_⟩
        cases hcreate : sm.client.Create job with
        | none => right; simp [hcreate]
        | some err => left; exact ⟨err, rfl, by simp [hcreate]⟩
    · right; right
      refine ⟨live, rfl, ?_⟩
      unfold signer.Sync
      simp only [signer_getJob_list_ok c sm mod targetKernel [live] hlist, renderErr]
      split_ifs <;> rfl
    · left
      refine ⟨_, rfl, by simp, ?_⟩
      unfold signer.Sync
      simp only [signer_getJob_list_ok c sm mod targetKernel _ hlist]
      simp [errorsIs, Errorf, signer.errNoMatchingJob]

/-! ## The result contract and the error paths of Sync (C26, C27, C28) -/

/-- C26: for every input and every client, in both Sync implementations, whenever Sync returns a
nil error the Result has `Requeue = false` if and only if its status is `Completed`, and
whenever Sync returns a non-nil error the Result is the zero value. -/
theorem sync_result_contract (c : Constants) (mod : Module) (targetKernel : String)
    (pushImage : Bool) (jbm : signjob.signJobManager) (m : KernelMapping)
    (imageToSign targetImage : String) (sm : signer.signingManager) (km : KernelMapping) :
    (((signjob.Sync c jbm mod m targetKernel imageToSign targetImage pushImage).1.2 = none →
        ((signjob.Sync c jbm mod m targetKernel imageToSign targetImage pushImage).1.1.Requeue
            = false ↔
          (signjob.Sync c jbm mod m targetKernel imageToSign targetImage pushImage).1.1.Status
            = sign.StatusCompleted))
      ∧ ((signjob.Sync c jbm mod m targetKernel imageToSign targetImage pushImage).1.2 ≠ none →
        (signjob.Sync c jbm mod m targetKernel imageToSign targetImage pushImage).1.1 = {}))
    ∧ (((signer.Sync c sm mod km targetKernel pushImage).1.2 = none →
        ((signer.Sync c sm mod km targetKernel pushImage).1.1.Requeue = false ↔
          (signer.Sync c sm mod km targetKernel pushImage).1.1.Status = build.StatusCompleted))
      ∧ ((signer.Sync c sm mod km targetKernel pushImage).1.2 ≠ none →
        (signer.Sync c sm mod km targetKernel pushImage).1.1 = {})) := by
  have hcreated : sign.StatusCreated ≠ sign.StatusCompleted := by decide
  have hprogress : sign.StatusInProgress ≠ sign.StatusCompleted := by decide
  have hcreatedS : build.StatusCreated ≠ build.StatusCompleted := by decide
  have hprogressS : build.StatusInProgress ≠ build.StatusCompleted := by decide
  constructor
  · rcases signjob_sync_paths c jbm mod m targetKernel imageToSign targetImage pushImage with
      ⟨err, _, h⟩ | ⟨desired, _, ⟨err, _, h⟩ | ⟨items, _, _, h⟩ | ⟨_, ⟨err, _, h⟩ | ⟨_, h⟩⟩ |
        ⟨live, _, ⟨_, h⟩ | ⟨_, _, h⟩ | ⟨_, _, h⟩⟩⟩
    all_goals rw [h]
    any_goals simp [hcreated, hprogress]
    split_ifs <;> simp [hprogress]
  · rcases signer_sync_paths c sm mod km targetKernel pushImage with
      ⟨err, _, h⟩ | ⟨items, _, _, h⟩ | ⟨_, ⟨err, _, h⟩ | ⟨job, _, ⟨err, _, h⟩ | ⟨_, h⟩⟩⟩ |
        ⟨live, _, h⟩
    all_goals rw [h]
    any_goals simp [hcreatedS, hprogressS]
    split_ifs <;> simp [hprogressS]

/-- C27: when the builder fails, Sync returns a non-nil error wrapping the builder's and a zero
Result, and creates no Job. The in-cluster Sync builds first: it returns the error without a
single call to the store. The standalone Sync builds after discovery: whatever the client
answers it issues no `Create` and no `Delete`, and when discovery finds no Job it returns the
wrapped error after the one `List`. -/
theorem sync_builder_failure (c : Constants) (mod : Module) (targetKernel : String)
    (pushImage : Bool) (jbm : signjob.signJobManager) (m : KernelMapping)
    (imageToSign targetImage : String) (sm : signer.signingManager) (km : KernelMapping)
    (err errS : Error)
    (hmake : jbm.signer.MakeJobTemplate mod (jbm.helper.GetRelevantSign mod m) targetKernel
      imageToSign targetImage pushImage = .error err)
    (hmakeS : sm.signer.MakeJob mod (sm.helper.GetRelevantSign mod km) targetKernel pushImage
      = .error errS) :
    signjob.Sync c jbm mod m targetKernel imageToSign targetImage pushImage =
        (({}, some (Errorf "could not make Job template: " err.text)), [])
      ∧ (∀ call ∈ (signer.Sync c sm mod km targetKernel pushImage).2,
          call.isCreate = false ∧ call.isDelete = false)
      ∧ (sm.client.List
            { MatchingLabels := signer.labels c mod targetKernel (signer.GetName sm),
              InNamespace := mod.Namespace } = .ok [] →
          signer.Sync c sm mod km targetKernel pushImage =
            (({}, some (Errorf "could not make Job: " errS.text)),
             [Call.List
              { MatchingLabels := signer.labels c mod targetKernel (signer.GetName sm),
                InNamespace := mod.Namespace }])) := by
  refine ⟨?_, ?_, ?_⟩
  · rcases signjob_sync_paths c jbm mod m targetKernel imageToSign targetImage pushImage with
      ⟨e, he, h⟩ | ⟨desired, hd, _⟩
    · rw [hmake] at he
      cases he
      exact h
    · rw [hmake] at hd
      cases hd
  · rcases signer_sync_paths c sm mod km targetKernel pushImage with
      ⟨e, _, h⟩ | ⟨items, _, _, h⟩ | ⟨_, ⟨e, _, h⟩ | ⟨job, hj, _⟩⟩ | ⟨live, _, h⟩
    · rw [h]; simp [Call.isCreate, Call.isDelete]
    · rw [h]; simp [Call.isCreate, Call.isDelete]
    · rw [h]; simp [Call.isCreate, Call.isDelete]
    · rw [hmakeS] at hj
      cases hj
    · rw [h]; simp [Call.isCreate, Call.isDelete]
  · intro hlist
    rcases signer_sync_paths c sm mod km targetKernel pushImage with
      ⟨e, hl, _⟩ | ⟨items, hl, hlen, _⟩ | ⟨_, ⟨e, he, h⟩ | ⟨job, hj, _⟩⟩ | ⟨live, hl, _⟩
    · rw [hlist] at hl
      cases hl
    · rw [hlist] at hl
      cases hl
      simp at hlen
    · rw [hmakeS] at he
      cases he
      exact h
    · rw [hmakeS] at hj
      cases hj
    · rw [hlist] at hl
      cases hl

/-- Witness for C27: both managers of the tests over an empty store, with a signer that answers
`random error`. -/
theorem sync_builder_failure_witness :
    signjob.Sync sampleConstants
        (mockSignJobManager (.ok []) none none (.error (.new "random error")))
        sampleModule sampleKernelMapping "1.2.3" "" "image-signed" true =
        (({}, some (Errorf "could not make Job template: " "random error")), [])
      ∧ (∀ call ∈ (signer.Sync sampleConstants
            (mockSigningManager (.ok []) none none (.error (.new "random error")))
            sampleModule sampleKernelMapping "1.2.3" true).2,
          call.isCreate = false ∧ call.isDelete = false)
      ∧ signer.Sync sampleConstants
          (mockSigningManager (.ok []) none none (.error (.new "random error")))
          sampleModule sampleKernelMapping "1.2.3" true =
          (({}, some (Errorf "could not make Job: " "random error")),
           [Call.List
            { MatchingLabels := signer.labels sampleConstants sampleModule "1.2.3" "sign",
              InNamespace := "some-namespace" }]) :=
  have h := sync_builder_failure sampleConstants sampleModule "1.2.3" true
    (mockSignJobManager (.ok []) none none (.error (.new "random error"))) sampleKernelMapping
    "" "image-signed" (mockSigningManager (.ok []) none none (.error (.new "random error")))
    sampleKernelMapping (.new "random error") (.new "random error") rfl rfl
  ⟨h.1, h.2.1, h.2.2 rfl⟩

/-- C28: in both Sync implementations, for every input and every client: if `List` fails, or
answers with two or more Jobs, Sync returns a non-nil error and issues no `Create` and no
`Delete`; if the `Create` that Sync issues (no Job found, the Job built) fails, Sync returns a
non-nil error wrapping it, with the zero Result and not a Created one; and Sync issues each of
`List`, `Create` and `Delete` at most once. -/
theorem sync_store_errors (c : Constants) (mod : Module) (targetKernel : String)
    (pushImage : Bool) (jbm : signjob.signJobManager) (m : KernelMapping)
    (imageToSign targetImage : String) (sm : signer.signingManager) (km : KernelMapping) :
    ((∀ err, jbm.client.List
          { MatchingLabels := signjob.labels c mod targetKernel, InNamespace := mod.Namespace }
            = .error err →
        (signjob.Sync c jbm mod m targetKernel imageToSign targetImage pushImage).1.2 ≠ none
          ∧ ∀ call ∈ (signjob.Sync c jbm mod m targetKernel imageToSign targetImage pushImage).2,
              call.isCreate = false ∧ call.isDelete = false)
      ∧ (∀ items, jbm.client.List
          { MatchingLabels := signjob.labels c mod targetKernel, InNamespace := mod.Namespace }
            = .ok items → 2 ≤ items.length →
        (signjob.Sync c jbm mod m targetKernel imageToSign targetImage pushImage).1.2 ≠ none
          ∧ ∀ call ∈ (signjob.Sync c jbm mod m targetKernel imageToSign targetImage pushImage).2,
              call.isCreate = false ∧ call.isDelete = false)
      ∧ (∀ desired err,
          jbm.signer.MakeJobTemplate mod (jbm.helper.GetRelevantSign mod m) targetKernel
            imageToSign targetImage pushImage = .ok desired →
          jbm.client.List
            { MatchingLabels := signjob.labels c mod targetKernel, InNamespace := mod.Namespace }
              = .ok [] →
          jbm.client.Create desired = some err →
          (signjob.Sync c jbm mod m targetKernel imageToSign targetImage pushImage).1 =
            ({}, some (Errorf "could not create Job: " err.text)))
      ∧ (signjob.Sync c jbm mod m targetKernel imageToSign targetImage pushImage).2.countP
          Call.isList ≤ 1
      ∧ (signjob.Sync c jbm mod m targetKernel imageToSign targetImage pushImage).2.countP
          Call.isCreate ≤ 1
      ∧ (signjob.Sync c jbm mod m targetKernel imageToSign targetImage pushImage).2.countP
          Call.isDelete ≤ 1)
    ∧ ((∀ err, sm.client.List
          { MatchingLabels := signer.labels c mod targetKernel (signer.GetName sm),
            InNamespace := mod.Namespace } = .error err →
        (signer.Sync c sm mod km targetKernel pushImage).1.2 ≠ none
          ∧ ∀ call ∈ (signer.Sync c sm mod km targetKernel pushImage).2,
              call.isCreate = false ∧ call.isDelete = false)
      ∧ (∀ items, sm.client.List
          { MatchingLabels := signer.labels c mod targetKernel (signer.GetName sm),
            InNamespace := mod.Namespace } = .ok items → 2 ≤ items.length →
        (signer.Sync c sm mod km targetKernel pushImage).1.2 ≠ none
          ∧ ∀ call ∈ (signer.Sync c sm mod km targetKernel pushImage).2,
              call.isCreate = false ∧ call.isDelete = false)
      ∧ (∀ job err,
          sm.signer.MakeJob mod (sm.helper.GetRelevantSign mod km) targetKernel pushImage
            = .ok job →
          sm.client.List
            { MatchingLabels := signer.labels c mod targetKernel (signer.GetName sm),
              InNamespace := mod.Namespace } = .ok [] →
          sm.client.Create job = some err →
          (signer.Sync c sm mod km targetKernel pushImage).1 =
            ({}, some (Errorf "could not create Job: " err.text)))
      ∧ (signer.Sync c sm mod km targetKernel pushImage).2.countP Call.isList ≤ 1
      ∧ (signer.Sync c sm mod km targetKernel pushImage).2.countP Call.isCreate ≤ 1
      ∧ (signer.Sync c sm mod km targetKernel pushImage).2.countP Call.isDelete ≤ 1) := by
  refine ⟨⟨?_, ?_, ?_, ?_, ?_, ?_⟩, ⟨?_, ?_, ?_, ?_, ?_, ?_⟩⟩
  · intro e hlist
    rcases signjob_sync_paths c jbm mod m targetKernel imageToSign targetImage pushImage with
      ⟨err, hb, h⟩ | ⟨desired, hb, ⟨err, hl, h⟩ | ⟨items, hl, hlen, h⟩ |
        ⟨hl, ⟨err, hc, h⟩ | ⟨hc, h⟩⟩ | ⟨live, hl, ⟨_, h⟩ | ⟨_, _, h⟩ | ⟨_, _, h⟩⟩⟩
    all_goals first
      | (rw [hlist] at hl; cases hl; done)
      | (rw [h]; simp [Call.isCreate, Call.isDelete])
  · intro its hlist hlen2
    rcases signjob_sync_paths c jbm mod m targetKernel imageToSign targetImage pushImage with
      ⟨err, hb, h⟩ | ⟨desired, hb, ⟨err, hl, h⟩ | ⟨items, hl, hlen, h⟩ |
        ⟨hl, ⟨err, hc, h⟩ | ⟨hc, h⟩⟩ | ⟨live, hl, ⟨_, h⟩ | ⟨_, _, h⟩ | ⟨_, _, h⟩⟩⟩
    all_goals first
      | (rw [hlist] at hl; cases hl; simp at hlen2)
      | (rw [h]; simp [Call.isCreate, Call.isDelete])
  · intro d e hd hlist hcreate
    rcases signjob_sync_paths c jbm mod m targetKernel imageToSign targetImage pushImage with
      ⟨err, hb, h⟩ | ⟨desired, hb, ⟨err, hl, h⟩ | ⟨items, hl, hlen, h⟩ |
        ⟨hl, ⟨err, hc, h⟩ | ⟨hc, h⟩⟩ | ⟨live, hl, ⟨_, h⟩ | ⟨_, _, h⟩ | ⟨_, _, h⟩⟩⟩
    all_goals first
      | (rw [hd] at hb; cases hb; done)
      | (rw [hlist] at hl; cases hl; done)
      | (rw [hlist] at hl; cases hl; simp at hlen)
      | (rw [hd] at hb; cases hb; rw [hcreate] at hc; cases hc <;> rw [h])
  · rcases signjob_sync_paths c jbm mod m targetKernel imageToSign targetImage pushImage with
      ⟨err, hb, h⟩ | ⟨desired, hb, ⟨err, hl, h⟩ | ⟨items, hl, hlen, h⟩ |
        ⟨hl, ⟨err, hc, h⟩ | ⟨hc, h⟩⟩ | ⟨live, hl, ⟨_, h⟩ | ⟨_, _, h⟩ | ⟨_, _, h⟩⟩⟩
    all_goals rw [h]
    all_goals simp [Call.isList, List.countP_cons]
  · rcases signjob_sync_paths c jbm mod m targetKernel imageToSign targetImage pushImage with
      ⟨err, hb, h⟩ | ⟨desired, hb, ⟨err, hl, h⟩ | ⟨items, hl, hlen, h⟩ |
        ⟨hl, ⟨err, hc, h⟩ | ⟨hc, h⟩⟩ | ⟨live, hl, ⟨_, h⟩ | ⟨_, _, h⟩ | ⟨_, _, h⟩⟩⟩
    all_goals rw [h]
    all_goals simp [Call.isCreate, List.countP_cons]
  · rcases signjob_sync_paths c jbm mod m targetKernel imageToSign targetImage pushImage with
      ⟨err, hb, h⟩ | ⟨desired, hb, ⟨err, hl, h⟩ | ⟨items, hl, hlen, h⟩ |
        ⟨hl, ⟨err, hc, h⟩ | ⟨hc, h⟩⟩ | ⟨live, hl, ⟨_, h⟩ | ⟨_, _, h⟩ | ⟨_, _, h⟩⟩⟩
    all_goals rw [h]
    all_goals simp [Call.isDelete, List.countP_cons]
  · intro e hlist
    rcases signer_sync_paths c sm mod km targetKernel pushImage with
      ⟨err, hl, h⟩ | ⟨items, hl, hlen, h⟩ |
        ⟨hl, ⟨err, hb, h⟩ | ⟨job, hb, ⟨err, hc, h⟩ | ⟨hc, h⟩⟩⟩ | ⟨live, hl, h⟩
    all_goals first
      | (rw [hlist] at hl; cases hl; done)
      | (rw [h]; simp [Call.isCreate, Call.isDelete])
  · intro its hlist hlen2
    rcases signer_sync_paths c sm mod km targetKernel pushImage with
      ⟨err, hl, h⟩ | ⟨items, hl, hlen, h⟩ |
        ⟨hl, ⟨err, hb, h⟩ | ⟨job, hb, ⟨err, hc, h⟩ | ⟨hc, h⟩⟩⟩ | ⟨live, hl, h⟩
    all_goals first
      | (rw [hlist] at hl; cases hl; simp at hlen2)
      | (rw [h]; simp [Call.isCreate, Call.isDelete])
  · intro d e hd hlist hcreate
    rcases signer_sync_paths c sm mod km targetKernel pushImage with
      ⟨err, hl, h⟩ | ⟨items, hl, hlen, h⟩ |
        ⟨hl, ⟨err, hb, h⟩ | ⟨job, hb, ⟨err, hc, h⟩ | ⟨hc, h⟩⟩⟩ | ⟨live, hl, h⟩
    all_goals first
      | (rw [hlist] at hl; cases hl; done)
      | (rw [hlist] at hl; cases hl; simp at hlen)
      | (rw [hd] at hb; cases hb; done)
      | (rw [hd] at hb; cases hb; rw [hcreate] at hc; cases hc <;> rw [h])
  · rcases signer_sync_paths c sm mod km targetKernel pushImage with
      ⟨err, hl, h⟩ | ⟨items, hl, hlen, h⟩ |
        ⟨hl, ⟨err, hb, h⟩ | ⟨job, hb, ⟨err, hc, h⟩ | ⟨hc, h⟩⟩⟩ | ⟨live, hl, h⟩
    all_goals rw [h]
    all_goals simp [Call.isList, List.countP_cons]
  · rcases signer_sync_paths c sm mod km targetKernel pushImage with
      ⟨err, hl, h⟩ | ⟨items, hl, hlen, h⟩ |
        ⟨hl, ⟨err, hb, h⟩ | ⟨job, hb, ⟨err, hc, h⟩ | ⟨hc, h⟩⟩⟩ | ⟨live, hl, h⟩
    all_goals rw [h]
    all_goals simp [Call.isCreate, List.countP_cons]
  · rcases signer_sync_paths c sm mod km targetKernel pushImage with
      ⟨err, hl, h⟩ | ⟨items, hl, hlen, h⟩ |
        ⟨hl, ⟨err, hb, h⟩ | ⟨job, hb, ⟨err, hc, h⟩ | ⟨hc, h⟩⟩⟩ | ⟨live, hl, h⟩
    all_goals rw [h]
    all_goals simp [Call.isDelete, List.countP_cons]

/-! ## Sync as a step on the store (C24, C25) -/

/-- Calls that are neither `Create` nor `Delete` leave the store as it is. -/
theorem applyCalls_no_write (f : Faults) (s : Store) (calls : List Call)
    (h : ∀ call ∈ calls, call.isCreate = false ∧ call.isDelete = false) :
    applyCalls f s calls = s := by
  induction calls generalizing s with
  | nil => rfl
  | cons call rest ih =>
    have hrest : ∀ x ∈ rest, x.isCreate = false ∧ x.isDelete = false :=
      fun x hx => h x (List.mem_cons_of_mem _ hx)
    have hcall := h call (List.mem_cons_self _ _)
    cases call with
    | List opts => exact ih s hrest
    | Create job => simp [Call.isCreate] at hcall
    | Delete job opts => simp [Call.isDelete] at hcall

/-- Adding one Job to the store adds at most one Job to the answer of a query. -/
theorem matching_append_length (s : Store) (job : Job) (opts : ListOptions) :
    (Store.matching (s ++ [job]) opts).length ≤ (Store.matching s opts).length + 1 := by
  unfold Store.matching
  rw [List.filter_append, List.length_append]
  have := List.length_filter_le (matchesQuery opts) [job]
  simp only [List.length_singleton] at this
  omega

/-- Removing Jobs from the store adds no Job to the answer of a query. -/
theorem matching_filter_length (s : Store) (p : Job → Bool) (opts : ListOptions) :
    (Store.matching (s.filter p) opts).length ≤ (Store.matching s opts).length := by
  unfold Store.matching
  rw [List.filter_filter]
  apply List.Sublist.length_le
  apply List.monotone_filter_right
  intro a ha
  simp only [Bool.and_eq_true] at ha
  exact ha.1

/-- What the client over a store answers to `List` with the empty list: the call reached the
store and no Job of the store matches. -/
theorem storeClient_list_nil (s : Store) (f : Faults) (opts : ListOptions)
    (h : (storeClient s f).List opts = .ok []) :
    f.listErr = none ∧ Store.matching s opts = [] := by
  unfold storeClient at h
  cases hf : f.listErr with
  | some err => simp [hf] at h
  | none => simpa [hf] using h

/-- One in-cluster Sync on a store with at most one matching Job leaves at most one, and
issues `Create` only when the store holds no matching Job. -/
theorem signjob_syncStep_at_most_one (c : Constants) (jbm : signjob.signJobManager) (f : Faults)
    (s : Store) (mod : Module) (m : KernelMapping)
    (targetKernel imageToSign targetImage : String) (pushImage : Bool)
    (hone : (Store.matching s
      { MatchingLabels := signjob.labels c mod targetKernel,
        InNamespace := mod.Namespace }).length ≤ 1) :
    (Store.matching
        (signjob.syncStep c jbm f s mod m targetKernel imageToSign targetImage pushImage).2
        { MatchingLabels := signjob.labels c mod targetKernel,
          InNamespace := mod.Namespace }).length ≤ 1
      ∧ ∀ job, Call.Create job ∈
          (signjob.syncStep c jbm f s mod m targetKernel imageToSign targetImage pushImage).1.2 →
          f.listErr = none
            ∧ Store.matching s { MatchingLabels := signjob.labels c mod targetKernel,
                                 InNamespace := mod.Namespace } = [] := by
  unfold signjob.syncStep
  simp only []
  rcases signjob_sync_paths c { jbm with client := storeClient s f } mod m targetKernel
      imageToSign targetImage pushImage with
    ⟨err, hb, h⟩ | ⟨desired, hb, ⟨err, hl, h⟩ | ⟨items, hl, hlen, h⟩ |
      ⟨hl, ⟨err, hc, h⟩ | ⟨hc, h⟩⟩ | ⟨live, hl, ⟨_, h⟩ | ⟨_, _, h⟩ | ⟨_, _, h⟩⟩⟩
  all_goals rw [h]
  · simpa [applyCalls] using hone
  · simpa [applyCalls, applyCall] using hone
  · simpa [applyCalls, applyCall] using hone
  · have hnil := storeClient_list_nil s f _ hl
    refine ⟨?_, fun _ _ => hnil⟩
    have hle := matching_append_length s desired
      { MatchingLabels := signjob.labels c mod targetKernel, InNamespace := mod.Namespace }
    rw [hnil.2] at hle
    simp only [applyCalls, List.foldl, applyCall]
    cases f.createErr with
    | some _ => exact hone
    | none => simpa using hle
  · have hnil := storeClient_list_nil s f _ hl
    refine ⟨?_, fun _ _ => hnil⟩
    have hle := matching_append_length s desired
      { MatchingLabels := signjob.labels c mod targetKernel, InNamespace := mod.Namespace }
    rw [hnil.2] at hle
    simp only [applyCalls, List.foldl, applyCall]
    cases f.createErr with
    | some _ => exact hone
    | none => simpa using hle
  · simpa [applyCalls, applyCall] using hone
  · refine ⟨?_, by simp⟩
    simp only [applyCalls, List.foldl, applyCall]
    cases f.deleteErr with
    | some _ => exact hone
    | none => exact le_trans (matching_filter_length s _ _) hone
  · simpa [applyCalls, applyCall] using hone

/-- One standalone Sync on a store with at most one matching Job leaves at most one, and issues
`Create` only when the store holds no matching Job. -/
theorem signer_syncStep_at_most_one (c : Constants) (sm : signer.signingManager) (f : Faults)
    (s : Store) (mod : Module) (km : KernelMapping) (targetKernel : String) (pushImage : Bool)
    (hone : (Store.matching s
      { MatchingLabels := signer.labels c mod targetKernel (signer.GetName sm),
        InNamespace := mod.Namespace }).length ≤ 1) :
    (Store.matching (signer.syncStep c sm f s mod km targetKernel pushImage).2
        { MatchingLabels := signer.labels c mod targetKernel (signer.GetName sm),
          InNamespace := mod.Namespace }).length ≤ 1
      ∧ ∀ job, Call.Create job ∈ (signer.syncStep c sm f s mod km targetKernel pushImage).1.2 →
          f.listErr = none
            ∧ Store.matching s
                { MatchingLabels := signer.labels c mod targetKernel (signer.GetName sm),
                  InNamespace := mod.Namespace } = [] := by
  have hname : signer.GetName { sm with client := storeClient s f } = signer.GetName sm := rfl
  unfold signer.syncStep
  simp only []
  rcases signer_sync_paths c { sm with client := storeClient s f } mod km targetKernel
      pushImage with
    ⟨err, hl, h⟩ | ⟨items, hl, hlen, h⟩ |
      ⟨hl, ⟨err, hb, h⟩ | ⟨job, hb, ⟨err, hc, h⟩ | ⟨hc, h⟩⟩⟩ | ⟨live, hl, h⟩
  all_goals rw [hname] at h
  all_goals rw [h]
  · simpa [applyCalls, applyCall] using hone
  · simpa [applyCalls, applyCall] using hone
  · simpa [applyCalls, applyCall] using hone
  · rw [hname] at hl
    have hnil := storeClient_list_nil s f _ hl
    refine ⟨?_, fun _ _ => hnil⟩
    have hle := matching_append_length s job
      { MatchingLabels := signer.labels c mod targetKernel (signer.GetName sm),
        InNamespace := mod.Namespace }
    rw [hnil.2] at hle
    simp only [applyCalls, List.foldl, applyCall]
    cases f.createErr with
    | some _ => exact hone
    | none => simpa using hle
  · rw [hname] at hl
    have hnil := storeClient_list_nil s f _ hl
    refine ⟨?_, fun _ _ => hnil⟩
    have hle := matching_append_length s job
      { MatchingLabels := signer.labels c mod targetKernel (signer.GetName sm),
        InNamespace := mod.Namespace }
    rw [hnil.2] at hle
    simp only [applyCalls, List.foldl, applyCall]
    cases f.createErr with
    | some _ => exact hone
    | none => simpa using hle
  · simpa [applyCalls, applyCall] using hone

/-- C25: at-most-one invariant. The store is a collection of Jobs and Sync a step on it. For
every store state in which at most one Job matches the unit's label set and namespace, and
whatever calls fail, the state after one Sync of either variant also holds at most one matching
Job; and Sync issues `Create` only when `List` succeeded and found no matching Job. -/
theorem sync_at_most_one (c : Constants) (f : Faults) (s : Store) (mod : Module)
    (targetKernel : String) (pushImage : Bool) (jbm : signjob.signJobManager)
    (m : KernelMapping) (imageToSign targetImage : String) (sm : signer.signingManager)
    (km : KernelMapping)
    (hone : (Store.matching s
      { MatchingLabels := signjob.labels c mod targetKernel,
        InNamespace := mod.Namespace }).length ≤ 1)
    (honeS : (Store.matching s
      { MatchingLabels := signer.labels c mod targetKernel (signer.GetName sm),
        InNamespace := mod.Namespace }).length ≤ 1) :
    ((Store.matching
        (signjob.syncStep c jbm f s mod m targetKernel imageToSign targetImage pushImage).2
        { MatchingLabels := signjob.labels c mod targetKernel,
          InNamespace := mod.Namespace }).length ≤ 1
      ∧ ∀ job, Call.Create job ∈
          (signjob.syncStep c jbm f s mod m targetKernel imageToSign targetImage pushImage).1.2 →
          f.listErr = none
            ∧ Store.matching s { MatchingLabels := signjob.labels c mod targetKernel,
                                 InNamespace := mod.Namespace } = [])
    ∧ ((Store.matching (signer.syncStep c sm f s mod km targetKernel pushImage).2
        { MatchingLabels := signer.labels c mod targetKernel (signer.GetName sm),
          InNamespace := mod.Namespace }).length ≤ 1
      ∧ ∀ job, Call.Create job ∈ (signer.syncStep c sm f s mod km targetKernel pushImage).1.2 →
          f.listErr = none
            ∧ Store.matching s
                { MatchingLabels := signer.labels c mod targetKernel (signer.GetName sm),
                  InNamespace := mod.Namespace } = []) :=
  ⟨signjob_syncStep_at_most_one c jbm f s mod m targetKernel imageToSign targetImage pushImage
      hone,
   signer_syncStep_at_most_one c sm f s mod km targetKernel pushImage honeS⟩

/-- Witness for C25: the empty store, both variants; the in-cluster manager is the one of the
first-Sync scenario, whose Sync creates the Job. -/
theorem sync_at_most_one_witness :
    (Store.matching
        (signjob.syncStep sampleConstants sampleScenarioManager {} [] sampleScenarioModule
          sampleKernelMapping "1.2.3" "" "my.registry/img-signed" true).2
        { MatchingLabels := signjob.labels sampleConstants sampleScenarioModule "1.2.3",
          InNamespace := "some-namespace" }).length ≤ 1
      ∧ (Store.matching
        (signer.syncStep sampleConstants
          (mockSigningManager (.ok []) none none (.ok (sampleJob "" {}))) {} []
          sampleScenarioModule sampleKernelMapping "1.2.3" true).2
        { MatchingLabels := signer.labels sampleConstants sampleScenarioModule "1.2.3" "sign",
          InNamespace := "some-namespace" }).length ≤ 1 :=
  have h := sync_at_most_one sampleConstants {} [] sampleScenarioModule "1.2.3" true
    sampleScenarioManager sampleKernelMapping "" "my.registry/img-signed"
    (mockSigningManager (.ok []) none none (.ok (sampleJob "" {}))) sampleKernelMapping
    (by decide) (by decide)
  ⟨h.1.1, h.2.1⟩

/-- A Sync on a store that holds exactly one matching Job, whose recorded hash is the desired
Job's, issues neither `Create` nor `Delete`. -/
theorem signjob_sync_no_write (c : Constants) (jbm : signjob.signJobManager) (f : Faults)
    (s : Store) (mod : Module) (m : KernelMapping)
    (targetKernel imageToSign targetImage : String) (pushImage : Bool) (live : Job)
    (hone : Store.matching s
      { MatchingLabels := signjob.labels c mod targetKernel, InNamespace := mod.Namespace }
        = [live])
    (hhash : ∀ desired,
      jbm.signer.MakeJobTemplate mod (jbm.helper.GetRelevantSign mod m) targetKernel
        imageToSign targetImage pushImage = .ok desired →
      mapIndex live.Annotations signjob.jobHashAnnotation =
        mapIndex desired.Annotations signjob.jobHashAnnotation) :
    ∀ call ∈ (signjob.Sync c { jbm with client := storeClient s f } mod m targetKernel
        imageToSign targetImage pushImage).2,
      call.isCreate = false ∧ call.isDelete = false := by
  have hlist : ∀ items, (storeClient s f).List
      { MatchingLabels := signjob.labels c mod targetKernel, InNamespace := mod.Namespace }
        = .ok items → items = [live] := by
    intro items h
    unfold storeClient at h
    cases hf : f.listErr with
    | some err => simp [hf] at h
    | none =>
      simp only [hf, Except.ok.injEq] at h
      rw [← h, hone]
  rcases signjob_sync_paths c { jbm with client := storeClient s f } mod m targetKernel
      imageToSign targetImage pushImage with
    ⟨err, hb, h⟩ | ⟨desired, hb, ⟨err, hl, h⟩ | ⟨items, hl, hlen, h⟩ |
      ⟨hl, ⟨err, hc, h⟩ | ⟨hc, h⟩⟩ | ⟨l, hl, ⟨_, h⟩ | ⟨_, hne, h⟩ | ⟨_, _, h⟩⟩⟩
  · rw [h]; simp
  · rw [h]; simp [Call.isCreate, Call.isDelete]
  · rw [h]; simp [Call.isCreate, Call.isDelete]
  · cases hlist _ hl
  · cases hlist _ hl
  · rw [h]; simp [Call.isCreate, Call.isDelete]
  · have hl2 := hlist _ hl
    simp only [List.cons.injEq, and_true] at hl2
    subst hl2
    exact absurd (hhash desired hb) hne
  · rw [h]; simp [Call.isCreate, Call.isDelete]

/-- C24: the in-cluster Sync is idempotent absent drift. For every store state holding exactly
one matching live Job whose recorded hash equals the desired Job's, two consecutive Sync calls
with the same inputs (the Job's status unchanged, the same calls failing) return identical
(Result, error) pairs, neither call issues `Create` or `Delete`, and the store is left as it
was. -/
theorem sync_idempotent_absent_drift (c : Constants) (jbm : signjob.signJobManager) (f : Faults)
    (s : Store) (mod : Module) (m : KernelMapping)
    (targetKernel imageToSign targetImage : String) (pushImage : Bool) (live : Job)
    (hone : Store.matching s
      { MatchingLabels := signjob.labels c mod targetKernel, InNamespace := mod.Namespace }
        = [live])
    (hhash : ∀ desired,
      jbm.signer.MakeJobTemplate mod (jbm.helper.GetRelevantSign mod m) targetKernel
        imageToSign targetImage pushImage = .ok desired →
      mapIndex live.Annotations signjob.jobHashAnnotation =
        mapIndex desired.Annotations signjob.jobHashAnnotation) :
    (signjob.syncStep c jbm f s mod m targetKernel imageToSign targetImage pushImage).2 = s
      ∧ (signjob.syncStep c jbm f
          (signjob.syncStep c jbm f s mod m targetKernel imageToSign targetImage pushImage).2
          mod m targetKernel imageToSign targetImage pushImage).2 = s
      ∧ (signjob.syncStep c jbm f
          (signjob.syncStep c jbm f s mod m targetKernel imageToSign targetImage pushImage).2
          mod m targetKernel imageToSign targetImage pushImage).1.1
        = (signjob.syncStep c jbm f s mod m targetKernel imageToSign targetImage pushImage).1.1
      ∧ (∀ call ∈
          (signjob.syncStep c jbm f s mod m targetKernel imageToSign targetImage pushImage).1.2,
          call.isCreate = false ∧ call.isDelete = false)
      ∧ (∀ call ∈ (signjob.syncStep c jbm f
            (signjob.syncStep c jbm f s mod m targetKernel imageToSign targetImage pushImage).2
            mod m targetKernel imageToSign targetImage pushImage).1.2,
          call.isCreate = false ∧ call.isDelete = false) := by
  have hno := signjob_sync_no_write c jbm f s mod m targetKernel imageToSign targetImage
    pushImage live hone hhash
  have hsame :
      (signjob.syncStep c jbm f s mod m targetKernel imageToSign targetImage pushImage).2 = s :=
    applyCalls_no_write f s _ hno
  rw [hsame]
  exact ⟨rfl, hsame, rfl, hno, hno⟩

/-- Witness for C24: a store holding one matching Job with `Active = 1` and the hash
`some hash`, and a manager whose desired Job carries the same hash. -/
theorem sync_idempotent_absent_drift_witness :
    (signjob.syncStep sampleConstants
        (mockSignJobManager (.ok []) none none (.ok (sampleJob "some hash" {}))) {}
        (signjob.syncStep sampleConstants
          (mockSignJobManager (.ok []) none none (.ok (sampleJob "some hash" {}))) {}
          [sampleStoredJob "some hash" { Active := 1 }]
          sampleModule sampleKernelMapping "1.2.3" "" "image-signed" true).2
        sampleModule sampleKernelMapping "1.2.3" "" "image-signed" true).1.1
      = (signjob.syncStep sampleConstants
          (mockSignJobManager (.ok []) none none (.ok (sampleJob "some hash" {}))) {}
          [sampleStoredJob "some hash" { Active := 1 }]
          sampleModule sampleKernelMapping "1.2.3" "" "image-signed" true).1.1 :=
  (sync_idempotent_absent_drift sampleConstants
    (mockSignJobManager (.ok []) none none (.ok (sampleJob "some hash" {}))) {}
    [sampleStoredJob "some hash" { Active := 1 }] sampleModule sampleKernelMapping "1.2.3" ""
    "image-signed" true (sampleStoredJob "some hash" { Active := 1 }) (by decide)
    (fun desired hd => by cases hd; rfl)).2.2.1

/-! ## The metadata of a built Job (C21) and the hash annotation (C22, C23) -/

/-- C21: for every successful call of a builder (the in-cluster `MakeJobTemplate`, and the
standalone `MakeJob` on the signer that `NewSigner` constructs), the Job's generated-name prefix
is the module's name followed by `-sign-`, its namespace is the module's namespace, its labels
are exactly the three entries of the discovery label map (module name, target kernel, stage
`sign`), its pod node selector is the module's selector, its restart policy is `OnFailure`, and
it has exactly one container. -/
theorem builder_metadata (c : Constants) (mod : Module) (targetKernel : String)
    (pushImage : Bool) (m : signjob.signer) (signConfig : Option Sign)
    (previousImage targetImage : String) (job : Job) (scheme : Scheme)
    (signConfigS : Option Sign) (jobS : Job)
    (h : signjob.MakeJobTemplate c m mod signConfig targetKernel previousImage targetImage
      pushImage = some (.ok job))
    (hS : signer.MakeJob c (signer.NewSigner scheme) mod signConfigS targetKernel pushImage
      = some (.ok jobS)) :
    (job.GenerateName = mod.Name ++ "-sign-"
      ∧ job.Namespace = mod.Namespace
      ∧ job.Labels = some
          [(c.ModuleNameLabel, mod.Name), (c.TargetKernelTarget, targetKernel),
           (c.JobType, "sign")]
      ∧ job.Spec.Template.Spec.NodeSelector = mod.Spec.Selector
      ∧ job.Spec.Template.Spec.RestartPolicy = "OnFailure"
      ∧ job.Spec.Template.Spec.Containers.length = 1)
    ∧ (jobS.GenerateName = mod.Name ++ "-sign-"
      ∧ jobS.Namespace = mod.Namespace
      ∧ jobS.Labels = some
          [(c.ModuleNameLabel, mod.Name), (c.TargetKernelTarget, targetKernel),
           (c.BuildStage, "sign")]
      ∧ jobS.Spec.Template.Spec.NodeSelector = mod.Spec.Selector
      ∧ jobS.Spec.Template.Spec.RestartPolicy = "OnFailure"
      ∧ jobS.Spec.Template.Spec.Containers.length = 1) := by
  obtain ⟨sc, unsignedImage, _, _, hname, hns, hlabels, _, _, hrestart, hsel, hcont, _⟩ :=
    makeJobTemplate_returns c m mod signConfig targetKernel previousImage targetImage pushImage
      job h
  obtain ⟨scS, key, cert, _, _, _, hnameS, hnsS, hlabelsS, _, _, hrestartS, hselS, hcontS, _⟩ :=
    makeJob_returns c (signer.NewSigner scheme) mod signConfigS targetKernel pushImage jobS hS
  refine ⟨⟨hname, hns, hlabels, hsel, hrestart, ?_⟩, ⟨?_, hnsS, hlabelsS, hselS, hrestartS, ?_⟩⟩
  · rw [hcont]; rfl
  · rw [hnameS]
    show mod.Name ++ "-" ++ "sign" ++ "-" = mod.Name ++ "-sign-"
    rw [String.append_assoc, String.append_assoc]
    rfl
  · rw [hcontS]; rfl

/-- Witness for C21: the module, sign config and scheme of the builder tests. -/
theorem builder_metadata_witness :
    ∃ job jobS,
      signjob.MakeJobTemplate sampleConstants { scheme := sampleScheme } sampleModulePullSecret
        (some sampleSign) "1.2.3" "" "target-image" true = some (.ok job)
      ∧ signer.MakeJob sampleConstants (signer.NewSigner sampleScheme) sampleModulePullSecret
        (some sampleSign) "1.2.3" true = some (.ok jobS)
      ∧ job.GenerateName = "module-name-sign-"
      ∧ jobS.GenerateName = "module-name-sign-"
      ∧ job.Spec.Template.Spec.Containers.length = 1
      ∧ jobS.Spec.Template.Spec.Containers.length = 1 := by
  have hall := builder_metadata sampleConstants sampleModulePullSecret "1.2.3" true
    { scheme := sampleScheme } (some sampleSign) "" "target-image" _ sampleScheme
    (some sampleSign) _ rfl rfl
  refine ⟨_, _, rfl, rfl, ?_, ?_, hall.1.2.2.2.2.2, hall.2.2.2.2.2.2⟩
  · rw [hall.1.1]; decide
  · rw [hall.2.1]; decide

/-- C22 fails in the code: a Job that the in-cluster `MakeJobTemplate` returns carries no
annotations at all, so the hash annotation `kmm.node.kubernetes.io/last-hash` is absent from the
desired Job, reading it gives the empty string, and `isJobChanged` on a live Job that is the
desired Job as built returns the error for missing annotations. -/
theorem makeJobTemplate_carries_no_hash (c : Constants) (m : signjob.signer)
    (mod : Module) (signConfig : Option Sign) (targetKernel previousImage targetImage : String)
    (pushImage : Bool) (job : Job)
    (h : signjob.MakeJobTemplate c m mod signConfig targetKernel previousImage targetImage
      pushImage = some (.ok job)) :
    job.Annotations = none
      ∧ mapIndex job.Annotations signjob.jobHashAnnotation = ""
      ∧ signjob.isJobChanged job job =
          .error (Errorf "annotations are not present in the existing job " job.Name) := by
  obtain ⟨sc, unsignedImage, _, _, _, _, _, hann, _⟩ :=
    makeJobTemplate_returns c m mod signConfig targetKernel previousImage targetImage pushImage
      job h
  refine ⟨hann, by rw [hann]; rfl, ?_⟩
  unfold signjob.isJobChanged Job.GetAnnotations
  simp only [hann]

/-- Witness for C22 failing: the module, sign config and scheme of the builder tests. -/
theorem makeJobTemplate_carries_no_hash_witness :
    ∃ job,
      signjob.MakeJobTemplate sampleConstants { scheme := sampleScheme } sampleModulePullSecret
        (some sampleSign) "1.2.3" "" "target-image" true = some (.ok job)
      ∧ job.Annotations = none
      ∧ mapIndex job.Annotations "kmm.node.kubernetes.io/last-hash" = "" :=
  ⟨_, rfl,
    (makeJobTemplate_carries_no_hash sampleConstants { scheme := sampleScheme }
      sampleModulePullSecret (some sampleSign) "1.2.3" "" "target-image" true _ rfl).1,
    (makeJobTemplate_carries_no_hash sampleConstants { scheme := sampleScheme }
      sampleModulePullSecret (some sampleSign) "1.2.3" "" "target-image" true _ rfl).2.1⟩

/-- C23 fails in the code: on the empty store, a first in-cluster Sync with the real builder
(the first-Sync scenario of the spec: module `module-name`, kernel `1.2.3`, no image-pull
secret) creates the desired Job and returns `Created` with requeue; the created Job carries no
annotations; and the second Sync with the same inputs, on the store holding exactly that Job now
reporting `active = 1`, returns the zero Result with the error of `isJobChanged` for missing
annotations, after the one `List`, in place of `InProgress` with requeue and no error. -/
theorem sync_after_create_misses_annotations :
    ∃ job,
      signjob.syncStep sampleConstants sampleScenarioManager {} [] sampleScenarioModule
          sampleKernelMapping "1.2.3" "" "my.registry/img-signed" true =
        ((({ Status := sign.StatusCreated, Requeue := true }, none),
          [Call.List
            { MatchingLabels := signjob.labels sampleConstants sampleScenarioModule "1.2.3",
              InNamespace := "some-namespace" },
           Call.Create job]),
         [job])
      ∧ job.Annotations = none
      ∧ Store.matching [{ job with Status := { Active := 1 } }]
          { MatchingLabels := signjob.labels sampleConstants sampleScenarioModule "1.2.3",
            InNamespace := "some-namespace" } = [{ job with Status := { Active := 1 } }]
      ∧ signjob.syncStep sampleConstants sampleScenarioManager {}
          [{ job with Status := { Active := 1 } }] sampleScenarioModule sampleKernelMapping
          "1.2.3" "" "my.registry/img-signed" true =
        ((({}, some (.errorf ("could not determine if job has changed: "
              ++ "annotations are not present in the existing job "))),
          [Call.List
            { MatchingLabels := signjob.labels sampleConstants sampleScenarioModule "1.2.3",
              InNamespace := "some-namespace" }]),
         [{ job with Status := { Active := 1 } }]) := by
  refine ⟨_, rfl, rfl, ?_, ?_⟩
  · decide
  · decide

/-! ## The config resolver never fails (C29) -/

/-- With no overrides, `ApplyBuildArgOverrides` returns the arguments as they are. -/
theorem applyBuildArgOverrides_no_overrides (args : List BuildArg) :
    build.ApplyBuildArgOverrides args [] = args := by
  have hnil : (build.replaceLoop (build.fillOverridesMap []) args
      (build.StringKeySet (build.fillOverridesMap []))).2 = [] :=
    List.eq_nil_of_sublist_nil (replaceLoop_snd_sublist _ _ _)
  rw [applyBuildArgOverrides_eq, hnil]
  simp [build.fillOverridesMap, build.setList]

/-- The index loop of `ApplyBuildArgOverrides`, started at index `|pre|` on the slots `pre`
already passed and the slots `rest` still to come: it never indexes out of range, and leaves what
the replacement loop computes. -/
theorem indexLoop_eq_replaceLoop (overridesMap : build.BuildArgMap) (rest pre : List BuildArg)
    (unused : List String) :
    (List.range' pre.length rest.length).foldlM
      (fun (state : List BuildArg × List String) i =>
        match state.1[i]? with
        | none => none
        | some arg =>
          match overridesMap.lookup arg.Name with
          | some o => some (state.1.set i o, build.setDelete state.2 arg.Name)
          | none => some state)
      (pre ++ rest, unused)
    = some (pre ++ (build.replaceLoop overridesMap rest unused).1,
            (build.replaceLoop overridesMap rest unused).2) := by
  induction rest generalizing pre unused with
  | nil => simp [build.replaceLoop]
  | cons a rest ih =>
    have hget : (pre ++ a :: rest)[pre.length]? = some a := by
      rw [List.getElem?_append_right (Nat.le_refl _)]
      simp
    have hlen : ∀ x : BuildArg, (pre ++ [x]).length = pre.length + 1 := by simp
    rw [List.length_cons, List.range'_succ, List.foldlM_cons]
    simp only [hget]
    cases h : overridesMap.lookup a.Name with
    | some o =>
      have hset : (pre ++ a :: rest).set pre.length o = (pre ++ [o]) ++ rest := by simp
      simp only [Option.bind_eq_bind, Option.some_bind, hset]
      rw [← hlen o, ih (pre ++ [o]), replaceLoop_cons_some _ _ _ _ _ h]
      simp
    | none =>
      have hsplit : pre ++ a :: rest = (pre ++ [a]) ++ rest := by simp
      simp only [Option.bind_eq_bind, Option.some_bind]
      rw [hsplit, ← hlen a, ih (pre ++ [a]), replaceLoop_cons_none _ _ _ _ h]
      simp

/-- With its index expressions spelt out, `ApplyBuildArgOverrides` never faults, and returns the
sequence of the method as embedded above. -/
theorem applyBuildArgOverrides_never_faults (args overrides : List BuildArg) :
    build.withFaults.ApplyBuildArgOverrides args overrides
      = some (build.ApplyBuildArgOverrides args overrides) := by
  have h := indexLoop_eq_replaceLoop (build.fillOverridesMap overrides) args []
    (build.StringKeySet (build.fillOverridesMap overrides))
  simp only [List.length_nil, List.nil_append, ← List.range_eq_range'] at h
  unfold build.withFaults.ApplyBuildArgOverrides build.ApplyBuildArgOverrides
  simp only [h]

/-- C29: the config resolver never fails. With every pointer dereference and slice index of the
three methods spelt out, and `DeepCopy` returning nil for a nil receiver, no input makes one of
them fault: `GetRelevantBuild` and `GetRelevantSign` return on every module and kernel mapping,
the nil spec when neither level defines one rather than a fault, and `ApplyBuildArgOverrides`
returns on every pair of sequences, the empty ones included. What they return is what the
methods as embedded without faults return. -/
theorem config_resolver_never_faults :
    (∀ mod km, build.withFaults.GetRelevantBuild mod km = some (build.GetRelevantBuild mod km))
    ∧ (∀ mod km, mod.Spec.ModuleLoader.Container.Build = none → km.Build = none →
        build.withFaults.GetRelevantBuild mod km = some none)
    ∧ (∀ mod km, build.withFaults.GetRelevantSign mod km = some (build.GetRelevantSign mod km))
    ∧ (∀ mod km, mod.Spec.ModuleLoader.Container.Sign = none → km.Sign = none →
        build.withFaults.GetRelevantSign mod km = some none)
    ∧ (∀ args overrides, build.withFaults.ApplyBuildArgOverrides args overrides
        = some (build.ApplyBuildArgOverrides args overrides))
    ∧ (∀ args, build.withFaults.ApplyBuildArgOverrides args [] = some args)
    ∧ (∀ overrides, ∃ result, build.withFaults.ApplyBuildArgOverrides [] overrides = some result)
    ∧ build.withFaults.ApplyBuildArgOverrides [] [] = some [] := by
  have hbuild : ∀ mod km,
      build.withFaults.GetRelevantBuild mod km = some (build.GetRelevantBuild mod km) := by
    intro mod km
    unfold build.withFaults.GetRelevantBuild build.GetRelevantBuild
    cases hmod : mod.Spec.ModuleLoader.Container.Build with
    | none => cases km.Build <;> simp [Build.DeepCopy]
    | some modBuild =>
      cases hkm : km.Build with
      | none => simp [Build.DeepCopy]
      | some kmBuild => simp [Build.DeepCopy, applyBuildArgOverrides_never_faults]
  have hsign : ∀ mod km,
      build.withFaults.GetRelevantSign mod km = some (build.GetRelevantSign mod km) := by
    intro mod km
    unfold build.withFaults.GetRelevantSign build.GetRelevantSign
    cases hmod : mod.Spec.ModuleLoader.Container.Sign with
    | none => cases km.Sign <;> simp [Sign.DeepCopy]
    | some modSign =>
      cases hkm : km.Sign with
      | none => simp [Sign.DeepCopy]
      | some kmSign => simp [Sign.DeepCopy]
  refine ⟨hbuild, ?_, hsign, ?_, applyBuildArgOverrides_never_faults, ?_, ?_, ?_⟩
  · intro mod km hmod hkm
    rw [hbuild]
    unfold build.GetRelevantBuild
    rw [hmod, hkm]
  · intro mod km hmod hkm
    rw [hsign]
    unfold build.GetRelevantSign
    rw [hmod, hkm]
  · intro args
    rw [applyBuildArgOverrides_never_faults, applyBuildArgOverrides_no_overrides]
  · intro overrides
    exact ⟨_, applyBuildArgOverrides_never_faults [] overrides⟩
  · rfl

/-! ## Discovery-key consistency (C30) -/

/-- The in-cluster discovery issues exactly one `List`, by the label map of `labels` in the
module's namespace, whatever the client answers. -/
theorem signjob_getJob_query (c : Constants) (jbm : signjob.signJobManager) (mod : Module)
    (targetKernel : String) :
    (signjob.getJob c jbm mod targetKernel).2 =
      [Call.List
        { MatchingLabels := signjob.labels c mod targetKernel, InNamespace := mod.Namespace }] := by
  cases hlist : jbm.client.List
      { MatchingLabels := signjob.labels c mod targetKernel, InNamespace := mod.Namespace } with
  | error err => rw [signjob_getJob_list_error c jbm mod targetKernel err hlist]
  | ok items => rw [signjob_getJob_list_ok c jbm mod targetKernel items hlist]

/-- The standalone discovery issues exactly one `List`, by the label map of `labels` in the
module's namespace, whatever the client answers. -/
theorem signer_getJob_query (c : Constants) (sm : signer.signingManager) (mod : Module)
    (targetKernel : String) :
    (signer.getJob c sm mod targetKernel).2 =
      [Call.List
        { MatchingLabels := signer.labels c mod targetKernel (signer.GetName sm),
          InNamespace := mod.Namespace }] := by
  cases hlist : sm.client.List
      { MatchingLabels := signer.labels c mod targetKernel (signer.GetName sm),
        InNamespace := mod.Namespace } with
  | error err => rw [signer_getJob_list_error c sm mod targetKernel err hlist]
  | ok items => rw [signer_getJob_list_ok c sm mod targetKernel items hlist]

/-- A three-entry label map with distinct keys satisfies itself as a selector. -/
theorem selectorMatches_self (k1 k2 k3 v1 v2 v3 : String)
    (h12 : k1 ≠ k2) (h13 : k1 ≠ k3) (h23 : k2 ≠ k3) :
    selectorMatches [(k1, v1), (k2, v2), (k3, v3)] (some [(k1, v1), (k2, v2), (k3, v3)])
      = true := by
  have e21 : (k2 == k1) = false := beq_eq_false_iff_ne.mpr h12.symm
  have e31 : (k3 == k1) = false := beq_eq_false_iff_ne.mpr h13.symm
  have e32 : (k3 == k2) = false := beq_eq_false_iff_ne.mpr h23.symm
  simp [selectorMatches, List.lookup, e21, e31, e32]

/-- A label map whose first two keys are distinct does not satisfy a selector on the same keys
that asks for another first or second value. -/
theorem selectorMatches_other (k1 k2 k3 v1 v2 v3 w1 w2 w3 : String) (h12 : k1 ≠ k2)
    (h : w1 ≠ v1 ∨ w2 ≠ v2) :
    selectorMatches [(k1, w1), (k2, w2), (k3, w3)] (some [(k1, v1), (k2, v2), (k3, v3)])
      = false := by
  have e21 : (k2 == k1) = false := beq_eq_false_iff_ne.mpr h12.symm
  rcases h with h | h
  · simp [selectorMatches, List.lookup, h.symm]
  · simp only [selectorMatches, List.all_cons, List.lookup, Option.getD_some, beq_self_eq_true,
      e21, Bool.and_eq_false_imp]
    intro _
    simp [h.symm]

/-- C30: discovery-key consistency, the label keys being pairwise distinct. For every module and
target kernel, the label map and namespace that a builder puts on the Job it returns
(`MakeJobTemplate`; `MakeJob` of the signer whose name the manager reports) are the label
selector and namespace of the one `List` that the same variant's `getJob` issues; the query is
the same for any module of that name and namespace; so the Job answers the discovery query of
the same unit, and answers no query for another module name or another target kernel. -/
theorem discovery_key_consistency (c : Constants) (mod : Module) (targetKernel : String)
    (pushImage : Bool) (m : signjob.signer) (signConfig : Option Sign)
    (previousImage targetImage : String) (job : Job) (jbm : signjob.signJobManager)
    (mS : signer.signer) (signConfigS : Option Sign) (jobS : Job) (sm : signer.signingManager)
    (hkeys : c.distinctKeys)
    (h : signjob.MakeJobTemplate c m mod signConfig targetKernel previousImage targetImage
      pushImage = some (.ok job))
    (hS : signer.MakeJob c mS mod signConfigS targetKernel pushImage = some (.ok jobS))
    (hname : signer.GetName sm = mS.GetName) :
    ((signjob.getJob c jbm mod targetKernel).2 =
        [Call.List { MatchingLabels := (job.Labels.getD []), InNamespace := job.Namespace }]
      ∧ job.Labels = some (signjob.labels c mod targetKernel)
      ∧ job.Namespace = mod.Namespace
      ∧ (∀ other : Module, other.Name = mod.Name → other.Namespace = mod.Namespace →
          (signjob.getJob c jbm other targetKernel).2 = (signjob.getJob c jbm mod targetKernel).2)
      ∧ matchesQuery { MatchingLabels := signjob.labels c mod targetKernel,
                       InNamespace := mod.Namespace } job = true
      ∧ (∀ (other : Module) (otherKernel : String),
          other.Name ≠ mod.Name ∨ otherKernel ≠ targetKernel →
          matchesQuery { MatchingLabels := signjob.labels c other otherKernel,
                         InNamespace := other.Namespace } job = false))
    ∧ ((signer.getJob c sm mod targetKernel).2 =
        [Call.List { MatchingLabels := (jobS.Labels.getD []), InNamespace := jobS.Namespace }]
      ∧ jobS.Labels = some (signer.labels c mod targetKernel (signer.GetName sm))
      ∧ jobS.Namespace = mod.Namespace
      ∧ (∀ other : Module, other.Name = mod.Name → other.Namespace = mod.Namespace →
          (signer.getJob c sm other targetKernel).2 = (signer.getJob c sm mod targetKernel).2)
      ∧ matchesQuery { MatchingLabels := signer.labels c mod targetKernel (signer.GetName sm),
                       InNamespace := mod.Namespace } jobS = true
      ∧ (∀ (other : Module) (otherKernel : String),
          other.Name ≠ mod.Name ∨ otherKernel ≠ targetKernel →
          matchesQuery
            { MatchingLabels := signer.labels c other otherKernel (signer.GetName sm),
              InNamespace := other.Namespace } jobS = false)) := by
  obtain ⟨h12, h13, h23, h14, h24⟩ := hkeys
  obtain ⟨sc, unsignedImage, _, _, _, hns, hlabels, _⟩ :=
    makeJobTemplate_returns c m mod signConfig targetKernel previousImage targetImage pushImage
      job h
  obtain ⟨scS, key, cert, _, _, _, _, hnsS, hlabelsS, _⟩ :=
    makeJob_returns c mS mod signConfigS targetKernel pushImage jobS hS
  have hmS : mS.name = signer.GetName sm := hname.symm
  rw [hmS] at hlabelsS
  refine ⟨⟨?_, hlabels, hns, ?_, ?_, ?_⟩, ⟨?_, hlabelsS, hnsS, ?_, ?_, ?_⟩⟩
  · rw [signjob_getJob_query, hlabels, hns]; rfl
  · intro other hn hnsp
    rw [signjob_getJob_query, signjob_getJob_query]
    simp only [signjob.labels, hn, hnsp]
  · unfold matchesQuery
    rw [hlabels, hns]
    simp only [beq_self_eq_true, Bool.or_true, Bool.true_and]
    exact selectorMatches_self _ _ _ _ _ _ h12 h13 h23
  · intro other otherKernel hne
    unfold matchesQuery
    rw [hlabels]
    have := selectorMatches_other c.ModuleNameLabel c.TargetKernelTarget c.JobType mod.Name
      targetKernel "sign" other.Name otherKernel "sign" h12 hne
    simp only [signjob.labels, this, Bool.and_false]
  · rw [signer_getJob_query, hlabelsS, hnsS]; rfl
  · intro other hn hnsp
    rw [signer_getJob_query, signer_getJob_query]
    simp only [signer.labels, hn, hnsp]
  · unfold matchesQuery
    rw [hlabelsS, hnsS]
    simp only [beq_self_eq_true, Bool.or_true, Bool.true_and]
    exact selectorMatches_self _ _ _ _ _ _ h12 h14 h24
  · intro other otherKernel hne
    unfold matchesQuery
    rw [hlabelsS]
    have := selectorMatches_other c.ModuleNameLabel c.TargetKernelTarget c.BuildStage mod.Name
      targetKernel (signer.GetName sm) other.Name otherKernel (signer.GetName sm) h12 hne
    simp only [signer.labels, this, Bool.and_false]

/-- Witness for C30: the label keys of the samples, the builders of the tests, and the managers
over mocks; the Job of each builder answers the query of its unit. -/
theorem discovery_key_consistency_witness :
    ∃ job jobS,
      signjob.MakeJobTemplate sampleConstants { scheme := sampleScheme } sampleModulePullSecret
        (some sampleSign) "1.2.3" "" "target-image" true = some (.ok job)
      ∧ signer.MakeJob sampleConstants (signer.NewSigner sampleScheme) sampleModulePullSecret
        (some sampleSign) "1.2.3" true = some (.ok jobS)
      ∧ matchesQuery
          { MatchingLabels := signjob.labels sampleConstants sampleModulePullSecret "1.2.3",
            InNamespace := "some-namespace" } job = true
      ∧ matchesQuery
          { MatchingLabels := signer.labels sampleConstants sampleModulePullSecret "1.2.3" "sign",
            InNamespace := "some-namespace" } jobS = true := by
  have hall := discovery_key_consistency sampleConstants sampleModulePullSecret "1.2.3" true
    { scheme := sampleScheme } (some sampleSign) "" "target-image" _
    (mockSignJobManager (.ok []) none none (.ok (sampleJob "" {})))
    (signer.NewSigner sampleScheme) (some sampleSign) _
    (mockSigningManager (.ok []) none none (.ok (sampleJob "" {})))
    ⟨by decide, by decide, by decide, by decide, by decide⟩ rfl rfl rfl
  exact ⟨_, _, rfl, rfl, hall.1.2.2.2.2.1, hall.2.2.2.2.2.1⟩

/-! ## `ApplyBuildArgOverrides` applied twice (C31) -/

/-- Replacing a slot by the override of its name keeps the name, and replacing again changes
nothing. -/
theorem override_slot_stable (overrides : List BuildArg) (a : BuildArg) :
    (((build.fillOverridesMap overrides).lookup a.Name).getD a).Name = a.Name
    ∧ ((build.fillOverridesMap overrides).lookup
          (((build.fillOverridesMap overrides).lookup a.Name).getD a).Name).getD
        (((build.fillOverridesMap overrides).lookup a.Name).getD a)
      = ((build.fillOverridesMap overrides).lookup a.Name).getD a := by
  cases h : (build.fillOverridesMap overrides).lookup a.Name with
  | none => simp [h]
  | some o =>
    have hname := ((lookup_overridesMap overrides a.Name).1 o h).1
    simp [hname, h]

/-- The override bound to a key of the override map bears that key as its name, and the map
binds that name to it. -/
theorem override_of_key_stable (overrides : List BuildArg) (n : String)
    (hn : n ∈ build.StringKeySet (build.fillOverridesMap overrides)) :
    (build.mapGet (build.fillOverridesMap overrides) n).Name = n
    ∧ ((build.fillOverridesMap overrides).lookup
          (build.mapGet (build.fillOverridesMap overrides) n).Name).getD
        (build.mapGet (build.fillOverridesMap overrides) n)
      = build.mapGet (build.fillOverridesMap overrides) n := by
  obtain ⟨v, hv⟩ := lookup_of_mem_keys _ n hn
  have hname := ((lookup_overridesMap overrides n).1 v hv).1
  simp [build.mapGet, hv, hname]

/-- After one application no override is left unused: a second application appends nothing. -/
theorem unusedOverrides_of_result (args overrides : List BuildArg) :
    (build.replaceLoop (build.fillOverridesMap overrides)
      (build.ApplyBuildArgOverrides args overrides)
      (build.StringKeySet (build.fillOverridesMap overrides))).2 = [] := by
  rw [List.eq_nil_iff_forall_not_mem]
  intro n hn
  rw [replaceLoop_snd_mem] at hn
  obtain ⟨hkey, hall⟩ := hn
  obtain ⟨v, hv⟩ := lookup_of_mem_keys _ n hkey
  have hex : ∃ r ∈ build.ApplyBuildArgOverrides args overrides, r.Name = n := by
    by_cases hA : ∃ a ∈ args, a.Name = n
    · obtain ⟨a, ha, han⟩ := hA
      refine ⟨((build.fillOverridesMap overrides).lookup a.Name).getD a, ?_, ?_⟩
      · rw [applyBuildArgOverrides_eq]
        exact List.mem_append_left _ (List.mem_map.mpr ⟨a, ha, rfl⟩)
      · rw [(override_slot_stable overrides a).1, han]
    · have hU : n ∈ (build.replaceLoop (build.fillOverridesMap overrides) args
          (build.StringKeySet (build.fillOverridesMap overrides))).2 := by
        rw [(unusedOverrides_spec args overrides).2]
        refine ⟨((keys_overridesMap overrides).2 n).mp hkey, ?_⟩
        intro a ha han
        exact hA ⟨a, ha, han⟩
      refine ⟨build.mapGet (build.fillOverridesMap overrides) n, ?_, ?_⟩
      · rw [applyBuildArgOverrides_eq]
        exact List.mem_append_right _
          (List.mem_map.mpr ⟨n, (setList_perm _).mem_iff.mpr hU, rfl⟩)
      · exact (override_of_key_stable overrides n hkey).1
  obtain ⟨r, hr, hrn⟩ := hex
  have := hall r hr hrn
  rw [hv] at this
  cases this

/-- C31: `ApplyBuildArgOverrides` is idempotent in its overrides: for all argument sequences
`A` and override sequences `O`, applying `O` to `ApplyBuildArgOverrides A O` gives
`ApplyBuildArgOverrides A O` again; and with the empty override sequence it is the identity. -/
theorem applyBuildArgOverrides_idempotent :
    (∀ args overrides : List BuildArg,
      build.ApplyBuildArgOverrides (build.ApplyBuildArgOverrides args overrides) overrides
        = build.ApplyBuildArgOverrides args overrides)
    ∧ (∀ args : List BuildArg, build.ApplyBuildArgOverrides args [] = args) := by
  refine ⟨?_, applyBuildArgOverrides_no_overrides⟩
  intro args overrides
  rw [applyBuildArgOverrides_eq (build.ApplyBuildArgOverrides args overrides) overrides,
    unusedOverrides_of_result]
  have hnil : build.setList [] = [] := rfl
  rw [hnil, List.map_nil, List.append_nil]
  conv_rhs => rw [← List.map_id (build.ApplyBuildArgOverrides args overrides)]
  apply List.map_congr_left
  intro r hr
  rw [applyBuildArgOverrides_eq, List.mem_append] at hr
  rcases hr with hr | hr
  · obtain ⟨a, _, rfl⟩ := List.mem_map.mp hr
    exact (override_slot_stable overrides a).2
  · obtain ⟨n, hn, rfl⟩ := List.mem_map.mp hr
    have hU := (setList_perm _).mem_iff.mp hn
    exact (override_of_key_stable overrides n
      ((replaceLoop_snd_sublist _ _ _).subset hU)).2

/-! ## `isJobChanged` (C32) -/

/-- C32 fails as stated: `isJobChanged` reads the name of the existing Job for its error
message, so two existing Jobs without annotations that differ in their name only get different
results. -/
theorem isJobChanged_error_quotes_name :
    signjob.isJobChanged { Name := "job-a" } {} =
        .error (.errorf "annotations are not present in the existing job job-a")
      ∧ signjob.isJobChanged { Name := "job-b" } {} =
        .error (.errorf "annotations are not present in the existing job job-b")
      ∧ signjob.isJobChanged { Name := "job-a" } {}
        ≠ signjob.isJobChanged { Name := "job-b" } {} := by
  have ha : signjob.isJobChanged { Name := "job-a" } {} =
      .error (.errorf "annotations are not present in the existing job job-a") := rfl
  have hb : signjob.isJobChanged { Name := "job-b" } {} =
      .error (.errorf "annotations are not present in the existing job job-b") := rfl
  refine ⟨ha, hb, ?_⟩
  rw [ha, hb]
  intro h
  injection h with h
  injection h with h
  exact absurd h (by decide)

/-- C32, amended: `isJobChanged` returns an error if and only if the existing Job has no
annotations map at all, and the error quotes the existing Job's name; otherwise it returns
`changed = true` exactly when the value of the hash annotation on the existing Job differs from
that on the new Job, an absent annotation being read as the empty string; and apart from the
existing Job's name in the error it looks at no other field of either Job: two calls whose
existing Jobs agree on having annotations and on the name, and whose Jobs agree on the hash
values, return the same, and Jobs with annotations and equal hash values are reported unchanged
whatever else they hold. -/
theorem isJobChanged_decided_by_hash :
    (∀ existingJob newJob : Job,
      (∃ err, signjob.isJobChanged existingJob newJob = .error err)
        ↔ existingJob.Annotations = none)
    ∧ (∀ existingJob newJob : Job, existingJob.Annotations = none →
        signjob.isJobChanged existingJob newJob =
          .error (Errorf "annotations are not present in the existing job " existingJob.Name))
    ∧ (∀ existingJob newJob : Job, existingJob.Annotations ≠ none →
        signjob.isJobChanged existingJob newJob =
          .ok (decide (mapIndex existingJob.Annotations signjob.jobHashAnnotation
            ≠ mapIndex newJob.Annotations signjob.jobHashAnnotation)))
    ∧ (∀ existingJob newJob : Job, existingJob.Annotations ≠ none →
        mapIndex existingJob.Annotations signjob.jobHashAnnotation
          = mapIndex newJob.Annotations signjob.jobHashAnnotation →
        signjob.isJobChanged existingJob newJob = .ok false)
    ∧ (∀ existingJob newJob otherExisting otherNew : Job,
        (existingJob.Annotations = none ↔ otherExisting.Annotations = none) →
        existingJob.Name = otherExisting.Name →
        mapIndex existingJob.Annotations signjob.jobHashAnnotation
          = mapIndex otherExisting.Annotations signjob.jobHashAnnotation →
        mapIndex newJob.Annotations signjob.jobHashAnnotation
          = mapIndex otherNew.Annotations signjob.jobHashAnnotation →
        signjob.isJobChanged existingJob newJob
          = signjob.isJobChanged otherExisting otherNew) := by
  have hnone : ∀ existingJob newJob : Job, existingJob.Annotations = none →
      signjob.isJobChanged existingJob newJob =
        .error (Errorf "annotations are not present in the existing job " existingJob.Name) := by
    intro existingJob newJob h
    unfold signjob.isJobChanged Job.GetAnnotations
    simp only [h]
  have hsome : ∀ existingJob newJob : Job, existingJob.Annotations ≠ none →
      signjob.isJobChanged existingJob newJob =
        .ok (decide (mapIndex existingJob.Annotations signjob.jobHashAnnotation
          ≠ mapIndex newJob.Annotations signjob.jobHashAnnotation)) := by
    intro existingJob newJob h
    unfold signjob.isJobChanged Job.GetAnnotations
    cases hann : existingJob.Annotations with
    | none => exact absurd hann h
    | some anns =>
      simp only []
      split_ifs with heq <;> simp [heq]
  refine ⟨?_, hnone, hsome, ?_, ?_⟩
  · intro existingJob newJob
    constructor
    · rintro ⟨err, herr⟩
      by_contra hne
      rw [hsome existingJob newJob hne] at herr
      cases herr
    · intro h
      exact ⟨_, hnone existingJob newJob h⟩
  · intro existingJob newJob hne heq
    rw [hsome existingJob newJob hne]
    simp [heq]
  · intro existingJob newJob otherExisting otherNew hiff hname hhash hnew
    by_cases h : existingJob.Annotations = none
    · rw [hnone existingJob newJob h, hnone otherExisting otherNew (hiff.mp h), hname]
    · have h2 : otherExisting.Annotations ≠ none := fun hx => h (hiff.mpr hx)
      rw [hsome existingJob newJob h, hsome otherExisting otherNew h2, hhash, hnew]

/-! ## Pod-template well-formedness (C33) -/

/-- A mount and a volume made by the in-cluster builder from the same secret reference bear the
same name. -/
theorem mount_name_eq_volume_name (secretRef : Option LocalObjectReference)
    (mountPath key path : String) :
    (signjob.makeImageSecretVolumeMount secretRef mountPath).Name
      = (signjob.makeImageSigningSecretVolume secretRef key path).Name := by
  cases secretRef <;> rfl

/-- Volumes made by the in-cluster builder from two secret references bear the same name only if
the references bear the same name, or are both nil. -/
theorem volume_name_injective (r1 r2 : Option LocalObjectReference) (k1 p1 k2 p2 : String)
    (h : (signjob.makeImageSigningSecretVolume r1 k1 p1).Name
      = (signjob.makeImageSigningSecretVolume r2 k2 p2).Name) :
    r1.map LocalObjectReference.Name = r2.map LocalObjectReference.Name := by
  have hne : ∀ x : String, "" ≠ "secret-" ++ x := by
    intro x hx
    have hlen := congrArg String.length hx
    rw [String.length_append] at hlen
    have h7 : "secret-".length = 7 := by decide
    have h0 : "".length = 0 := by decide
    omega
  cases r1 with
  | none =>
    cases r2 with
    | none => rfl
    | some b => exact absurd h (hne b.Name)
  | some a =>
    cases r2 with
    | none => exact absurd h.symm (hne a.Name)
    | some b =>
      have hdata := congrArg String.data h
      simp only [signjob.makeImageSigningSecretVolume, signjob.volumeNameFromSecretRef,
        String.data_append] at hdata
      have := List.append_cancel_left hdata
      simp only [Option.map_some']
      exact congrArg some (String.ext this)

/-- C33 fails as stated: with neither a key nor a cert reference, and no pull secret, the
in-cluster builder still returns a Job; no two secrets are given, so the names of the secrets
given are pairwise distinct; yet the two volumes of the Job are both the empty volume, and the
volume names, the empty name twice, are not pairwise distinct. -/
theorem makeJobTemplate_nil_secrets_empty_volumes :
    ∃ job,
      signjob.MakeJobTemplate sampleConstants { scheme := sampleScheme } sampleModule
        (some { UnsignedImage := "my.registry/my/image" }) "1.2.3" "" "target-image" true
        = some (.ok job)
      ∧ job.Spec.Template.Spec.Volumes.map Volume.Name = ["", ""]
      ∧ ¬ (job.Spec.Template.Spec.Volumes.map Volume.Name).Nodup :=
  ⟨_, rfl, by decide, by decide⟩

/-- C33, amended: pod-template well-formedness of the Job built in the cluster. For every
successful `MakeJobTemplate` call, the container has as many volume mounts as the Job has
volumes, and every mount bears the name of a volume of the Job; and whenever at least one of the
key and cert secrets is given and the names of the key, cert and pull secrets that are given are
pairwise distinct, the volume names are pairwise distinct. -/
theorem makeJobTemplate_pod_template_well_formed (c : Constants) (m : signjob.signer)
    (mod : Module) (signConfig : Option Sign) (targetKernel previousImage targetImage : String)
    (pushImage : Bool) (job : Job)
    (h : signjob.MakeJobTemplate c m mod signConfig targetKernel previousImage targetImage
      pushImage = some (.ok job)) :
    ∃ sc container,
      signConfig = some sc
      ∧ job.Spec.Template.Spec.Containers = [container]
      ∧ container.VolumeMounts.length = job.Spec.Template.Spec.Volumes.length
      ∧ (∀ mount ∈ container.VolumeMounts,
          ∃ volume ∈ job.Spec.Template.Spec.Volumes, volume.Name = mount.Name)
      ∧ ((sc.KeySecret ≠ none ∨ sc.CertSecret ≠ none) →
          (∀ key cert, sc.KeySecret = some key → sc.CertSecret = some cert →
            key.Name ≠ cert.Name) →
          (∀ pull key, mod.Spec.ImageRepoSecret = some pull → sc.KeySecret = some key →
            pull.Name ≠ key.Name) →
          (∀ pull cert, mod.Spec.ImageRepoSecret = some pull → sc.CertSecret = some cert →
            pull.Name ≠ cert.Name) →
          (job.Spec.Template.Spec.Volumes.map Volume.Name).Nodup) := by
  obtain ⟨sc, unsignedImage, hsc, _, _, _, _, _, _, _, _, hcont, hvol⟩ :=
    makeJobTemplate_returns c m mod signConfig targetKernel previousImage targetImage pushImage
      job h
  refine ⟨sc, _, hsc, hcont, ?_, ?_, ?_⟩
  · rw [hvol]
    cases mod.Spec.ImageRepoSecret <;> simp
  · rw [hvol]
    intro mount hmount
    simp only [List.mem_append, List.mem_cons, List.mem_singleton, List.not_mem_nil,
      or_false] at hmount
    rcases hmount with (hm | hm) | hm
    · exact ⟨_, List.mem_append_left _ (List.mem_cons_of_mem _ (List.mem_singleton_self _)),
        by rw [hm]; exact (mount_name_eq_volume_name _ _ _ _).symm⟩
    · exact ⟨_, List.mem_append_left _ (List.mem_cons_self _ _),
        by rw [hm]; exact (mount_name_eq_volume_name _ _ _ _).symm⟩
    · by_cases hp : mod.Spec.ImageRepoSecret = none
      · simp [hp] at hm
      · simp only [hp, ne_eq, not_false_eq_true, if_true, List.mem_singleton] at hm
        refine ⟨signjob.makeImageSigningSecretVolume mod.Spec.ImageRepoSecret
          DockerConfigJsonKey "config.json", List.mem_append_right _ ?_, ?_⟩
        · simp [hp]
        · rw [hm]; exact (mount_name_eq_volume_name _ _ _ _).symm
  · intro hgiven hkeycert hpullkey hpullcert
    have hkc : sc.KeySecret.map LocalObjectReference.Name
        ≠ sc.CertSecret.map LocalObjectReference.Name := by
      intro heq
      cases hk : sc.KeySecret with
      | none =>
        cases hc : sc.CertSecret with
        | none => rcases hgiven with hg | hg
                  · exact hg hk
                  · exact hg hc
        | some cert => simp [hk, hc] at heq
      | some key =>
        cases hc : sc.CertSecret with
        | none => simp [hk, hc] at heq
        | some cert =>
          simp only [hk, hc, Option.map_some', Option.some.injEq] at heq
          exact hkeycert key cert hk hc heq
    rw [hvol]
    have hkc2 : (signjob.makeImageSigningSecretVolume sc.KeySecret "key" "key.priv").Name
        ≠ (signjob.makeImageSigningSecretVolume sc.CertSecret "cert" "public.der").Name :=
      fun hx => hkc (volume_name_injective _ _ _ _ _ _ hx)
    cases hp : mod.Spec.ImageRepoSecret with
    | none => simp [hkc2]
    | some pull =>
      have hpk : some pull.Name ≠ sc.KeySecret.map LocalObjectReference.Name := by
        intro heq
        cases hk : sc.KeySecret with
        | none => simp [hk] at heq
        | some key =>
          simp only [hk, Option.map_some', Option.some.injEq] at heq
          exact hpullkey pull key hp hk heq
      have hpc : some pull.Name ≠ sc.CertSecret.map LocalObjectReference.Name := by
        intro heq
        cases hc : sc.CertSecret with
        | none => simp [hc] at heq
        | some cert =>
          simp only [hc, Option.map_some', Option.some.injEq] at heq
          exact hpullcert pull cert hp hc heq
      have hpk2 : (signjob.makeImageSigningSecretVolume sc.KeySecret "key" "key.priv").Name
          ≠ (signjob.makeImageSigningSecretVolume (some pull) DockerConfigJsonKey
              "config.json").Name :=
        fun hx => hpk (volume_name_injective _ _ _ _ _ _ hx).symm
      have hpc2 : (signjob.makeImageSigningSecretVolume sc.CertSecret "cert" "public.der").Name
          ≠ (signjob.makeImageSigningSecretVolume (some pull) DockerConfigJsonKey
              "config.json").Name :=
        fun hx => hpc (volume_name_injective _ _ _ _ _ _ hx).symm
      simp [hkc2, hpk2, hpc2]

/-- Witness for C33: the module, sign config and scheme of the builder tests, whose three secret
names differ. -/
theorem makeJobTemplate_pod_template_well_formed_witness :
    ∃ job,
      signjob.MakeJobTemplate sampleConstants { scheme := sampleScheme } sampleModulePullSecret
        (some sampleSign) "1.2.3" "" "target-image" true = some (.ok job)
      ∧ (job.Spec.Template.Spec.Volumes.map Volume.Name).Nodup := by
  obtain ⟨sc, container, hsc, _, _, _, hnodup⟩ :=
    makeJobTemplate_pod_template_well_formed sampleConstants { scheme := sampleScheme }
      sampleModulePullSecret (some sampleSign) "1.2.3" "" "target-image" true _ rfl
  cases hsc
  refine ⟨_, rfl, hnodup (Or.inl (by decide)) ?_ ?_ ?_⟩
  · intro key cert hk hc
    cases hk
    cases hc
    decide
  · intro pull key hp hk
    cases hp
    cases hk
    decide
  · intro pull cert hp hc
    cases hp
    cases hc
    decide

end KMM
